import Mathlib

/-!
# Footprint editor command dispatch (pcbnew/footprint_editor_utils.cpp)

A shallow embedding of the frame-level event handlers of the footprint editor, followed
by the handlers of the footprint viewer frame (pcbnew/footprint_viewer_frame.cpp), which
keep the same conventions over their own state and collaborator records, and by the event
wiring of the exchange-footprints dialog (pcbnew/dialogs/dialog_exchange_footprints_base.cpp).

Conventions of the embedding

* A frame is a record of the fields the handlers read and write through accessors
  (`GetToolId`/`SetToolID`, `IsModify`/`ClrModify`, `GetCurItem`/`SetCurItem`,
  `GetCrossHairPosition`/`SetCrossHairPosition`, `GetLink`/`SetLink`, ...).
* Every call into a collaborator that is not defined in this translation unit is appended
  to the frame's `trace`, in program order and with the arguments it receives. What a
  collaborator returns, and what it does to an object the handler goes on using, is taken
  from the `Collaborators` record, which is a parameter of every handler.
* A handler returns `none` when the C++ dereferences a null pointer.
-/

namespace Pcbnew

/-- Integer point of the toolkit (`wxPoint`). -/
structure wxPoint where
  x : Int
  y : Int
deriving DecidableEq

/-- Item type tags (`KICAD_T`) used by the handlers; `other n` is any further tag, with
its numeric value. -/
inductive KICAD_T where
  | PCB_MODULE_T
  | PCB_PAD_T
  | PCB_MODULE_TEXT_T
  | PCB_MODULE_EDGE_T
  | other (n : Nat)
deriving DecidableEq

/-- Kind of a footprint text (`TEXTE_MODULE::TEXT_TYPE`). -/
inductive TEXT_TYPE where
  | TEXT_is_REFERENCE
  | TEXT_is_VALUE
  | TEXT_is_DIVERS
deriving DecidableEq

/-- Footprint text (`TEXTE_MODULE`): its kind and its string. -/
structure TEXTE_MODULE where
  m_Type : TEXT_TYPE
  m_Text : String
deriving DecidableEq

/-- Owner of a footprint (`GetParent()`): the editor board, the main board, or none. -/
inductive BoardRef where
  | noBoard
  | editorBoard
  | mainBoard
deriving DecidableEq

/-- Footprint (`MODULE`). `body` stands for the content the handlers never inspect
(pads, outlines, orientation, ...). -/
structure MODULE where
  m_Link : Int
  m_TimeStamp : Int
  m_Pos : wxPoint
  m_Flags : Nat
  m_Parent : BoardRef
  m_Reference : TEXTE_MODULE
  m_Value : TEXTE_MODULE
  body : Nat
deriving DecidableEq

/-- Board (`BOARD`): the footprint list `m_Modules` in list order (`Next()`), and the
status word. -/
structure BOARD where
  m_Modules : List MODULE
  m_Status_Pcb : Int
deriving DecidableEq

/-- Item the screen can hold as current item (`BOARD_ITEM` / `EDA_ITEM`). `m_TextType`
is read only for an item of type `PCB_MODULE_TEXT_T`; `isNew` is the `IS_NEW` bit of the
status flags (`IsNew()`), `m_Flags` the remaining bits. -/
structure BOARD_ITEM where
  m_StructType : KICAD_T
  m_TextType : TEXT_TYPE
  m_Pos : wxPoint
  m_Flags : Nat
  isNew : Bool
  menuText : String
  menuImage : Nat
  body : Nat
deriving DecidableEq

/-- Undo command kinds (`UNDO_REDO_T`) the handlers pass. -/
inductive UNDO_REDO_T where
  | UR_CHANGED
deriving DecidableEq

/-- Block commands set on `m_BlockLocate`. -/
inductive BLOCK_COMMAND_T where
  | BLOCK_IDLE
  | BLOCK_MOVE
  | BLOCK_DUPLICATE
  | BLOCK_ZOOM
  | BLOCK_DELETE
  | BLOCK_ROTATE
  | BLOCK_MIRROR_X
  | BLOCK_MOVE_EXACT
deriving DecidableEq

/-- Cursor shapes handed to `SetToolID`. -/
inductive wxStockCursor where
  | wxCURSOR_DEFAULT
  | wxCURSOR_ARROW
  | wxCURSOR_PENCIL
  | wxCURSOR_BULLSEYE
  | wxCURSOR_MAGNIFIER
deriving DecidableEq

/-- Command identifiers the two handlers switch on. `other n` is any identifier that no
`case` label of this file names. -/
inductive CmdId where
  | wxID_CUT
  | wxID_COPY
  | ID_TOOLBARH_PCB_SELECT_LAYER
  | ID_MODEDIT_PAD_SETTINGS
  | ID_PCB_USER_GRID_SETUP
  | ID_POPUP_PCB_ROTATE_TEXTEPCB
  | ID_POPUP_PCB_EDIT_TEXTEPCB
  | ID_POPUP_PCB_ROTATE_TEXTMODULE
  | ID_POPUP_PCB_ROTATE_MODULE_CLOCKWISE
  | ID_POPUP_PCB_ROTATE_MODULE_COUNTERCLOCKWISE
  | ID_POPUP_PCB_EDIT_TEXTMODULE
  | ID_POPUP_PCB_APPLY_PAD_SETTINGS
  | ID_POPUP_PCB_COPY_PAD_SETTINGS
  | ID_POPUP_PCB_GLOBAL_IMPORT_PAD_SETTINGS
  | ID_POPUP_PCB_STOP_CURRENT_DRAWING
  | ID_POPUP_MODEDIT_EDIT_BODY_ITEM
  | ID_POPUP_MODEDIT_EDIT_WIDTH_ALL_EDGE
  | ID_POPUP_MODEDIT_EDIT_LAYER_ALL_EDGE
  | ID_POPUP_MODEDIT_ENTER_EDGE_WIDTH
  | ID_POPUP_PCB_DELETE_EDGE
  | ID_POPUP_PCB_DELETE_TEXTMODULE
  | ID_POPUP_PCB_DELETE_PAD
  | ID_POPUP_DELETE_BLOCK
  | ID_POPUP_PLACE_BLOCK
  | ID_POPUP_ZOOM_BLOCK
  | ID_POPUP_MIRROR_X_BLOCK
  | ID_POPUP_ROTATE_BLOCK
  | ID_POPUP_DUPLICATE_BLOCK
  | ID_POPUP_CANCEL_CURRENT_COMMAND
  | ID_EXIT
  | ID_MODEDIT_SELECT_CURRENT_LIB
  | ID_OPEN_MODULE_VIEWER
  | ID_MODEDIT_DELETE_PART
  | ID_MODEDIT_NEW_MODULE
  | ID_MODEDIT_NEW_MODULE_FROM_WIZARD
  | ID_MODEDIT_SAVE_LIBMODULE
  | ID_MODEDIT_INSERT_MODULE_IN_BOARD
  | ID_MODEDIT_UPDATE_MODULE_IN_BOARD
  | ID_MODEDIT_IMPORT_PART
  | ID_MODEDIT_EXPORT_PART
  | ID_MODEDIT_CREATE_NEW_LIB_AND_SAVE_CURRENT_PART
  | ID_MODEDIT_SHEET_SET
  | ID_MODEDIT_LOAD_MODULE
  | ID_MODEDIT_CHECK
  | ID_MODEDIT_EDIT_MODULE_PROPERTIES
  | ID_POPUP_CLOSE_CURRENT_TOOL
  | ID_POPUP_PCB_EDIT_MODULE_PRMS
  | ID_POPUP_PCB_MOVE_PAD_REQUEST
  | ID_POPUP_PCB_EDIT_PAD
  | ID_POPUP_PCB_DUPLICATE_ITEM
  | ID_POPUP_PCB_DUPLICATE_ITEM_AND_INCREMENT
  | ID_POPUP_PCB_MOVE_EXACT
  | ID_POPUP_PCB_CREATE_ARRAY
  | ID_POPUP_PCB_MOVE_TEXTMODULE_REQUEST
  | ID_POPUP_PCB_MOVE_EDGE
  | ID_MODEDIT_MODULE_ROTATE
  | ID_MODEDIT_MODULE_MIRROR
  | ID_MODEDIT_MODULE_MOVE_EXACT
  | ID_PCB_DRAWINGS_WIDTHS_SETUP
  | ID_PCB_PAD_SETUP
  | ID_POPUP_MOVE_BLOCK_EXACT
  | ID_GEN_IMPORT_DXF_FILE
  | ID_NO_TOOL_SELECTED
  | ID_ZOOM_SELECTION
  | ID_MODEDIT_LINE_TOOL
  | ID_MODEDIT_ARC_TOOL
  | ID_MODEDIT_CIRCLE_TOOL
  | ID_MODEDIT_TEXT_TOOL
  | ID_MODEDIT_ANCHOR_TOOL
  | ID_MODEDIT_PLACE_GRID_COORD
  | ID_MODEDIT_PAD_TOOL
  | ID_MODEDIT_DELETE_TOOL
  | ID_MODEDIT_MEASUREMENT_TOOL
  | other (n : Int)

/-- Numbering of the command identifiers: the position of the name in the declaration,
and the numeric value of an identifier that has no name here. -/
def CmdId.code : CmdId → Nat × Int
  | .wxID_CUT => (0, 0)
  | .wxID_COPY => (1, 0)
  | .ID_TOOLBARH_PCB_SELECT_LAYER => (2, 0)
  | .ID_MODEDIT_PAD_SETTINGS => (3, 0)
  | .ID_PCB_USER_GRID_SETUP => (4, 0)
  | .ID_POPUP_PCB_ROTATE_TEXTEPCB => (5, 0)
  | .ID_POPUP_PCB_EDIT_TEXTEPCB => (6, 0)
  | .ID_POPUP_PCB_ROTATE_TEXTMODULE => (7, 0)
  | .ID_POPUP_PCB_ROTATE_MODULE_CLOCKWISE => (8, 0)
  | .ID_POPUP_PCB_ROTATE_MODULE_COUNTERCLOCKWISE => (9, 0)
  | .ID_POPUP_PCB_EDIT_TEXTMODULE => (10, 0)
  | .ID_POPUP_PCB_APPLY_PAD_SETTINGS => (11, 0)
  | .ID_POPUP_PCB_COPY_PAD_SETTINGS => (12, 0)
  | .ID_POPUP_PCB_GLOBAL_IMPORT_PAD_SETTINGS => (13, 0)
  | .ID_POPUP_PCB_STOP_CURRENT_DRAWING => (14, 0)
  | .ID_POPUP_MODEDIT_EDIT_BODY_ITEM => (15, 0)
  | .ID_POPUP_MODEDIT_EDIT_WIDTH_ALL_EDGE => (16, 0)
  | .ID_POPUP_MODEDIT_EDIT_LAYER_ALL_EDGE => (17, 0)
  | .ID_POPUP_MODEDIT_ENTER_EDGE_WIDTH => (18, 0)
  | .ID_POPUP_PCB_DELETE_EDGE => (19, 0)
  | .ID_POPUP_PCB_DELETE_TEXTMODULE => (20, 0)
  | .ID_POPUP_PCB_DELETE_PAD => (21, 0)
  | .ID_POPUP_DELETE_BLOCK => (22, 0)
  | .ID_POPUP_PLACE_BLOCK => (23, 0)
  | .ID_POPUP_ZOOM_BLOCK => (24, 0)
  | .ID_POPUP_MIRROR_X_BLOCK => (25, 0)
  | .ID_POPUP_ROTATE_BLOCK => (26, 0)
  | .ID_POPUP_DUPLICATE_BLOCK => (27, 0)
  | .ID_POPUP_CANCEL_CURRENT_COMMAND => (28, 0)
  | .ID_EXIT => (29, 0)
  | .ID_MODEDIT_SELECT_CURRENT_LIB => (30, 0)
  | .ID_OPEN_MODULE_VIEWER => (31, 0)
  | .ID_MODEDIT_DELETE_PART => (32, 0)
  | .ID_MODEDIT_NEW_MODULE => (33, 0)
  | .ID_MODEDIT_NEW_MODULE_FROM_WIZARD => (34, 0)
  | .ID_MODEDIT_SAVE_LIBMODULE => (35, 0)
  | .ID_MODEDIT_INSERT_MODULE_IN_BOARD => (36, 0)
  | .ID_MODEDIT_UPDATE_MODULE_IN_BOARD => (37, 0)
  | .ID_MODEDIT_IMPORT_PART => (38, 0)
  | .ID_MODEDIT_EXPORT_PART => (39, 0)
  | .ID_MODEDIT_CREATE_NEW_LIB_AND_SAVE_CURRENT_PART => (40, 0)
  | .ID_MODEDIT_SHEET_SET => (41, 0)
  | .ID_MODEDIT_LOAD_MODULE => (42, 0)
  | .ID_MODEDIT_CHECK => (43, 0)
  | .ID_MODEDIT_EDIT_MODULE_PROPERTIES => (44, 0)
  | .ID_POPUP_CLOSE_CURRENT_TOOL => (45, 0)
  | .ID_POPUP_PCB_EDIT_MODULE_PRMS => (46, 0)
  | .ID_POPUP_PCB_MOVE_PAD_REQUEST => (47, 0)
  | .ID_POPUP_PCB_EDIT_PAD => (48, 0)
  | .ID_POPUP_PCB_DUPLICATE_ITEM => (49, 0)
  | .ID_POPUP_PCB_DUPLICATE_ITEM_AND_INCREMENT => (50, 0)
  | .ID_POPUP_PCB_MOVE_EXACT => (51, 0)
  | .ID_POPUP_PCB_CREATE_ARRAY => (52, 0)
  | .ID_POPUP_PCB_MOVE_TEXTMODULE_REQUEST => (53, 0)
  | .ID_POPUP_PCB_MOVE_EDGE => (54, 0)
  | .ID_MODEDIT_MODULE_ROTATE => (55, 0)
  | .ID_MODEDIT_MODULE_MIRROR => (56, 0)
  | .ID_MODEDIT_MODULE_MOVE_EXACT => (57, 0)
  | .ID_PCB_DRAWINGS_WIDTHS_SETUP => (58, 0)
  | .ID_PCB_PAD_SETUP => (59, 0)
  | .ID_POPUP_MOVE_BLOCK_EXACT => (60, 0)
  | .ID_GEN_IMPORT_DXF_FILE => (61, 0)
  | .ID_NO_TOOL_SELECTED => (62, 0)
  | .ID_ZOOM_SELECTION => (63, 0)
  | .ID_MODEDIT_LINE_TOOL => (64, 0)
  | .ID_MODEDIT_ARC_TOOL => (65, 0)
  | .ID_MODEDIT_CIRCLE_TOOL => (66, 0)
  | .ID_MODEDIT_TEXT_TOOL => (67, 0)
  | .ID_MODEDIT_ANCHOR_TOOL => (68, 0)
  | .ID_MODEDIT_PLACE_GRID_COORD => (69, 0)
  | .ID_MODEDIT_PAD_TOOL => (70, 0)
  | .ID_MODEDIT_DELETE_TOOL => (71, 0)
  | .ID_MODEDIT_MEASUREMENT_TOOL => (72, 0)
  | .other n => (73, n)

/-- Inverse of `CmdId.code`. -/
def CmdId.ofCode : Nat × Int → CmdId
  | (0, _) => .wxID_CUT
  | (1, _) => .wxID_COPY
  | (2, _) => .ID_TOOLBARH_PCB_SELECT_LAYER
  | (3, _) => .ID_MODEDIT_PAD_SETTINGS
  | (4, _) => .ID_PCB_USER_GRID_SETUP
  | (5, _) => .ID_POPUP_PCB_ROTATE_TEXTEPCB
  | (6, _) => .ID_POPUP_PCB_EDIT_TEXTEPCB
  | (7, _) => .ID_POPUP_PCB_ROTATE_TEXTMODULE
  | (8, _) => .ID_POPUP_PCB_ROTATE_MODULE_CLOCKWISE
  | (9, _) => .ID_POPUP_PCB_ROTATE_MODULE_COUNTERCLOCKWISE
  | (10, _) => .ID_POPUP_PCB_EDIT_TEXTMODULE
  | (11, _) => .ID_POPUP_PCB_APPLY_PAD_SETTINGS
  | (12, _) => .ID_POPUP_PCB_COPY_PAD_SETTINGS
  | (13, _) => .ID_POPUP_PCB_GLOBAL_IMPORT_PAD_SETTINGS
  | (14, _) => .ID_POPUP_PCB_STOP_CURRENT_DRAWING
  | (15, _) => .ID_POPUP_MODEDIT_EDIT_BODY_ITEM
  | (16, _) => .ID_POPUP_MODEDIT_EDIT_WIDTH_ALL_EDGE
  | (17, _) => .ID_POPUP_MODEDIT_EDIT_LAYER_ALL_EDGE
  | (18, _) => .ID_POPUP_MODEDIT_ENTER_EDGE_WIDTH
  | (19, _) => .ID_POPUP_PCB_DELETE_EDGE
  | (20, _) => .ID_POPUP_PCB_DELETE_TEXTMODULE
  | (21, _) => .ID_POPUP_PCB_DELETE_PAD
  | (22, _) => .ID_POPUP_DELETE_BLOCK
  | (23, _) => .ID_POPUP_PLACE_BLOCK
  | (24, _) => .ID_POPUP_ZOOM_BLOCK
  | (25, _) => .ID_POPUP_MIRROR_X_BLOCK
  | (26, _) => .ID_POPUP_ROTATE_BLOCK
  | (27, _) => .ID_POPUP_DUPLICATE_BLOCK
  | (28, _) => .ID_POPUP_CANCEL_CURRENT_COMMAND
  | (29, _) => .ID_EXIT
  | (30, _) => .ID_MODEDIT_SELECT_CURRENT_LIB
  | (31, _) => .ID_OPEN_MODULE_VIEWER
  | (32, _) => .ID_MODEDIT_DELETE_PART
  | (33, _) => .ID_MODEDIT_NEW_MODULE
  | (34, _) => .ID_MODEDIT_NEW_MODULE_FROM_WIZARD
  | (35, _) => .ID_MODEDIT_SAVE_LIBMODULE
  | (36, _) => .ID_MODEDIT_INSERT_MODULE_IN_BOARD
  | (37, _) => .ID_MODEDIT_UPDATE_MODULE_IN_BOARD
  | (38, _) => .ID_MODEDIT_IMPORT_PART
  | (39, _) => .ID_MODEDIT_EXPORT_PART
  | (40, _) => .ID_MODEDIT_CREATE_NEW_LIB_AND_SAVE_CURRENT_PART
  | (41, _) => .ID_MODEDIT_SHEET_SET
  | (42, _) => .ID_MODEDIT_LOAD_MODULE
  | (43, _) => .ID_MODEDIT_CHECK
  | (44, _) => .ID_MODEDIT_EDIT_MODULE_PROPERTIES
  | (45, _) => .ID_POPUP_CLOSE_CURRENT_TOOL
  | (46, _) => .ID_POPUP_PCB_EDIT_MODULE_PRMS
  | (47, _) => .ID_POPUP_PCB_MOVE_PAD_REQUEST
  | (48, _) => .ID_POPUP_PCB_EDIT_PAD
  | (49, _) => .ID_POPUP_PCB_DUPLICATE_ITEM
  | (50, _) => .ID_POPUP_PCB_DUPLICATE_ITEM_AND_INCREMENT
  | (51, _) => .ID_POPUP_PCB_MOVE_EXACT
  | (52, _) => .ID_POPUP_PCB_CREATE_ARRAY
  | (53, _) => .ID_POPUP_PCB_MOVE_TEXTMODULE_REQUEST
  | (54, _) => .ID_POPUP_PCB_MOVE_EDGE
  | (55, _) => .ID_MODEDIT_MODULE_ROTATE
  | (56, _) => .ID_MODEDIT_MODULE_MIRROR
  | (57, _) => .ID_MODEDIT_MODULE_MOVE_EXACT
  | (58, _) => .ID_PCB_DRAWINGS_WIDTHS_SETUP
  | (59, _) => .ID_PCB_PAD_SETUP
  | (60, _) => .ID_POPUP_MOVE_BLOCK_EXACT
  | (61, _) => .ID_GEN_IMPORT_DXF_FILE
  | (62, _) => .ID_NO_TOOL_SELECTED
  | (63, _) => .ID_ZOOM_SELECTION
  | (64, _) => .ID_MODEDIT_LINE_TOOL
  | (65, _) => .ID_MODEDIT_ARC_TOOL
  | (66, _) => .ID_MODEDIT_CIRCLE_TOOL
  | (67, _) => .ID_MODEDIT_TEXT_TOOL
  | (68, _) => .ID_MODEDIT_ANCHOR_TOOL
  | (69, _) => .ID_MODEDIT_PLACE_GRID_COORD
  | (70, _) => .ID_MODEDIT_PAD_TOOL
  | (71, _) => .ID_MODEDIT_DELETE_TOOL
  | (72, _) => .ID_MODEDIT_MEASUREMENT_TOOL
  | (_, n) => .other n

instance : DecidableEq CmdId := fun a b =>
  decidable_of_iff (a.code = b.code)
    ⟨fun h => by
      have ha : CmdId.ofCode a.code = a := by cases a <;> rfl
      have hb : CmdId.ofCode b.code = b := by cases b <;> rfl
      have h2 := congrArg CmdId.ofCode h
      rw [ha, hb] at h2
      exact h2,
     fun h => by rw [h]⟩

/-- Identifier of a menu entry: `wxID_NONE`, or a numeric identifier. -/
inductive MenuId where
  | wxID_NONE
  | num (n : Int)
deriving DecidableEq

/-- Bitmap of a menu entry: the `info_xpm` icon, or an item's own image. -/
inductive Bitmap where
  | info_xpm
  | image (n : Nat)
deriving DecidableEq

/-- Entry of a `wxMenu`: what `AddMenuItem` appends, or a separator. -/
inductive MenuEntry where
  | item (id : MenuId) (text : String) (bitmap : Bitmap)
  | separator
deriving DecidableEq

/-- Popup menu (`wxMenu`): its entries in the order they were appended. -/
abbrev wxMenu := List MenuEntry

/-- Frame whose tool manager receives `RunAction`. -/
inductive FrameRef where
  | footprintEditor
  | boardEditor
deriving DecidableEq

/-- Origin choices of the move-exact dialog (`MOVE_EXACT_ORIGIN`); `otherOrigin n` is any
origin but `RELATIVE_TO_CURRENT_POSITION`. -/
inductive MOVE_EXACT_ORIGIN where
  | RELATIVE_TO_CURRENT_POSITION
  | otherOrigin (n : Nat)
deriving DecidableEq

/-- Parameters the move-exact dialog fills in (`MOVE_PARAMETERS`). -/
structure MOVE_PARAMETERS where
  translation : wxPoint
  rotation : Int
  origin : MOVE_EXACT_ORIGIN
  allowOverride : Bool
  editingFootprint : Bool
deriving DecidableEq

/-- Scan lists handed to the collector. -/
inductive ScanList where
  | ModulesAndTheirItems
deriving DecidableEq

/-- Call into a collaborator, with the arguments the handler passes. `collab name item`
stands for the calls whose arguments play no part in a handler's control flow. -/
inductive Call where
  | DisplayError (msg : String)
  | DisplayErrorMessage (msg : String)
  | DisplayInfoMessage (msg : String)
  | wxMessageBox (msg : String)
  | wxFAIL_MSG (msg : String)
  | wxLogDebug (msg : String)
  | IsOK (msg : String)
  | CallEndMouseCapture
  | SaveCopyInUndoList (module : Option MODULE) (cmd : UNDO_REDO_T)
  | DeletePad (pad : Option BOARD_ITEM) (aQuery : Bool)
  | DeleteTextModule (text : Option BOARD_ITEM)
  | Delete_Edge_Module (edge : Option BOARD_ITEM)
  | RunAction (frame : FrameRef) (action : String)
  | Exchange_Module (aSrc : MODULE) (aDest : MODULE)
  | PlaceModule (module : MODULE)
  | commitAdd (module : MODULE)
  | commitPush (msg : String)
  | PopupMenu (menu : wxMenu)
  | InstallOptionsFrame (pos : wxPoint)
  | collab (name : String) (item : Option BOARD_ITEM)
deriving DecidableEq

/-- Footprint viewer window as the editor sees it. -/
structure ViewerWindow where
  shown : Bool
  iconized : Bool
  hasFocus : Bool
deriving DecidableEq

/-- Board editor frame (`PCB_EDIT_FRAME`) as the footprint editor uses it. -/
structure PCB_EDIT_FRAME where
  board : BOARD
  crossHair : wxPoint
  curItem : Option BOARD_ITEM
deriving DecidableEq

/-- State of the footprint editor frame (`FOOTPRINT_EDIT_FRAME`) and of what it reaches:
its board, its screen (`modified`, `curItem`, block command), the selected tool, the
canvas capture flag, the cross-hair, the current library nickname, the board editor and
the viewer when they exist, and the trace of collaborator calls. -/
structure EditState where
  board : BOARD
  modified : Bool
  curItem : Option BOARD_ITEM
  blockCommand : BLOCK_COMMAND_T
  toolId : CmdId
  toolCursor : wxStockCursor
  toolMsg : String
  mouseCaptured : Bool
  crossHair : wxPoint
  currentLib : String
  pcbframe : Option PCB_EDIT_FRAME
  viewer : Option ViewerWindow
  trace : List Call
deriving DecidableEq

/-- Results of the collaborators a handler consults: answers of the user to modal
dialogs, objects other modules create, and what other modules do to an object or a board
the handler goes on using. They are parameters: none of them is defined in this file. -/
structure Collaborators where
  IsOK : Bool
  IsEmpty : BOARD → Bool
  mousePosition : wxPoint
  SelectLibrary : String → String
  newViewer : ViewerWindow
  FindFocusIsViewer : Bool
  CreateNewModule : Option MODULE
  Clear_Pcb : Bool → BOARD → Bool × BOARD
  AddModuleToBoard : BOARD → MODULE → BOARD
  boardAdd : BOARD → MODULE → BOARD
  wizardShowModal : Bool
  GetBuiltFootprint : Option MODULE
  IsGalCanvasActive : Bool
  GetGalCanvas : Bool
  Exchange_Module : MODULE → MODULE → MODULE
  PlaceModule : wxPoint → MODULE → MODULE
  Push : List MODULE → Option MODULE → MODULE → List MODULE
  GetNewTimeStamp : Int
  Import_Module : BOARD → BOARD
  CreateNewLibrary : String
  getLibPath : String
  LoadModuleFromLibrary : String → Option MODULE
  Load_Module_From_BOARD : BOARD → Bool × BOARD
  defaultMoveParameters : MOVE_PARAMETERS
  moveExactDialog : MOVE_PARAMETERS → Bool × MOVE_PARAMETERS
  Rotate : BOARD_ITEM → wxPoint → Int → BOARD_ITEM
  Collect : BOARD → Option ScanList → List BOARD_ITEM
  PopupMenu : wxMenu → Option BOARD_ITEM → Option BOARD_ITEM

/-- Vector difference of two points (`operator-`). -/
def wxPoint.sub (a b : wxPoint) : wxPoint := ⟨a.x - b.x, a.y - b.y⟩

/-- Vector sum of two points (`operator+`). -/
def wxPoint.add (a b : wxPoint) : wxPoint := ⟨a.x + b.x, a.y + b.y⟩

/-- Append one collaborator call to the trace. -/
def EditState.log (s : EditState) (c : Call) : EditState :=
  { s with trace := s.trace ++ [c] }

/-- Append several collaborator calls to the trace, in order. -/
def EditState.logs (s : EditState) (cs : List Call) : EditState :=
  { s with trace := s.trace ++ cs }

/-- `SetToolID( id, cursor, message )`: records the selected tool. -/
def EditState.SetToolID (s : EditState) (id : CmdId) (cursor : wxStockCursor)
    (msg : String) : EditState :=
  { s with toolId := id, toolCursor := cursor, toolMsg := msg }

/-- `SetNoToolSelected()`: selects the idle tool `ID_NO_TOOL_SELECTED`. -/
def EditState.SetNoToolSelected (s : EditState) : EditState :=
  s.SetToolID CmdId.ID_NO_TOOL_SELECTED wxStockCursor.wxCURSOR_DEFAULT ""

/-- `SetCurItem( item )`. -/
def EditState.SetCurItem (s : EditState) (item : Option BOARD_ITEM) : EditState :=
  { s with curItem := item }

/-- `GetScreen()->ClrModify()`. -/
def EditState.ClrModify (s : EditState) : EditState :=
  { s with modified := false }

/-- `ClearFlags()` on a footprint. -/
def MODULE.ClearFlags (m : MODULE) : MODULE := { m with m_Flags := 0 }

/-- `ClearFlags()` on an item. -/
def BOARD_ITEM.ClearFlags (i : BOARD_ITEM) : BOARD_ITEM :=
  { i with m_Flags := 0, isNew := false }

/-- Modelled from the spec: `BOARD_ITEM::Move( v )` is declared outside src/; the stated
property of `moveExact` (final position = position + translation) takes it to shift the
position of the item by `v`. -/
def BOARD_ITEM.Move (i : BOARD_ITEM) (v : wxPoint) : BOARD_ITEM :=
  { i with m_Pos := i.m_Pos.add v }

/-- `GetBoard()->m_Modules->ClearFlags()` when `m_Modules` is not null: clears the flags
of the first footprint of the list. -/
def BOARD.clearFirstFlags (b : BOARD) : BOARD :=
  match b.m_Modules with
  | [] => b
  | m :: rest => { b with m_Modules := m.ClearFlags :: rest }

/-- Log a collaborator call that takes no item. -/
def EditState.call (s : EditState) (name : String) : EditState :=
  s.log (Call.collab name none)

/-- Log a collaborator call that receives an item pointer (possibly null). -/
def EditState.callOn (s : EditState) (name : String) (item : Option BOARD_ITEM) :
    EditState :=
  s.log (Call.collab name item)

/-- A footprint seen as an item (`MODULE` derives from `BOARD_ITEM`). -/
def MODULE.toItem (m : MODULE) : BOARD_ITEM :=
  { m_StructType := KICAD_T.PCB_MODULE_T, m_TextType := TEXT_TYPE.TEXT_is_DIVERS,
    m_Pos := m.m_Pos, m_Flags := m.m_Flags, isNew := false, menuText := "",
    menuImage := 0, body := m.body }

/-- `FOOTPRINT_EDIT_FRAME::RemoveStruct( EDA_ITEM* Item )`. -/
def RemoveStruct (s : EditState) (Item : Option BOARD_ITEM) : EditState :=
  match Item with
  | none => s
  | some item =>
    match item.m_StructType with
    | KICAD_T.PCB_PAD_T => s.log (Call.DeletePad (some item) false)
    | KICAD_T.PCB_MODULE_TEXT_T =>
      match item.m_TextType with
      | TEXT_TYPE.TEXT_is_REFERENCE => s.log (Call.DisplayError "Cannot delete REFERENCE!")
      | TEXT_TYPE.TEXT_is_VALUE => s.log (Call.DisplayError "Cannot delete VALUE!")
      | TEXT_TYPE.TEXT_is_DIVERS => s.log (Call.DeleteTextModule (some item))
    | KICAD_T.PCB_MODULE_EDGE_T =>
      (s.log (Call.Delete_Edge_Module (some item))).call "Refresh"
    | KICAD_T.PCB_MODULE_T => s
    | KICAD_T.other n =>
      s.log (Call.wxMessageBox (" RemoveStruct: item type " ++ toString n ++ " unknown."))

/-- `FOOTPRINT_EDIT_FRAME::OnVerticalToolbar( wxCommandEvent& aEvent )`, on the event's
identifier. -/
def OnVerticalToolbar (s : EditState) (id : CmdId) : EditState :=
  let lastToolID := s.toolId
  let s := s.SetNoToolSelected
  match id with
  | CmdId.ID_NO_TOOL_SELECTED => s
  | CmdId.ID_ZOOM_SELECTION =>
    if lastToolID ≠ CmdId.ID_ZOOM_SELECTION then
      s.SetToolID CmdId.ID_ZOOM_SELECTION wxStockCursor.wxCURSOR_MAGNIFIER "Zoom to selection"
    else
      s.SetNoToolSelected
  | CmdId.ID_MODEDIT_LINE_TOOL => s.SetToolID id wxStockCursor.wxCURSOR_PENCIL "Add line"
  | CmdId.ID_MODEDIT_ARC_TOOL => s.SetToolID id wxStockCursor.wxCURSOR_PENCIL "Add arc"
  | CmdId.ID_MODEDIT_CIRCLE_TOOL => s.SetToolID id wxStockCursor.wxCURSOR_PENCIL "Add circle"
  | CmdId.ID_MODEDIT_TEXT_TOOL => s.SetToolID id wxStockCursor.wxCURSOR_PENCIL "Add text"
  | CmdId.ID_MODEDIT_ANCHOR_TOOL =>
    s.SetToolID id wxStockCursor.wxCURSOR_PENCIL "Place anchor"
  | CmdId.ID_MODEDIT_PLACE_GRID_COORD =>
    s.SetToolID id wxStockCursor.wxCURSOR_PENCIL "Set grid origin"
  | CmdId.ID_MODEDIT_PAD_TOOL =>
    match s.board.m_Modules with
    | _ :: _ => s.SetToolID id wxStockCursor.wxCURSOR_PENCIL "Add pad"
    | [] =>
      (((s.SetToolID id wxStockCursor.wxCURSOR_ARROW "Pad properties").callOn
        "InstallPadOptionsFrame" none)).SetNoToolSelected
  | CmdId.ID_MODEDIT_DELETE_TOOL =>
    s.SetToolID id wxStockCursor.wxCURSOR_BULLSEYE "Delete item"
  | CmdId.ID_MODEDIT_MEASUREMENT_TOOL =>
    (s.log (Call.DisplayError
      "Measurement Tool not available in Legacy Toolset")).SetNoToolSelected
  | _ => (s.log (Call.wxFAIL_MSG "Unknown command id.")).SetNoToolSelected

/-- `FOOTPRINT_EDIT_FRAME::moveExact()`. -/
def moveExact (env : Collaborators) (s : EditState) : Option EditState :=
  let params : MOVE_PARAMETERS :=
    { env.defaultMoveParameters with allowOverride := false, editingFootprint := true }
  let ret := (env.moveExactDialog params).1
  let params := (env.moveExactDialog params).2
  let s := s.call "DIALOG_MOVE_EXACT::ShowModal"
  if ret then
    let s := s.log (Call.SaveCopyInUndoList s.board.m_Modules.head? UNDO_REDO_T.UR_CHANGED)
    match s.curItem with
    | none => none
    | some item =>
      let anchorPoint : wxPoint :=
        if params.origin = MOVE_EXACT_ORIGIN.RELATIVE_TO_CURRENT_POSITION then ⟨0, 0⟩
        else item.m_Pos
      let finalMoveVector := params.translation.sub anchorPoint
      let item := item.Move finalMoveVector
      let item := env.Rotate item item.m_Pos params.rotation
      some ((({ s with curItem := some item }).call "Refresh").call "MoveCursorToCrossHair")
  else
    some (s.call "MoveCursorToCrossHair")

/-- `FOOTPRINT_EDIT_FRAME::duplicateItems( bool aIncrement )`. -/
def duplicateItems (s : EditState) (aIncrement : Bool) : EditState :=
  s.callOn (if aIncrement then "duplicateItem( item, true )" else "duplicateItem( item, false )")
    s.curItem

/-- `FOOTPRINT_EDIT_FRAME::Transform( MODULE* module, int transform )`. -/
def Transform (env : Collaborators) (s : EditState) (module : Option BOARD_ITEM)
    (transform : CmdId) : Option EditState :=
  let s :=
    match transform with
    | CmdId.ID_MODEDIT_MODULE_ROTATE => s.callOn "RotateMarkedItems" module
    | CmdId.ID_MODEDIT_MODULE_MIRROR => s.callOn "MirrorMarkedItems" module
    | CmdId.ID_MODEDIT_MODULE_MOVE_EXACT =>
      let s := s.call "DIALOG_MOVE_EXACT::ShowModal"
      if (env.moveExactDialog env.defaultMoveParameters).1 then
        s.callOn "MoveMarkedItemsExactly" module
      else s
    | _ => s.log (Call.DisplayInfoMessage "Not available")
  match module with
  | none => none
  | some m => some ({ (s.callOn "CalculateBoundingBox" (some m)) with modified := true }.call
      "OnModify")

/-- First `switch( id )` of `Process_Special_Functions`: the listed identifiers `break`;
`ID_POPUP_CANCEL_CURRENT_COMMAND` and `default` share the remaining body. -/
def firstSwitch (s : EditState) (id : CmdId) : EditState :=
  match id with
  | CmdId.wxID_CUT
  | CmdId.wxID_COPY
  | CmdId.ID_TOOLBARH_PCB_SELECT_LAYER
  | CmdId.ID_MODEDIT_PAD_SETTINGS
  | CmdId.ID_PCB_USER_GRID_SETUP
  | CmdId.ID_POPUP_PCB_ROTATE_TEXTEPCB
  | CmdId.ID_POPUP_PCB_EDIT_TEXTEPCB
  | CmdId.ID_POPUP_PCB_ROTATE_TEXTMODULE
  | CmdId.ID_POPUP_PCB_ROTATE_MODULE_CLOCKWISE
  | CmdId.ID_POPUP_PCB_ROTATE_MODULE_COUNTERCLOCKWISE
  | CmdId.ID_POPUP_PCB_EDIT_TEXTMODULE
  | CmdId.ID_POPUP_PCB_APPLY_PAD_SETTINGS
  | CmdId.ID_POPUP_PCB_COPY_PAD_SETTINGS
  | CmdId.ID_POPUP_PCB_GLOBAL_IMPORT_PAD_SETTINGS
  | CmdId.ID_POPUP_PCB_STOP_CURRENT_DRAWING
  | CmdId.ID_POPUP_MODEDIT_EDIT_BODY_ITEM
  | CmdId.ID_POPUP_MODEDIT_EDIT_WIDTH_ALL_EDGE
  | CmdId.ID_POPUP_MODEDIT_EDIT_LAYER_ALL_EDGE
  | CmdId.ID_POPUP_MODEDIT_ENTER_EDGE_WIDTH
  | CmdId.ID_POPUP_PCB_DELETE_EDGE
  | CmdId.ID_POPUP_PCB_DELETE_TEXTMODULE
  | CmdId.ID_POPUP_PCB_DELETE_PAD
  | CmdId.ID_POPUP_DELETE_BLOCK
  | CmdId.ID_POPUP_PLACE_BLOCK
  | CmdId.ID_POPUP_ZOOM_BLOCK
  | CmdId.ID_POPUP_MIRROR_X_BLOCK
  | CmdId.ID_POPUP_ROTATE_BLOCK
  | CmdId.ID_POPUP_DUPLICATE_BLOCK => s
  | _ =>
    let s := if s.mouseCaptured then s.log Call.CallEndMouseCapture else s
    if id ≠ CmdId.ID_POPUP_CANCEL_CURRENT_COMMAND then s.SetNoToolSelected else s

/-- The `for` loop over the main board's footprint list (`source_module->Next()`) that
stops at the first footprint whose time stamp equals the link. -/
def searchSource (link : Int) : List MODULE → Option MODULE
  | [] => none
  | source_module :: next =>
    if link = source_module.m_TimeStamp then some source_module
    else searchSource link next

/-- Search of the old footprint (source) on the main board: run only when the edited
footprint's link is not zero; otherwise `source_module` stays null. -/
def findSourceModule (module_in_edit : MODULE) (mainpcb : BOARD) : Option MODULE :=
  if module_in_edit.m_Link ≠ 0 then searchSource module_in_edit.m_Link mainpcb.m_Modules
  else none

/-- Message of the rejected update command. -/
def msgCannotUpdate : String :=
  "Unable to find the footprint source on the main board" ++ "\nCannot update the footprint"

/-- Message of the rejected insert command. -/
def msgCannotInsert : String :=
  "A footprint source was found on the main board" ++ "\nCannot insert this footprint"

/-- The "new" footprint of the insert/update command: a copy of the edited footprint
with the main board as parent and link 0. -/
def newModuleFor (module_in_edit : MODULE) : MODULE :=
  { module_in_edit with m_Parent := BoardRef.mainBoard, m_Link := 0 }

/-- Common end of the insert/update command, after `commit.Push`: `newmodule->ClearFlags()`,
`GetScreen()->ClrModify()`, `pcbframe->SetCurItem( NULL )`, `mainpcb->m_Status_Pcb = 0`.
The commit keeps the pointer `newmodule`, so the footprint the main board holds on return
is the final value of `newmodule`; `env.Push` gives the main board's list from the old
list, the source footprint (when one is replaced) and that footprint. -/
def finishInsertOrUpdate (env : Collaborators) (s : EditState) (pcbframe : PCB_EDIT_FRAME)
    (source_module : Option MODULE) (newmodule : MODULE) : EditState :=
  let newmodule := newmodule.ClearFlags
  let s := s.ClrModify
  let pcbframe := { pcbframe with curItem := none }
  let mainpcb : BOARD :=
    { m_Modules := env.Push pcbframe.board.m_Modules source_module newmodule,
      m_Status_Pcb := 0 }
  { s with pcbframe := some { pcbframe with board := mainpcb } }

/-- Body of `case ID_MODEDIT_INSERT_MODULE_IN_BOARD: case ID_MODEDIT_UPDATE_MODULE_IN_BOARD:`. -/
def insertOrUpdateModuleInBoard (env : Collaborators) (s : EditState) (id : CmdId) :
    Option EditState :=
  match s.pcbframe with
  | none => some (s.log (Call.DisplayErrorMessage "No board currently open."))
  | some pcbframe =>
    let mainpcb := pcbframe.board
    match s.board.m_Modules with
    | [] => none
    | module_in_edit :: _ =>
      let source_module := findSourceModule module_in_edit mainpcb
      if source_module.isNone ∧ id = CmdId.ID_MODEDIT_UPDATE_MODULE_IN_BOARD then
        some (s.log (Call.DisplayError msgCannotUpdate))
      else if source_module.isSome ∧ id = CmdId.ID_MODEDIT_INSERT_MODULE_IN_BOARD then
        some (s.log (Call.DisplayError msgCannotInsert))
      else
        let s := s.log (Call.RunAction FrameRef.footprintEditor "selectionClear")
        let s := s.log (Call.RunAction FrameRef.boardEditor "selectionClear")
        let newmodule := newModuleFor module_in_edit
        match source_module with
        | some source =>
          let s := s.log (Call.Exchange_Module source newmodule)
          let newmodule := env.Exchange_Module source newmodule
          let newmodule := { newmodule with m_TimeStamp := module_in_edit.m_Link }
          let s := s.log (Call.commitPush "Update module")
          some (finishInsertOrUpdate env s pcbframe source_module newmodule)
        | none =>
          let cursor_pos := pcbframe.crossHair
          let s := s.log (Call.commitAdd newmodule)
          let pcbframe := { pcbframe with crossHair := ⟨0, 0⟩ }
          let s := s.log (Call.PlaceModule newmodule)
          let newmodule := env.PlaceModule pcbframe.crossHair newmodule
          let newmodule := { newmodule with m_Pos := ⟨0, 0⟩ }
          let pcbframe := { pcbframe with crossHair := cursor_pos }
          let newmodule := { newmodule with m_TimeStamp := env.GetNewTimeStamp }
          let s := s.log (Call.commitPush "Insert module")
          some (finishInsertOrUpdate env s pcbframe source_module newmodule)

/-- Confirmation asked before the board's footprint is replaced:
`if( GetScreen()->IsModify() && !GetBoard()->IsEmpty() ) if( !IsOK( ... ) ) break;`.
Returns the state after the question (if any) and whether the command goes on. -/
def confirmLoseFootprint (env : Collaborators) (s : EditState) : EditState × Bool :=
  if s.modified ∧ ¬ env.IsEmpty s.board then
    (s.log (Call.IsOK
      "Current Footprint will be lost and this operation cannot be undone. Continue ?"),
     env.IsOK)
  else (s, true)

/-- Reinstall of the reference and value texts of a loaded footprint: both texts get
their type, and an empty text gets its default string. -/
def reinstallRefAndValue (m : MODULE) : MODULE :=
  let ref : TEXTE_MODULE := { m.m_Reference with m_Type := TEXT_TYPE.TEXT_is_REFERENCE }
  let ref : TEXTE_MODULE := if ref.m_Text.length = 0 then { ref with m_Text := "Ref**" } else ref
  let val : TEXTE_MODULE := { m.m_Value with m_Type := TEXT_TYPE.TEXT_is_VALUE }
  let val : TEXTE_MODULE := if val.m_Text.length = 0 then { val with m_Text := "Val**" } else val
  { m with m_Reference := ref, m_Value := val }

/-- The `if( GetBoard()->m_Modules )` block of `ID_MODEDIT_LOAD_MODULE`: flags cleared and
texts reinstalled on the first footprint of the board. -/
def BOARD.fixLoadedFootprint (b : BOARD) : BOARD :=
  match b.m_Modules with
  | [] => b
  | m :: rest => { b with m_Modules := reinstallRefAndValue m.ClearFlags :: rest }

/-- Set the block command and call a block handler (`m_BlockLocate.SetCommand`,
`SetMessageBlock`, `HandleBlockEnd`). -/
def blockEnd (s : EditState) (cmd : BLOCK_COMMAND_T) : EditState :=
  (({ s with blockCommand := cmd }).call "SetMessageBlock").call "HandleBlockEnd"

/-- Body of `case ID_MODEDIT_NEW_MODULE:`. Where the source writes to the footprint
after it has handed the pointer to the board (`module->SetPosition` after
`AddModuleToBoard`), the board receives the footprint with that write done. -/
def newModuleCommand (env : Collaborators) (s : EditState) : Option EditState :=
  let (s, goOn) := confirmLoseFootprint env s
  if ¬ goOn then some s
  else
    let s := s.call "CreateNewModule"
    let s :=
      match env.CreateNewModule with
      | some module =>
        let s := s.call "Clear_Pcb( false )"
        let board := (env.Clear_Pcb false s.board).2
        let s := { s with board := board, crossHair := ⟨0, 0⟩ }
        let s := s.call "AddModuleToBoard"
        let s := s.call "BuildListOfNets"
        let module := { module with m_Pos := ⟨0, 0⟩ }
        let board := env.AddModuleToBoard s.board module
        let s := { s with board := board.clearFirstFlags }
        s.call "Zoom_Automatique( false )"
      | none => s
    some (((s.call "updateView").call "Refresh").ClrModify)

/-- Body of `case ID_MODEDIT_NEW_MODULE_FROM_WIZARD:`. -/
def newModuleFromWizardCommand (env : Collaborators) (s : EditState) : Option EditState :=
  let (s, goOn) := confirmLoseFootprint env s
  if ¬ goOn then some s
  else
    let s := s.call "Kiway().Player( FRAME_PCB_FOOTPRINT_WIZARD_MODAL, true, this )"
    let s := s.call "wizard->ShowModal"
    if env.wizardShowModal then
      let s := s.call "wizard->GetBuiltFootprint"
      match env.GetBuiltFootprint with
      | none => some s
      | some module =>
        let s := s.call "Clear_Pcb( false )"
        let board := (env.Clear_Pcb false s.board).2
        let s := { s with board := board, crossHair := ⟨0, 0⟩ }
        let s := s.call "GetBoard()->Add( module, ADD_APPEND )"
        let s := s.call "BuildListOfNets"
        let module := ({ module with m_Pos := ⟨0, 0⟩ }).ClearFlags
        let s := { s with board := env.boardAdd s.board module }
        let s := (((s.call "Zoom_Automatique( false )").call "updateView").call
          "Refresh").call "Update3DView"
        some (s.ClrModify.call "wizard->Destroy")
    else some (s.call "wizard->Destroy")

/-- Body of `case ID_MODEDIT_LOAD_MODULE:`. -/
def loadModuleCommand (env : Collaborators) (s : EditState) : Option EditState :=
  let s := s.log (Call.wxLogDebug ("Loading module from library " ++ env.getLibPath))
  let (s, goOn) := confirmLoseFootprint env s
  if ¬ goOn then some s
  else
    let s := s.call "LoadModuleFromLibrary"
    match env.LoadModuleFromLibrary s.currentLib with
    | none => some s
    | some module =>
      let s := s.call "Clear_Pcb( false )"
      let board := (env.Clear_Pcb false s.board).2
      let s := { s with board := board, crossHair := ⟨0, 0⟩ }
      let s := s.call "AddModuleToBoard"
      let board := env.AddModuleToBoard s.board module
      let s := { s with board := board.fixLoadedFootprint }
      let s := (s.call "Zoom_Automatique( false )").call "Update3DView"
      let s := s.ClrModify
      some ((s.call "updateView").call "Refresh")

/-- Second `switch( id )` of `Process_Special_Functions`; `pos` is the mouse position
shifted by 20 in `y`. -/
def secondSwitch (env : Collaborators) (s : EditState) (id : CmdId) (pos : wxPoint) :
    Option EditState :=
  match id with
  | CmdId.ID_EXIT => some (s.call "Close( true )")
  | CmdId.ID_MODEDIT_SELECT_CURRENT_LIB =>
    let library := env.SelectLibrary s.currentLib
    let s := s.call "SelectLibrary"
    if library.length ≠ 0 then
      some (({ s with currentLib := library }).call "updateTitle")
    else some s
  | CmdId.ID_OPEN_MODULE_VIEWER =>
    match s.viewer with
    | none =>
      let viewer := env.newViewer
      let s := s.call "Kiway().Player( FRAME_PCB_MODULE_VIEWER, true )"
      let viewer := { viewer with shown := true }
      some (({ s with viewer := some viewer }).call "viewer->Zoom_Automatique( false )")
    | some viewer =>
      let viewer := if viewer.iconized then { viewer with iconized := false } else viewer
      let s := s.call "viewer->Raise"
      let viewer := if ¬ env.FindFocusIsViewer then { viewer with hasFocus := true } else viewer
      some { s with viewer := some viewer }
  | CmdId.ID_MODEDIT_DELETE_PART => some (s.call "DeleteModuleFromCurrentLibrary")
  | CmdId.ID_MODEDIT_NEW_MODULE => newModuleCommand env s
  | CmdId.ID_MODEDIT_NEW_MODULE_FROM_WIZARD => newModuleFromWizardCommand env s
  | CmdId.ID_MODEDIT_SAVE_LIBMODULE =>
    match s.board.m_Modules with
    | [] => some s
    | _ :: _ =>
      let s := (s.call "SaveFootprintInLibrary").call "GetView()->Update"
      let s := if env.IsGalCanvasActive ∧ env.GetGalCanvas then s.call "ForceRefresh"
               else s.call "Refresh"
      some s.ClrModify
  | CmdId.ID_MODEDIT_INSERT_MODULE_IN_BOARD
  | CmdId.ID_MODEDIT_UPDATE_MODULE_IN_BOARD => insertOrUpdateModuleInBoard env s id
  | CmdId.ID_MODEDIT_IMPORT_PART =>
    let s := s.call "Clear_Pcb( true )"
    let cleared := env.Clear_Pcb true s.board
    let s := { s with board := cleared.2 }
    if ¬ cleared.1 then some s
    else
      let s := { s with crossHair := ⟨0, 0⟩ }
      let s := s.call "Import_Module"
      let s := { s with board := (env.Import_Module s.board).clearFirstFlags }
      let s := s.ClrModify
      some (((s.call "Zoom_Automatique( false )").call "Refresh").call "Update3DView")
  | CmdId.ID_MODEDIT_EXPORT_PART =>
    match s.board.m_Modules with
    | [] => some s
    | _ :: _ => some (s.call "Export_Module")
  | CmdId.ID_MODEDIT_CREATE_NEW_LIB_AND_SAVE_CURRENT_PART =>
    match s.board.m_Modules with
    | [] => some s
    | _ :: _ =>
      let s := s.call "CreateNewLibrary"
      if env.CreateNewLibrary.length ≠ 0 then some (s.call "SaveCurrentModule")
      else some s
  | CmdId.ID_MODEDIT_SHEET_SET => some s
  | CmdId.ID_MODEDIT_LOAD_MODULE => loadModuleCommand env s
  | CmdId.ID_MODEDIT_PAD_SETTINGS => some (s.callOn "InstallPadOptionsFrame" none)
  | CmdId.ID_MODEDIT_CHECK => some s
  | CmdId.ID_MODEDIT_EDIT_MODULE_PROPERTIES =>
    match s.board.m_Modules with
    | [] => some s
    | m :: _ =>
      let s := s.SetCurItem (some m.toItem)
      let s := s.callOn "DIALOG_FOOTPRINT_FP_EDITOR::ShowModal" s.curItem
      let s := { s with board := s.board.clearFirstFlags,
                        curItem := some m.toItem.ClearFlags }
      some (s.call "Refresh")
  | CmdId.ID_POPUP_CLOSE_CURRENT_TOOL => some s
  | CmdId.ID_POPUP_CANCEL_CURRENT_COMMAND => some s
  | CmdId.ID_POPUP_PCB_ROTATE_MODULE_COUNTERCLOCKWISE =>
    some (((s.call "MoveCursorToCrossHair").callOn "Rotate_Module( 900 )" s.curItem).call
      "Refresh")
  | CmdId.ID_POPUP_PCB_ROTATE_MODULE_CLOCKWISE =>
    some (((s.call "MoveCursorToCrossHair").callOn "Rotate_Module( -900 )" s.curItem).call
      "Refresh")
  | CmdId.ID_POPUP_PCB_EDIT_MODULE_PRMS =>
    let s := s.callOn "DIALOG_FOOTPRINT_FP_EDITOR::ShowModal" s.curItem
    match s.curItem with
    | none => none
    | some item =>
      let s := { s with curItem := some item.ClearFlags }
      some ((s.call "MoveCursorToCrossHair").call "Refresh")
  | CmdId.ID_POPUP_PCB_MOVE_PAD_REQUEST =>
    some ((s.call "MoveCursorToCrossHair").callOn "StartMovePad" s.curItem)
  | CmdId.ID_POPUP_PCB_EDIT_PAD =>
    some ((s.callOn "InstallPadOptionsFrame" s.curItem).call "MoveCursorToCrossHair")
  | CmdId.ID_POPUP_PCB_DELETE_PAD =>
    let s := s.log (Call.SaveCopyInUndoList s.board.m_Modules.head? UNDO_REDO_T.UR_CHANGED)
    let s := s.log (Call.DeletePad s.curItem false)
    let s := s.SetCurItem none
    some (s.call "MoveCursorToCrossHair")
  | CmdId.ID_POPUP_PCB_DUPLICATE_ITEM => some (duplicateItems s false)
  | CmdId.ID_POPUP_PCB_DUPLICATE_ITEM_AND_INCREMENT => some (duplicateItems s true)
  | CmdId.ID_POPUP_PCB_MOVE_EXACT => moveExact env s
  | CmdId.ID_POPUP_PCB_CREATE_ARRAY => some (s.call "createArray")
  | CmdId.ID_POPUP_PCB_APPLY_PAD_SETTINGS =>
    let s := s.log (Call.SaveCopyInUndoList s.board.m_Modules.head? UNDO_REDO_T.UR_CHANGED)
    some ((s.call "MoveCursorToCrossHair").callOn "Import_Pad_Settings" s.curItem)
  | CmdId.ID_POPUP_PCB_GLOBAL_IMPORT_PAD_SETTINGS =>
    let s := s.log (Call.SaveCopyInUndoList s.board.m_Modules.head? UNDO_REDO_T.UR_CHANGED)
    some ((s.callOn "DlgGlobalChange_PadSettings" s.curItem).call "MoveCursorToCrossHair")
  | CmdId.ID_POPUP_PCB_COPY_PAD_SETTINGS =>
    some ((s.call "MoveCursorToCrossHair").callOn "Export_Pad_Settings" s.curItem)
  | CmdId.ID_POPUP_PCB_EDIT_TEXTMODULE =>
    some ((s.callOn "InstallTextModOptionsFrame" s.curItem).call "MoveCursorToCrossHair")
  | CmdId.ID_POPUP_PCB_MOVE_TEXTMODULE_REQUEST =>
    some ((s.call "MoveCursorToCrossHair").callOn "StartMoveTexteModule" s.curItem)
  | CmdId.ID_POPUP_PCB_ROTATE_TEXTMODULE =>
    some ((s.callOn "RotateTextModule" s.curItem).call "MoveCursorToCrossHair")
  | CmdId.ID_POPUP_PCB_DELETE_TEXTMODULE =>
    let s := s.log (Call.SaveCopyInUndoList s.board.m_Modules.head? UNDO_REDO_T.UR_CHANGED)
    let s := s.log (Call.DeleteTextModule s.curItem)
    let s := s.SetCurItem none
    some (s.call "MoveCursorToCrossHair")
  | CmdId.ID_POPUP_PCB_MOVE_EDGE =>
    some ((s.callOn "Start_Move_EdgeMod" s.curItem).call "MoveCursorToCrossHair")
  | CmdId.ID_POPUP_PCB_STOP_CURRENT_DRAWING =>
    let s := s.call "MoveCursorToCrossHair"
    match s.curItem with
    | none => none
    | some item =>
      if item.isNew then some ((s.callOn "End_Edge_Module" (some item)).SetCurItem none)
      else some s
  | CmdId.ID_POPUP_MODEDIT_ENTER_EDGE_WIDTH =>
    let edge : Option BOARD_ITEM :=
      match s.curItem with
      | none => none
      | some item => if item.m_StructType = KICAD_T.PCB_MODULE_EDGE_T then some item else none
    let s := (s.callOn "Enter_Edge_Width" edge).call "MoveCursorToCrossHair"
    if edge.isSome then some (s.call "Refresh") else some s
  | CmdId.ID_POPUP_MODEDIT_EDIT_BODY_ITEM =>
    some (((s.call "MoveCursorToCrossHair").callOn "InstallFootprintBodyItemPropertiesDlg"
      s.curItem).call "Refresh")
  | CmdId.ID_POPUP_MODEDIT_EDIT_WIDTH_ALL_EDGE =>
    some (((s.call "MoveCursorToCrossHair").callOn "Edit_Edge_Width" none).call "Refresh")
  | CmdId.ID_POPUP_MODEDIT_EDIT_LAYER_ALL_EDGE =>
    some (((s.call "MoveCursorToCrossHair").callOn "Edit_Edge_Layer" none).call "Refresh")
  | CmdId.ID_POPUP_PCB_DELETE_EDGE =>
    let s := s.log (Call.SaveCopyInUndoList s.board.m_Modules.head? UNDO_REDO_T.UR_CHANGED)
    let s := s.call "MoveCursorToCrossHair"
    let s := RemoveStruct s s.curItem
    some (s.SetCurItem none)
  | CmdId.ID_MODEDIT_MODULE_ROTATE
  | CmdId.ID_MODEDIT_MODULE_MIRROR
  | CmdId.ID_MODEDIT_MODULE_MOVE_EXACT =>
    let s := s.log (Call.SaveCopyInUndoList s.board.m_Modules.head? UNDO_REDO_T.UR_CHANGED)
    (Transform env s s.curItem id).map (fun s => s.call "Refresh")
  | CmdId.ID_PCB_DRAWINGS_WIDTHS_SETUP => some (s.log (Call.InstallOptionsFrame pos))
  | CmdId.ID_PCB_PAD_SETUP =>
    let item : Option BOARD_ITEM :=
      match s.curItem with
      | none => none
      | some item => if item.m_StructType ≠ KICAD_T.PCB_PAD_T then none else some item
    some (s.callOn "InstallPadOptionsFrame" item)
  | CmdId.ID_PCB_USER_GRID_SETUP => some (s.call "InvokeDialogGrid")
  | CmdId.ID_POPUP_PLACE_BLOCK =>
    some ((({ s with blockCommand := BLOCK_COMMAND_T.BLOCK_MOVE }).call
      "SetAutoPanRequest( false )").call "HandleBlockPlace")
  | CmdId.ID_POPUP_DUPLICATE_BLOCK =>
    some (((({ s with blockCommand := BLOCK_COMMAND_T.BLOCK_DUPLICATE }).call
      "SetMessageBlock").call "SetAutoPanRequest( false )").call "HandleBlockPlace")
  | CmdId.ID_POPUP_ZOOM_BLOCK => some (blockEnd s BLOCK_COMMAND_T.BLOCK_ZOOM)
  | CmdId.ID_POPUP_DELETE_BLOCK => some (blockEnd s BLOCK_COMMAND_T.BLOCK_DELETE)
  | CmdId.ID_POPUP_ROTATE_BLOCK => some (blockEnd s BLOCK_COMMAND_T.BLOCK_ROTATE)
  | CmdId.ID_POPUP_MIRROR_X_BLOCK => some (blockEnd s BLOCK_COMMAND_T.BLOCK_MIRROR_X)
  | CmdId.ID_POPUP_MOVE_BLOCK_EXACT => some (blockEnd s BLOCK_COMMAND_T.BLOCK_MOVE_EXACT)
  | CmdId.ID_GEN_IMPORT_DXF_FILE =>
    match s.board.m_Modules with
    | [] => some s
    | _ :: _ => some ((s.call "InvokeDXFDialogModuleImport").call "Refresh")
  | _ =>
    some (s.log (Call.DisplayError "FOOTPRINT_EDIT_FRAME::Process_Special_Functions error"))

/-- `FOOTPRINT_EDIT_FRAME::Process_Special_Functions( wxCommandEvent& event )`, on the
event's identifier: the first switch, then the second. -/
def Process_Special_Functions (env : Collaborators) (s : EditState) (id : CmdId) :
    Option EditState :=
  let pos : wxPoint := { env.mousePosition with y := env.mousePosition.y + 20 }
  secondSwitch env (firstSwitch s id) id pos

/-- `FOOTPRINT_EDIT_FRAME::LoadModuleFromBoard( wxCommandEvent& event )`. -/
def LoadModuleFromBoard (env : Collaborators) (s : EditState) : EditState :=
  let asked := s.modified
  let s := if asked then s.log (Call.IsOK
    "Current footprint changes will be lost and this operation cannot be undone. Continue?")
    else s
  if asked ∧ ¬ env.IsOK then s
  else
    let s := s.call "Load_Module_From_BOARD( NULL )"
    let loaded := env.Load_Module_From_BOARD s.board
    let s := { s with board := loaded.2 }
    if ¬ loaded.1 then s
    else ((s.call "ClearUndoRedoList").ClrModify).call "Update3DView"

/-- The redundancy-removal loop of `ModeditLocateAndDisplay`:
`for( ii = 0; ii < GetCount(); ii++ ) { item = coll[ii]; if( item->Type() != PCB_MODULE_T )
continue; Remove( ii ); ii--; }`. The first argument bounds the number of iterations. -/
def removeModulesLoop : Nat → Int → List BOARD_ITEM → List BOARD_ITEM
  | 0, _, coll => coll
  | fuel + 1, ii, coll =>
    if ii < coll.length then
      match coll[ii.toNat]? with
      | none => coll
      | some item =>
        if item.m_StructType ≠ KICAD_T.PCB_MODULE_T then
          removeModulesLoop fuel (ii + 1) coll
        else
          removeModulesLoop fuel ((ii - 1) + 1) (coll.eraseIdx ii.toNat)
    else coll

/-- Removal of redundancies: the loop runs only when more than one item was collected. -/
def removeRedundancies (coll : List BOARD_ITEM) : List BOARD_ITEM :=
  if coll.length > 1 then removeModulesLoop coll.length 0 coll else coll

/-- The menu-filling loop of `ModeditLocateAndDisplay`:
`for( ii = 0; ii < limit; ++ii ) AddMenuItem( &itemMenu, START + ii, text, KiBitmap( xpm ) )`.
The first argument is the number of iterations left, `limit - ii`. The result is `none`
when `coll[ii]` is null, since the loop dereferences it. -/
def addItemsLoop (ID_POPUP_PCB_ITEM_SELECTION_START : Int) (coll : List BOARD_ITEM) :
    Nat → Nat → wxMenu → Option wxMenu
  | 0, _, itemMenu => some itemMenu
  | left + 1, ii, itemMenu =>
    match coll[ii]? with
    | none => none
    | some item =>
      addItemsLoop ID_POPUP_PCB_ITEM_SELECTION_START coll left (ii + 1)
        (itemMenu ++ [MenuEntry.item (MenuId.num (ID_POPUP_PCB_ITEM_SELECTION_START + ii))
          item.menuText (Bitmap.image item.menuImage)])

/-- The "Clarify Selection" menu built for a collection: title entry, separator, then
one entry for each of the first `min( MAX_ITEMS_IN_PICKER, GetCount() )` items. -/
def clarifySelectionMenu (MAX_ITEMS_IN_PICKER : Nat) (ID_POPUP_PCB_ITEM_SELECTION_START : Int)
    (coll : List BOARD_ITEM) : Option wxMenu :=
  let itemMenu : wxMenu :=
    [MenuEntry.item MenuId.wxID_NONE "Clarify Selection" Bitmap.info_xpm, MenuEntry.separator]
  let limit := min MAX_ITEMS_IN_PICKER coll.length
  addItemsLoop ID_POPUP_PCB_ITEM_SELECTION_START coll limit 0 itemMenu

/-- `FOOTPRINT_EDIT_FRAME::ModeditLocateAndDisplay( int aHotKeyCode )`: the item returned
and the frame afterwards; `none` when a null item is dereferenced. -/
def ModeditLocateAndDisplay (env : Collaborators) (MAX_ITEMS_IN_PICKER : Nat)
    (ID_POPUP_PCB_ITEM_SELECTION_START : Int) (s : EditState) (aHotKeyCode : Int) :
    Option (Option BOARD_ITEM × EditState) :=
  match s.board.m_Modules with
  | [] => some (none, s)
  | _ :: _ =>
    let scanList : Option ScanList :=
      if aHotKeyCode ≠ 0 then none else some ScanList.ModulesAndTheirItems
    let s := s.call "m_Collector->Collect"
    let coll := removeRedundancies (env.Collect s.board scanList)
    if coll.length ≤ 1 then
      let item := coll[0]?
      let s := s.SetCurItem item
      some (item, if item.isSome then s.callOn "SetMsgPanel" item else s)
    else
      match clarifySelectionMenu MAX_ITEMS_IN_PICKER ID_POPUP_PCB_ITEM_SELECTION_START coll with
      | none => none
      | some itemMenu =>
        let s := s.call "SetAbortRequest( true )"
        let s := s.log (Call.PopupMenu itemMenu)
        let s := s.SetCurItem (env.PopupMenu itemMenu s.curItem)
        let s := (s.call "MoveCursorToCrossHair").call "SetIgnoreMouseEvents( false )"
        let item := s.curItem
        some (item, if item.isSome then s.callOn "SetMsgPanel" item else s)

/-! ## Vocabulary of the statements -/

/-- Calls a handler appended to the trace: the trace afterwards without the trace before. -/
def newCalls (s s' : EditState) : List Call :=
  s'.trace.drop s.trace.length

/-- Main board reached from a frame state (none when no board editor exists). -/
def EditState.mainBoard (s : EditState) : Option BOARD :=
  s.pcbframe.map (fun f => f.board)

/-- A command was rejected: it returned, showed an error (`DisplayError`), and left the
main board and the editor's modified flag as they were. -/
def Rejected (s : EditState) (r : Option EditState) : Prop :=
  ∃ s', r = some s' ∧ (∃ msg, Call.DisplayError msg ∈ newCalls s s') ∧
    s'.mainBoard = s.mainBoard ∧ s'.modified = s.modified

/-- A command was carried out: it returned and pushed its commit to the main board. -/
def CarriedOut (s : EditState) (r : Option EditState) : Prop :=
  ∃ s', r = some s' ∧ ∃ msg, Call.commitPush msg ∈ newCalls s s'

/-- The listed identifiers of the first switch that `break` at once. -/
def keepSet : List CmdId :=
  [CmdId.wxID_CUT, CmdId.wxID_COPY, CmdId.ID_TOOLBARH_PCB_SELECT_LAYER,
   CmdId.ID_MODEDIT_PAD_SETTINGS, CmdId.ID_PCB_USER_GRID_SETUP,
   CmdId.ID_POPUP_PCB_ROTATE_TEXTEPCB, CmdId.ID_POPUP_PCB_EDIT_TEXTEPCB,
   CmdId.ID_POPUP_PCB_ROTATE_TEXTMODULE, CmdId.ID_POPUP_PCB_ROTATE_MODULE_CLOCKWISE,
   CmdId.ID_POPUP_PCB_ROTATE_MODULE_COUNTERCLOCKWISE, CmdId.ID_POPUP_PCB_EDIT_TEXTMODULE,
   CmdId.ID_POPUP_PCB_APPLY_PAD_SETTINGS, CmdId.ID_POPUP_PCB_COPY_PAD_SETTINGS,
   CmdId.ID_POPUP_PCB_GLOBAL_IMPORT_PAD_SETTINGS, CmdId.ID_POPUP_PCB_STOP_CURRENT_DRAWING,
   CmdId.ID_POPUP_MODEDIT_EDIT_BODY_ITEM, CmdId.ID_POPUP_MODEDIT_EDIT_WIDTH_ALL_EDGE,
   CmdId.ID_POPUP_MODEDIT_EDIT_LAYER_ALL_EDGE, CmdId.ID_POPUP_MODEDIT_ENTER_EDGE_WIDTH,
   CmdId.ID_POPUP_PCB_DELETE_EDGE, CmdId.ID_POPUP_PCB_DELETE_TEXTMODULE,
   CmdId.ID_POPUP_PCB_DELETE_PAD, CmdId.ID_POPUP_DELETE_BLOCK, CmdId.ID_POPUP_PLACE_BLOCK,
   CmdId.ID_POPUP_ZOOM_BLOCK, CmdId.ID_POPUP_MIRROR_X_BLOCK, CmdId.ID_POPUP_ROTATE_BLOCK,
   CmdId.ID_POPUP_DUPLICATE_BLOCK]

/-- Whether a call is one of the deletion routines (`DeletePad`, `DeleteTextModule`,
`Delete_Edge_Module`). -/
def Call.isDeletion : Call → Bool
  | Call.DeletePad _ _ => true
  | Call.DeleteTextModule _ => true
  | Call.Delete_Edge_Module _ => true
  | _ => false

/-- The item a deletion routine is called on (none for any other call). -/
def Call.deleted : Call → Option BOARD_ITEM
  | Call.DeletePad item _ => item
  | Call.DeleteTextModule item => item
  | Call.Delete_Edge_Module item => item
  | _ => none

/-- Whether a call opens the modal confirmation (`IsOK`). -/
def Call.isConfirmation : Call → Bool
  | Call.IsOK _ => true
  | _ => false

/-- Whether an item is a reference or value text of a footprint. -/
def BOARD_ITEM.isReferenceOrValue (i : BOARD_ITEM) : Bool :=
  i.m_StructType = KICAD_T.PCB_MODULE_TEXT_T ∧
    (i.m_TextType = TEXT_TYPE.TEXT_is_REFERENCE ∨ i.m_TextType = TEXT_TYPE.TEXT_is_VALUE)

/-- The tools `OnVerticalToolbar` selects unconditionally: line, arc, circle, text,
anchor, grid origin, delete. -/
def plainTools : List CmdId :=
  [CmdId.ID_MODEDIT_LINE_TOOL, CmdId.ID_MODEDIT_ARC_TOOL, CmdId.ID_MODEDIT_CIRCLE_TOOL,
   CmdId.ID_MODEDIT_TEXT_TOOL, CmdId.ID_MODEDIT_ANCHOR_TOOL,
   CmdId.ID_MODEDIT_PLACE_GRID_COORD, CmdId.ID_MODEDIT_DELETE_TOOL]

/-- The menu entry the picker shows for the item at index `p.1` of the collection:
identifier `ID_POPUP_PCB_ITEM_SELECTION_START + p.1`, the item's text and image. -/
def pickerEntry (ID_POPUP_PCB_ITEM_SELECTION_START : Int) (p : Nat × BOARD_ITEM) :
    MenuEntry :=
  MenuEntry.item (MenuId.num (ID_POPUP_PCB_ITEM_SELECTION_START + p.1)) p.2.menuText
    (Bitmap.image p.2.menuImage)

/-- Title entry of the "Clarify Selection" menu. -/
def clarifyTitle : MenuEntry :=
  MenuEntry.item MenuId.wxID_NONE "Clarify Selection" Bitmap.info_xpm

/-! ## Sample values -/

/-- The given collaborators, with a user who declines every confirmation. -/
def decliningEnv (env : Collaborators) : Collaborators :=
  { env with IsOK := false }



/-- A footprint text used in the samples. -/
def sampleText (t : TEXT_TYPE) (txt : String) : TEXTE_MODULE := { m_Type := t, m_Text := txt }

/-- A footprint with the given link and time stamp. -/
def sampleModule (link ts : Int) : MODULE :=
  { m_Link := link, m_TimeStamp := ts, m_Pos := ⟨5, 7⟩, m_Flags := 3,
    m_Parent := BoardRef.editorBoard,
    m_Reference := sampleText TEXT_TYPE.TEXT_is_REFERENCE "R1",
    m_Value := sampleText TEXT_TYPE.TEXT_is_VALUE "10k", body := 0 }

/-- An item of the given type and text kind. -/
def sampleItem (t : KICAD_T) (k : TEXT_TYPE) : BOARD_ITEM :=
  { m_StructType := t, m_TextType := k, m_Pos := ⟨1, 2⟩, m_Flags := 0, isNew := false,
    menuText := "item", menuImage := 4, body := 0 }

/-- Collaborators of the samples: the user accepts every dialog, a board is empty when it
has no footprint, footprints are added at the end of the list, a replaced source is
erased. -/
def sampleEnv : Collaborators :=
  { IsOK := true
    IsEmpty := fun b => b.m_Modules.isEmpty
    mousePosition := ⟨0, 0⟩
    SelectLibrary := fun l => l
    newViewer := { shown := false, iconized := false, hasFocus := false }
    FindFocusIsViewer := true
    CreateNewModule := none
    Clear_Pcb := fun _ b => (true, { b with m_Modules := [] })
    AddModuleToBoard := fun b m => { b with m_Modules := b.m_Modules ++ [m] }
    boardAdd := fun b m => { b with m_Modules := b.m_Modules ++ [m] }
    wizardShowModal := false
    GetBuiltFootprint := none
    IsGalCanvasActive := false
    GetGalCanvas := false
    Exchange_Module := fun src dst => { dst with m_Pos := src.m_Pos }
    PlaceModule := fun p m => { m with m_Pos := p }
    Push := fun l src m =>
      match src with
      | none => l ++ [m]
      | some x => l.erase x ++ [m]
    GetNewTimeStamp := 99
    Import_Module := fun b => b
    CreateNewLibrary := ""
    getLibPath := "lib"
    LoadModuleFromLibrary := fun _ => none
    Load_Module_From_BOARD := fun b => (false, b)
    defaultMoveParameters :=
      { translation := ⟨0, 0⟩, rotation := 0,
        origin := MOVE_EXACT_ORIGIN.RELATIVE_TO_CURRENT_POSITION,
        allowOverride := true, editingFootprint := false }
    moveExactDialog := fun p => (true, p)
    Rotate := fun i _ _ => i
    Collect := fun _ _ => []
    PopupMenu := fun _ c => c }

/-- A footprint editor state: the board holds `mods`, the board editor (when `main` is
given) holds the main board `main` with its cross-hair at (11, 13). -/
def sampleState (mods : List MODULE) (main : Option (List MODULE)) : EditState :=
  { board := { m_Modules := mods, m_Status_Pcb := 1 }
    modified := true
    curItem := none
    blockCommand := BLOCK_COMMAND_T.BLOCK_IDLE
    toolId := CmdId.ID_MODEDIT_LINE_TOOL
    toolCursor := wxStockCursor.wxCURSOR_PENCIL
    toolMsg := "Add line"
    mouseCaptured := true
    crossHair := ⟨0, 0⟩
    currentLib := "lib"
    pcbframe := main.map (fun l =>
      { board := { m_Modules := l, m_Status_Pcb := 1 }, crossHair := ⟨11, 13⟩,
        curItem := none })
    viewer := none
    trace := [] }

/-- Collaborators of the samples, with a collector that returns the given items. -/
def collectingEnv (items : List BOARD_ITEM) : Collaborators :=
  { sampleEnv with Collect := fun _ _ => items }

/-! ## Footprint viewer frame (pcbnew/footprint_viewer_frame.cpp) -/

/-- The toolkit's "no such item" index (`wxNOT_FOUND`). -/
def wxNOT_FOUND : Int := -1

/-- Step modes of `SelectAndViewFootprint` (`#define NEXT_PART 1`). -/
def NEXT_PART : Int := 1

/-- Step modes of `SelectAndViewFootprint` (`#define NEW_PART 0`). -/
def NEW_PART : Int := 0

/-- Step modes of `SelectAndViewFootprint` (`#define PREVIOUS_PART -1`). -/
def PREVIOUS_PART : Int := -1

/-- A string folded character by character with the toolkit's `wxTolower` (the C
library's `towlower`), as the case-insensitive comparisons of the toolkit see it. What
`wxTolower` does to a character is not fixed here: it is a parameter. -/
def foldCase (wxTolower : Char → Char) (s : String) : List Char :=
  s.toList.map wxTolower

/-- Comparison of two strings without regard to letter case (`CmpNoCase( .. ) == 0`,
`IsSameAs( .., false )`): the strings agree after every character is folded. -/
def sameNoCase (wxTolower : Char → Char) (a b : String) : Bool :=
  decide (foldCase wxTolower a = foldCase wxTolower b)

/-- List box of the toolkit (`wxListBox` without `wxLB_SORT`): the labels in the order
they were appended and the selected index (`wxNOT_FOUND` when nothing is selected). -/
structure wxListBox where
  items : List String
  selection : Int
deriving DecidableEq

/-- `Clear()`: removes every entry; nothing is selected. -/
def wxListBox.Clear (_lb : wxListBox) : wxListBox :=
  { items := [], selection := wxNOT_FOUND }

/-- `Append( s )`: adds the label at the end. -/
def wxListBox.Append (lb : wxListBox) (s : String) : wxListBox :=
  { lb with items := lb.items ++ [s] }

/-- `GetCount()`. -/
def wxListBox.GetCount (lb : wxListBox) : Nat :=
  lb.items.length

/-- `GetString( n )`: the label at index `n` (the empty string for an invalid index). -/
def wxListBox.GetString (lb : wxListBox) (n : Int) : String :=
  if 0 ≤ n then (lb.items[n.toNat]?).getD "" else ""

/-- `GetSelection()`. -/
def wxListBox.GetSelection (lb : wxListBox) : Int :=
  lb.selection

/-- `SetSelection( n )`. -/
def wxListBox.SetSelection (lb : wxListBox) (n : Int) : wxListBox :=
  { lb with selection := n }

/-- The search of `FindString`: index of the first label, counting from `i`, that is the
given string up to letter case; `wxNOT_FOUND` when there is none. -/
def findStringFrom (wxTolower : Char → Char) (s : String) : List String → Nat → Int
  | [], _ => wxNOT_FOUND
  | label :: rest, i =>
    if sameNoCase wxTolower label s then (i : Int) else findStringFrom wxTolower s rest (i + 1)

/-- `FindString( s )` with the toolkit's default `bCase = false`: index of the first
entry whose label is `s` up to letter case, `wxNOT_FOUND` when there is none. -/
def wxListBox.FindString (lb : wxListBox) (wxTolower : Char → Char) (s : String) : Int :=
  findStringFrom wxTolower s lb.items 0

/-- `SetStringSelection( s )`: selects the entry `FindString( s )` finds, if any. -/
def wxListBox.SetStringSelection (lb : wxListBox) (wxTolower : Char → Char) (s : String) :
    wxListBox :=
  if lb.FindString wxTolower s = wxNOT_FOUND then lb
  else lb.SetSelection (lb.FindString wxTolower s)

/-- Call the viewer frame makes into a collaborator. -/
inductive ViewerCall where
  | DisplayError (msg : String)
  | DismissModal (aRetVal : Bool) (aResult : String)
  | Close (force : Bool)
  | Destroy
  | wxFAIL_MSG (msg : String)
  | collab (name : String)
deriving DecidableEq

/-- Identifiers of the viewer's toolbar events that `OnIterateFootprintList` switches on;
`other n` is any further identifier, with its numeric value. -/
inductive ViewerCmdId where
  | ID_MODVIEW_NEXT
  | ID_MODVIEW_PREVIOUS
  | other (n : Int)
deriving DecidableEq

/-- State of the footprint viewer frame (`FOOTPRINT_VIEWER_FRAME`): the two list boxes,
the project strings holding the current library nickname and footprint name, the board,
the current item, the cross-hair, the window title, the modal-mode fields of
`KIWAY_PLAYER` and the trace of collaborator calls. -/
structure ViewerState where
  libList : wxListBox
  footprintList : wxListBox
  curNickname : String
  curFootprintName : String
  board : BOARD
  curItem : Option BOARD_ITEM
  crossHair : wxPoint
  title : String
  modal : Bool
  dismissed : Bool
  modalRetVal : Bool
  modalString : String
  trace : List ViewerCall
deriving DecidableEq

/-- Results of the collaborators the viewer consults: the library table, the footprint
loaders, the board's list operations, the library chooser. They are parameters: none of
them is defined in this file. `loadFootprint` either throws `IO_ERROR` (with its text)
or returns a pointer, possibly null. `wxTolower` is the character folding of the
toolkit's case-insensitive comparisons (`FindString`, `CmpNoCase`); which characters it
folds beyond A-Z depends on the C library and its locale. -/
structure ViewerCollaborators where
  wxTolower : Char → Char
  GetLogicalLibs : List String
  ReadFootprintFiles : String → Nat × List String
  IsGalCanvasActive : Bool
  loadFootprint : String → String → Except String (Option MODULE)
  FootprintLoad : String → String → Option MODULE
  LoadModuleFromLibrary : String → Option MODULE
  GetFPID : MODULE → String × String
  Add : BOARD → Option MODULE → BOARD
  Remove : BOARD → MODULE → BOARD
  AddModuleToBoard : BOARD → MODULE → BOARD
  SelectLibrary : String → String
  Format : String → String → String
  FindRow : String → Option String
  parentIsBoardEditor : Bool

/-- Append one collaborator call to the viewer's trace. -/
def ViewerState.log (v : ViewerState) (c : ViewerCall) : ViewerState :=
  { v with trace := v.trace ++ [c] }

/-- Log a collaborator call by name. -/
def ViewerState.call (v : ViewerState) (name : String) : ViewerState :=
  v.log (ViewerCall.collab name)

/-- `setCurNickname( aNickname )`. -/
def ViewerState.setCurNickname (v : ViewerState) (aNickname : String) : ViewerState :=
  { v with curNickname := aNickname }

/-- `setCurFootprintName( aName )`. -/
def ViewerState.setCurFootprintName (v : ViewerState) (aName : String) : ViewerState :=
  { v with curFootprintName := aName }

/-- Modelled from the spec: `KIWAY_PLAYER::DismissModal( aRetVal, aResult )` is not under
src/. As the comment in `OnCloseWindow` has it ("only dismiss a modal frame once, so
that the return values set by the prior DismissModal() are not bashed for ShowModal()"),
it sets the values `ShowModal` returns and leaves the frame dismissed. -/
def ViewerState.DismissModal (v : ViewerState) (aRetVal : Bool) (aResult : String) :
    ViewerState :=
  { (v.log (ViewerCall.DismissModal aRetVal aResult)) with
    modalRetVal := aRetVal, modalString := aResult, dismissed := true }


/-- `FOOTPRINT_VIEWER_FRAME::UpdateTitle()`: the title names the current library, or says
that none is selected, and adds the library's full path when the table has its row. -/
def UpdateTitle (env : ViewerCollaborators) (v : ViewerState) : ViewerState :=
  let title : String :=
    "Library Browser" ++ " — " ++
      (if v.curNickname.length ≠ 0 then v.curNickname else "no library selected")
  let title : String :=
    if v.curNickname.length ≠ 0 then
      match env.FindRow v.curNickname with
      | some uri => title ++ " — " ++ uri
      | none => title
    else title
  { v with title := title }

/-- `FOOTPRINT_VIEWER_FRAME::UpdateMsgPanel()`. -/
def UpdateMsgPanel (v : ViewerState) : ViewerState :=
  v.call (match v.board.m_Modules with
    | _ :: _ => "SetMsgPanel"
    | [] => "ClearMsgPanel")

/-- `FOOTPRINT_VIEWER_FRAME::updateView()`. -/
def updateView (env : ViewerCollaborators) (v : ViewerState) : ViewerState :=
  if env.IsGalCanvasActive then
    UpdateMsgPanel ((((v.call "UseColorScheme").call "DisplayBoard").call
      "ResetTools( MODEL_RELOAD )").call "RunAction( zoomFitScreen )")
  else v

/-- `FOOTPRINT_VIEWER_FRAME::Update3D_Frame( bool )`. -/
def Update3D_Frame (v : ViewerState) : ViewerState :=
  v.call "Update3DView"

/-- `FOOTPRINT_VIEWER_FRAME::ReCreateFootprintList()`. -/
def ReCreateFootprintList (env : ViewerCollaborators) (v : ViewerState) : ViewerState :=
  let v := { v with footprintList := v.footprintList.Clear }
  if v.curNickname = "" then v.setCurFootprintName ""
  else
    let v := v.call "ReadFootprintFiles"
    let errorCount := (env.ReadFootprintFiles v.curNickname).1
    let list := (env.ReadFootprintFiles v.curNickname).2
    let v := if errorCount ≠ 0 then v.call "DisplayErrors" else v
    if errorCount ≠ 0 ∧ list.length = 0 then v
    else
      let v := { v with footprintList := list.foldl wxListBox.Append v.footprintList }
      let index := v.footprintList.FindString env.wxTolower v.curFootprintName
      if index = wxNOT_FOUND then v.setCurFootprintName ""
      else { v with footprintList := v.footprintList.SetSelection index }

/-- `FOOTPRINT_VIEWER_FRAME::ReCreateLibraryList()`. -/
def ReCreateLibraryList (env : ViewerCollaborators) (v : ViewerState) : ViewerState :=
  let v := { v with libList := v.libList.Clear }
  let nicknames := env.GetLogicalLibs
  let v := { v with libList := nicknames.foldl wxListBox.Append v.libList }
  let index := v.libList.FindString env.wxTolower v.curNickname
  let v :=
    if index ≠ wxNOT_FOUND then { v with libList := v.libList.SetSelection index }
    else (v.setCurNickname "").setCurFootprintName ""
  let v := ReCreateFootprintList env v
  (v.call "ReCreateHToolbar").call "m_canvas->Refresh"

/-- `FOOTPRINT_VIEWER_FRAME::ClickOnLibList( wxCommandEvent& )`. -/
def ClickOnLibList (env : ViewerCollaborators) (v : ViewerState) : ViewerState :=
  let ii := v.libList.GetSelection
  if ii < 0 then v
  else
    let name := v.libList.GetString ii
    if v.curNickname = name then v
    else
      let v := v.setCurNickname name
      let v := ReCreateFootprintList env v
      (UpdateTitle env v).call "ReCreateHToolbar"

/-- `FOOTPRINT_VIEWER_FRAME::ClickOnFootprintList( wxCommandEvent& )`. -/
def ClickOnFootprintList (env : ViewerCollaborators) (v : ViewerState) : ViewerState :=
  if v.footprintList.GetCount = 0 then v
  else
    let ii := v.footprintList.GetSelection
    if ii < 0 then v
    else
      let name := v.footprintList.GetString ii
      if ¬ sameNoCase env.wxTolower v.curFootprintName name then
        let v := v.setCurFootprintName name
        let v := v.call "ResetTools( MODEL_RELOAD )"
        let v := { v with curItem := none }
        let v := { v with board := { v.board with m_Modules := [] } }
        let v :=
          match env.loadFootprint v.curNickname v.curFootprintName with
          | Except.ok footprint => { v with board := env.Add v.board footprint }
          | Except.error what =>
            v.log (ViewerCall.DisplayError
              ("Could not load footprint \"" ++ v.curFootprintName ++ "\" from library \""
                ++ v.curNickname ++ "\".\n\nError " ++ what ++ "."))
        let v := UpdateTitle env v
        let v := if env.IsGalCanvasActive then updateView env v else v
        Update3D_Frame ((v.call "Zoom_Automatique( false )").call "m_canvas->Refresh")
      else v

/-- `FOOTPRINT_VIEWER_FRAME::ExportSelectedFootprint( wxCommandEvent& )`; the close it
requests is logged, the close handler is `OnCloseWindow`. -/
def ExportSelectedFootprint (env : ViewerCollaborators) (v : ViewerState) : ViewerState :=
  let ii := v.footprintList.GetSelection
  let v :=
    if ii ≥ 0 then
      let fp_name := v.footprintList.GetString ii
      v.DismissModal true (env.Format v.curNickname fp_name)
    else
      v.DismissModal false ""
  v.log (ViewerCall.Close true)

/-- `FOOTPRINT_VIEWER_FRAME::OnCloseWindow( wxCloseEvent& )`. -/
def OnCloseWindow (env : ViewerCollaborators) (v : ViewerState) : ViewerState :=
  let v := v.call "m_mainToolBar->SetFocus"
  let v := if env.IsGalCanvasActive then v.call "StopDrawing" else v
  if v.modal then
    if ¬ v.dismissed then v.DismissModal false "" else v
  else
    v.log ViewerCall.Destroy

/-- `FOOTPRINT_VIEWER_FRAME::DClickOnFootprintList( wxCommandEvent& )`. -/
def DClickOnFootprintList (env : ViewerCollaborators) (v : ViewerState) : ViewerState :=
  if v.modal then
    let v := ExportSelectedFootprint env v
    if env.parentIsBoardEditor then v.call "SkipNextLeftButtonReleaseEvent" else v
  else v

/-- The comparison loop of `OnActivate`:
`for( ii = 0; ii < libNicknames.size(); ii++ ) if( libNicknames[ii] != GetString( ii ) ) break;`.
The first argument bounds the number of iterations; the result is the final `ii`. -/
def compareLoop (libNicknames : List String) (libList : wxListBox) : Nat → Nat → Nat
  | 0, ii => ii
  | fuel + 1, ii =>
    if ii < libNicknames.length then
      if libNicknames[ii]? ≠ some (libList.GetString ii) then ii
      else compareLoop libNicknames libList fuel (ii + 1)
    else ii

/-- `FOOTPRINT_VIEWER_FRAME::OnActivate( wxActivateEvent& )`, on `event.GetActive()`. -/
def OnActivate (env : ViewerCollaborators) (v : ViewerState) (active : Bool) : ViewerState :=
  let v := v.call "EDA_DRAW_FRAME::OnActivate"
  if ¬ active then v
  else
    let libNicknames := env.GetLogicalLibs
    if libNicknames.length = v.libList.GetCount ∧
        compareLoop libNicknames v.libList libNicknames.length 0 = libNicknames.length then v
    else UpdateTitle env (ReCreateLibraryList env v)

/-- `FOOTPRINT_VIEWER_FRAME::SelectCurrentLibrary( wxCommandEvent& )`. -/
def SelectCurrentLibrary (env : ViewerCollaborators) (v : ViewerState) : ViewerState :=
  let selection := env.SelectLibrary v.curNickname
  let v := v.call "SelectLibrary"
  if selection ≠ "" ∧ selection ≠ v.curNickname then
    let v := v.setCurNickname selection
    let v := UpdateTitle env v
    let v := ReCreateFootprintList env v
    let id := v.libList.FindString env.wxTolower v.curNickname
    if id ≥ 0 then { v with libList := v.libList.SetSelection id } else v
  else v

/-- `FOOTPRINT_VIEWER_FRAME::SelectCurrentFootprint( wxCommandEvent& )`. The board holds
the pointer `module`, so it receives the footprint with the later `ClearFlags()` done. -/
def SelectCurrentFootprint (env : ViewerCollaborators) (v : ViewerState) : ViewerState :=
  let curr_nickname := v.curNickname
  let oldmodule := v.board.m_Modules.head?
  let v := v.call "LoadModuleFromLibrary"
  match env.LoadModuleFromLibrary curr_nickname with
  | none => v
  | some module =>
    let v :=
      match oldmodule with
      | some old => { v with board := env.Remove v.board old }
      | none => v
    let v := { v with crossHair := ⟨0, 0⟩ }
    let v := { v with board := env.AddModuleToBoard v.board module.ClearFlags }
    let v := v.setCurFootprintName (env.GetFPID module).2
    let nickname := (env.GetFPID module).1
    let v :=
      if v.curNickname = "" ∧ nickname.length ≠ 0 then
        let index := v.libList.FindString env.wxTolower nickname
        let v := if index ≠ wxNOT_FOUND then
            { v with libList := v.libList.SetSelection index } else v
        v.setCurNickname nickname
      else v
    let v := { v with curItem := none }
    let v := Update3D_Frame ((v.call "Zoom_Automatique( false )").call "m_canvas->Refresh")
    { v with footprintList := v.footprintList.SetStringSelection env.wxTolower v.curFootprintName }

/-- The index `SelectAndViewFootprint` steps to, from the index `FindString` returned:
`NEXT_PART` goes one down the list unless at the last entry, `PREVIOUS_PART` one up
unless at the first, and nothing moves when the name was not found. -/
def steppedSelection (aMode : Int) (selection : Int) (count : Nat) : Int :=
  let selection :=
    if aMode = NEXT_PART then
      if selection ≠ wxNOT_FOUND then
        if selection < (count : Int) - 1 then selection + 1 else selection
      else selection
    else selection
  let selection :=
    if aMode = PREVIOUS_PART then
      if selection ≠ wxNOT_FOUND then
        if selection > 0 then selection - 1 else selection
      else selection
    else selection
  selection

/-- The block `if( selection != wxNOT_FOUND ) { ... }` of `SelectAndViewFootprint`: the
entry is selected, its label becomes the current footprint name, the board is emptied
and the footprint, if it loads, is added. -/
def viewSelected (env : ViewerCollaborators) (v : ViewerState) (selection : Int) :
    ViewerState :=
  let v := { v with footprintList := v.footprintList.SetSelection selection }
  let v := v.setCurFootprintName (v.footprintList.GetString selection)
  let v := { v with curItem := none }
  let v := { v with board := { v.board with m_Modules := [] } }
  let v := v.call "FootprintLoad"
  let v :=
    match env.FootprintLoad v.curNickname v.curFootprintName with
    | some footprint => { v with board := env.Add v.board (some footprint) }
    | none => v
  let v := Update3D_Frame v
  if env.IsGalCanvasActive then updateView env v else v

/-- `FOOTPRINT_VIEWER_FRAME::SelectAndViewFootprint( int aMode )`. -/
def SelectAndViewFootprint (env : ViewerCollaborators) (v : ViewerState) (aMode : Int) :
    ViewerState :=
  if v.curNickname = "" then v
  else
    let selection := v.footprintList.FindString env.wxTolower v.curFootprintName
    let selection := steppedSelection aMode selection v.footprintList.GetCount
    let v := if selection ≠ wxNOT_FOUND then viewSelected env v selection else v
    ((UpdateTitle env v).call "Zoom_Automatique( false )").call "m_canvas->Refresh"

/-- `FOOTPRINT_VIEWER_FRAME::OnIterateFootprintList( wxCommandEvent& )`, on the event's
identifier. -/
def OnIterateFootprintList (env : ViewerCollaborators) (v : ViewerState)
    (id : ViewerCmdId) : ViewerState :=
  match id with
  | ViewerCmdId.ID_MODVIEW_NEXT => SelectAndViewFootprint env v NEXT_PART
  | ViewerCmdId.ID_MODVIEW_PREVIOUS => SelectAndViewFootprint env v PREVIOUS_PART
  | ViewerCmdId.other n =>
    v.log (ViewerCall.wxFAIL_MSG
      ("FOOTPRINT_VIEWER_FRAME::OnIterateFootprintList error: id = " ++ toString n))

/-- Calls a viewer handler appended to the trace. -/
def newViewerCalls (v v' : ViewerState) : List ViewerCall :=
  v'.trace.drop v.trace.length


/-- Equality of the project's logical library list and the displayed list box as the
specification words it: the same length and the same entry at every index. -/
def sameEntries (libNicknames : List String) (libList : wxListBox) : Prop :=
  libNicknames.length = libList.GetCount
    ∧ ∀ i : Nat, i < libNicknames.length →
        libNicknames[i]? = some (libList.GetString (i : Int))


/-- Collaborators of the viewer samples: characters are folded as in the C locale (A-Z to
a-z, every other character kept), the library table returns `libs`, every library holds
the footprints `fps`, loading succeeds, the board's list operations are those of a
list. -/
def sampleViewerEnv (libs fps : List String) : ViewerCollaborators :=
  { wxTolower := Char.toLower
    GetLogicalLibs := libs
    ReadFootprintFiles := fun _ => (0, fps)
    IsGalCanvasActive := true
    loadFootprint := fun _ _ => Except.ok (some (sampleModule 0 1))
    FootprintLoad := fun _ _ => some (sampleModule 0 1)
    LoadModuleFromLibrary := fun _ => some (sampleModule 0 2)
    GetFPID := fun _ => ("lib", "fp")
    Add := fun b m =>
      match m with
      | some x => { b with m_Modules := b.m_Modules ++ [x] }
      | none => b
    Remove := fun b m => { b with m_Modules := b.m_Modules.erase m }
    AddModuleToBoard := fun b m => { b with m_Modules := b.m_Modules ++ [m] }
    SelectLibrary := fun l => l
    Format := fun nick name => nick ++ ":" ++ name
    FindRow := fun _ => none
    parentIsBoardEditor := false }

/-- Collaborators of the viewer samples in a locale whose `wxTolower` also folds "É"
(code point 201) to "é" (code point 233). -/
def accentEnv : ViewerCollaborators :=
  { sampleViewerEnv [] [] with
    wxTolower := fun c => if c = Char.ofNat 201 then Char.ofNat 233 else c.toLower }

/-- A viewer state: current nickname and footprint name as given, the library list box
showing `libs`, the footprint list box showing `fps` with entry `sel` selected, one
footprint on the board. -/
def sampleViewer (nick fp : String) (libs fps : List String) (sel : Int) (modal : Bool) :
    ViewerState :=
  { libList := { items := libs, selection := wxNOT_FOUND }
    footprintList := { items := fps, selection := sel }
    curNickname := nick
    curFootprintName := fp
    board := { m_Modules := [sampleModule 0 7], m_Status_Pcb := 0 }
    curItem := none
    crossHair := ⟨0, 0⟩
    title := ""
    modal := modal
    dismissed := false
    modalRetVal := false
    modalString := ""
    trace := [] }

/-- Collaborators of the samples, with a move-exact dialog that is accepted and asks for
a move to (3, 4) relative to another origin than the current position. -/
def movingEnv : Collaborators :=
  { sampleEnv with
    moveExactDialog := fun p =>
      (true, { p with translation := ⟨3, 4⟩, rotation := 900,
                      origin := MOVE_EXACT_ORIGIN.otherOrigin 0 }) }

/-! ## Exchange-footprints dialog (pcbnew/dialogs/dialog_exchange_footprints_base.cpp) -/

/-- Objects of `DIALOG_EXCHANGE_FOOTPRINTS_BASE` a handler is bound on: the dialog itself
(`this`, here `thisDialog`) and its member widgets. -/
inductive ExchangeWidget where
  | thisDialog
  | m_matchAll
  | m_matchCurrentRef
  | m_matchSpecifiedRef
  | m_specifiedRef
  | m_matchCurrentValue
  | m_matchSpecifiedValue
  | m_specifiedValue
  | m_matchSpecifiedID
  | m_specifiedIDBrowseButton
  | m_newIDBrowseButton
  | m_sdbSizer1Apply
deriving DecidableEq

/-- Event types the dialog binds handlers for. -/
inductive wxEventType where
  | wxEVT_UPDATE_UI
  | wxEVT_COMMAND_RADIOBUTTON_SELECTED
  | wxEVT_COMMAND_TEXT_UPDATED
  | wxEVT_COMMAND_TEXT_ENTER
  | wxEVT_COMMAND_BUTTON_CLICKED
deriving DecidableEq

/-- Handler cast of a binding (`wxUpdateUIEventHandler( .. )`, `wxCommandEventHandler( .. )`). -/
inductive HandlerCast where
  | wxUpdateUIEventHandler
  | wxCommandEventHandler
deriving DecidableEq

/-- Virtual event handlers of `DIALOG_EXCHANGE_FOOTPRINTS_BASE`. -/
inductive ExchangeHandler where
  | updateMatchModeRadioButtons
  | OnMatchAllClicked
  | OnMatchRefClicked
  | OnMatchValueClicked
  | OnMatchIDClicked
  | ViewAndSelectFootprint
  | OnApplyClicked
deriving DecidableEq

/-- One `Connect( .. )` or `Disconnect( .. )` call: the widget it is called on, the event
type, the handler with its cast, and whether the trailing arguments `NULL, this` (user
data and event sink) are passed. -/
structure Binding where
  widget : ExchangeWidget
  eventType : wxEventType
  cast : HandlerCast
  handler : ExchangeHandler
  sinkIsThis : Bool
deriving DecidableEq

/-- The `// Connect Events` block of the constructor
`DIALOG_EXCHANGE_FOOTPRINTS_BASE::DIALOG_EXCHANGE_FOOTPRINTS_BASE`: its `Connect` calls in
program order. -/
def constructorConnects : List Binding :=
  [ ⟨ExchangeWidget.thisDialog, wxEventType.wxEVT_UPDATE_UI,
      HandlerCast.wxUpdateUIEventHandler, ExchangeHandler.updateMatchModeRadioButtons, false⟩,
    ⟨ExchangeWidget.m_matchAll, wxEventType.wxEVT_COMMAND_RADIOBUTTON_SELECTED,
      HandlerCast.wxCommandEventHandler, ExchangeHandler.OnMatchAllClicked, true⟩,
    ⟨ExchangeWidget.m_matchCurrentRef, wxEventType.wxEVT_COMMAND_RADIOBUTTON_SELECTED,
      HandlerCast.wxCommandEventHandler, ExchangeHandler.OnMatchRefClicked, true⟩,
    ⟨ExchangeWidget.m_matchSpecifiedRef, wxEventType.wxEVT_COMMAND_RADIOBUTTON_SELECTED,
      HandlerCast.wxCommandEventHandler, ExchangeHandler.OnMatchRefClicked, true⟩,
    ⟨ExchangeWidget.m_specifiedRef, wxEventType.wxEVT_COMMAND_TEXT_UPDATED,
      HandlerCast.wxCommandEventHandler, ExchangeHandler.OnMatchRefClicked, true⟩,
    ⟨ExchangeWidget.m_specifiedRef, wxEventType.wxEVT_COMMAND_TEXT_ENTER,
      HandlerCast.wxCommandEventHandler, ExchangeHandler.OnMatchRefClicked, true⟩,
    ⟨ExchangeWidget.m_matchCurrentValue, wxEventType.wxEVT_COMMAND_RADIOBUTTON_SELECTED,
      HandlerCast.wxCommandEventHandler, ExchangeHandler.OnMatchValueClicked, true⟩,
    ⟨ExchangeWidget.m_matchSpecifiedValue, wxEventType.wxEVT_COMMAND_RADIOBUTTON_SELECTED,
      HandlerCast.wxCommandEventHandler, ExchangeHandler.OnMatchValueClicked, true⟩,
    ⟨ExchangeWidget.m_specifiedValue, wxEventType.wxEVT_COMMAND_TEXT_UPDATED,
      HandlerCast.wxCommandEventHandler, ExchangeHandler.OnMatchValueClicked, true⟩,
    ⟨ExchangeWidget.m_specifiedValue, wxEventType.wxEVT_COMMAND_TEXT_ENTER,
      HandlerCast.wxCommandEventHandler, ExchangeHandler.OnMatchValueClicked, true⟩,
    ⟨ExchangeWidget.m_matchSpecifiedID, wxEventType.wxEVT_COMMAND_RADIOBUTTON_SELECTED,
      HandlerCast.wxCommandEventHandler, ExchangeHandler.OnMatchIDClicked, true⟩,
    ⟨ExchangeWidget.m_specifiedIDBrowseButton, wxEventType.wxEVT_COMMAND_BUTTON_CLICKED,
      HandlerCast.wxCommandEventHandler, ExchangeHandler.ViewAndSelectFootprint, true⟩,
    ⟨ExchangeWidget.m_newIDBrowseButton, wxEventType.wxEVT_COMMAND_BUTTON_CLICKED,
      HandlerCast.wxCommandEventHandler, ExchangeHandler.ViewAndSelectFootprint, true⟩,
    ⟨ExchangeWidget.m_sdbSizer1Apply, wxEventType.wxEVT_COMMAND_BUTTON_CLICKED,
      HandlerCast.wxCommandEventHandler, ExchangeHandler.OnApplyClicked, true⟩ ]

/-- The `// Disconnect Events` block of the destructor
`DIALOG_EXCHANGE_FOOTPRINTS_BASE::~DIALOG_EXCHANGE_FOOTPRINTS_BASE`: its `Disconnect`
calls in program order. -/
def destructorDisconnects : List Binding :=
  [ ⟨ExchangeWidget.thisDialog, wxEventType.wxEVT_UPDATE_UI,
      HandlerCast.wxUpdateUIEventHandler, ExchangeHandler.updateMatchModeRadioButtons, false⟩,
    ⟨ExchangeWidget.m_matchAll, wxEventType.wxEVT_COMMAND_RADIOBUTTON_SELECTED,
      HandlerCast.wxCommandEventHandler, ExchangeHandler.OnMatchAllClicked, true⟩,
    ⟨ExchangeWidget.m_matchCurrentRef, wxEventType.wxEVT_COMMAND_RADIOBUTTON_SELECTED,
      HandlerCast.wxCommandEventHandler, ExchangeHandler.OnMatchRefClicked, true⟩,
    ⟨ExchangeWidget.m_matchSpecifiedRef, wxEventType.wxEVT_COMMAND_RADIOBUTTON_SELECTED,
      HandlerCast.wxCommandEventHandler, ExchangeHandler.OnMatchRefClicked, true⟩,
    ⟨ExchangeWidget.m_specifiedRef, wxEventType.wxEVT_COMMAND_TEXT_UPDATED,
      HandlerCast.wxCommandEventHandler, ExchangeHandler.OnMatchRefClicked, true⟩,
    ⟨ExchangeWidget.m_specifiedRef, wxEventType.wxEVT_COMMAND_TEXT_ENTER,
      HandlerCast.wxCommandEventHandler, ExchangeHandler.OnMatchRefClicked, true⟩,
    ⟨ExchangeWidget.m_matchCurrentValue, wxEventType.wxEVT_COMMAND_RADIOBUTTON_SELECTED,
      HandlerCast.wxCommandEventHandler, ExchangeHandler.OnMatchValueClicked, true⟩,
    ⟨ExchangeWidget.m_matchSpecifiedValue, wxEventType.wxEVT_COMMAND_RADIOBUTTON_SELECTED,
      HandlerCast.wxCommandEventHandler, ExchangeHandler.OnMatchValueClicked, true⟩,
    ⟨ExchangeWidget.m_specifiedValue, wxEventType.wxEVT_COMMAND_TEXT_UPDATED,
      HandlerCast.wxCommandEventHandler, ExchangeHandler.OnMatchValueClicked, true⟩,
    ⟨ExchangeWidget.m_specifiedValue, wxEventType.wxEVT_COMMAND_TEXT_ENTER,
      HandlerCast.wxCommandEventHandler, ExchangeHandler.OnMatchValueClicked, true⟩,
    ⟨ExchangeWidget.m_matchSpecifiedID, wxEventType.wxEVT_COMMAND_RADIOBUTTON_SELECTED,
      HandlerCast.wxCommandEventHandler, ExchangeHandler.OnMatchIDClicked, true⟩,
    ⟨ExchangeWidget.m_specifiedIDBrowseButton, wxEventType.wxEVT_COMMAND_BUTTON_CLICKED,
      HandlerCast.wxCommandEventHandler, ExchangeHandler.ViewAndSelectFootprint, true⟩,
    ⟨ExchangeWidget.m_newIDBrowseButton, wxEventType.wxEVT_COMMAND_BUTTON_CLICKED,
      HandlerCast.wxCommandEventHandler, ExchangeHandler.ViewAndSelectFootprint, true⟩,
    ⟨ExchangeWidget.m_sdbSizer1Apply, wxEventType.wxEVT_COMMAND_BUTTON_CLICKED,
      HandlerCast.wxCommandEventHandler, ExchangeHandler.OnApplyClicked, true⟩ ]

/-- A footprint as a library may hand it over: reference and value texts empty and of
another kind. -/
def blankModule : MODULE :=
  { sampleModule 0 7 with
    m_Reference := sampleText TEXT_TYPE.TEXT_is_DIVERS ""
    m_Value := sampleText TEXT_TYPE.TEXT_is_DIVERS "" }

/-- Collaborators of the samples, with a library that returns the given footprint. -/
def loadingEnv (module : MODULE) : Collaborators :=
  { sampleEnv with LoadModuleFromLibrary := fun _ => some module }

/-! ## Theorems -/

/-- The search loop is `List.find?` with the time-stamp test. -/
theorem searchSource_eq_find (link : Int) (l : List MODULE) :
    searchSource link l = l.find? (fun m => decide (link = m.m_TimeStamp)) := by
  induction l with
  | nil => rfl
  | cons m rest ih =>
    by_cases h : link = m.m_TimeStamp
    · simp [searchSource, List.find?, h]
    · simp [searchSource, List.find?, h, ih]

/-- The search loop returns the first footprint stamped with the link. -/
theorem searchSource_eq_some_iff (link : Int) (l : List MODULE) (m : MODULE) :
    searchSource link l = some m ↔
      ∃ before after, l = before ++ m :: after ∧ m.m_TimeStamp = link ∧
        ∀ x ∈ before, x.m_TimeStamp ≠ link := by
  rw [searchSource_eq_find, List.find?_eq_some]
  constructor
  · rintro ⟨hm, before, after, hl, hb⟩
    refine ⟨before, after, hl, ?_, ?_⟩
    · exact (of_decide_eq_true hm).symm
    · intro x hx heq
      have := hb x hx
      simp [heq] at this
  · rintro ⟨before, after, hl, hm, hb⟩
    refine ⟨by simp [hm], before, after, hl, ?_⟩
    intro x hx
    have := hb x hx
    simp [Ne.symm this]

/-- The search loop returns nothing exactly when no footprint is stamped with the link. -/
theorem searchSource_eq_none_iff (link : Int) (l : List MODULE) :
    searchSource link l = none ↔ ∀ x ∈ l, x.m_TimeStamp ≠ link := by
  rw [searchSource_eq_find, List.find?_eq_none]
  constructor
  · intro h x hx heq
    have := h x hx
    simp [heq] at this
  · intro h x hx
    have := h x hx
    simp [Ne.symm this]

/-- C2: the source-footprint lookup is a linear search. With a non-zero link the result
is the first footprint of the main board, in list order, whose time stamp equals the
link (every footprint before it has another time stamp), and there is no result exactly
when no footprint matches; with link zero there is no result whatever the board holds. -/
theorem findSourceModule_linear_search (module_in_edit : MODULE) (mainpcb : BOARD) :
    (module_in_edit.m_Link ≠ 0 →
      findSourceModule module_in_edit mainpcb
          = mainpcb.m_Modules.find? (fun m => decide (module_in_edit.m_Link = m.m_TimeStamp))
        ∧ (∀ m, findSourceModule module_in_edit mainpcb = some m ↔
            ∃ before after, mainpcb.m_Modules = before ++ m :: after ∧
              m.m_TimeStamp = module_in_edit.m_Link ∧
              ∀ x ∈ before, x.m_TimeStamp ≠ module_in_edit.m_Link)
        ∧ (findSourceModule module_in_edit mainpcb = none ↔
            ∀ x ∈ mainpcb.m_Modules, x.m_TimeStamp ≠ module_in_edit.m_Link))
    ∧ (module_in_edit.m_Link = 0 → findSourceModule module_in_edit mainpcb = none) := by
  constructor
  · intro h
    simp only [findSourceModule, h, ne_eq, not_false_eq_true, if_true]
    exact ⟨searchSource_eq_find _ _, searchSource_eq_some_iff _ _, searchSource_eq_none_iff _ _⟩
  · intro h
    simp [findSourceModule, h]

/-- C2, at a board that holds a footprint with time stamp zero: an edited footprint with
link zero finds no source there, and one with link 8 finds the first of the two
footprints stamped 8. -/
theorem findSourceModule_linear_search_sample :
    findSourceModule (sampleModule 0 1)
        { m_Modules := [sampleModule 0 0, sampleModule 0 8], m_Status_Pcb := 0 } = none
    ∧ findSourceModule (sampleModule 8 1)
        { m_Modules := [sampleModule 0 0, sampleModule 1 8, sampleModule 2 8],
          m_Status_Pcb := 0 } = some (sampleModule 1 8) :=
  ⟨(findSourceModule_linear_search _ _).2 rfl, by decide⟩

/-- Trace and frame fields after the first switch for the insert and update commands. -/
theorem firstSwitch_insert_update (s : EditState) (id : CmdId)
    (hid : id = CmdId.ID_MODEDIT_INSERT_MODULE_IN_BOARD ∨
      id = CmdId.ID_MODEDIT_UPDATE_MODULE_IN_BOARD) :
    (firstSwitch s id).trace
        = s.trace ++ (if s.mouseCaptured then [Call.CallEndMouseCapture] else [])
    ∧ (firstSwitch s id).pcbframe = s.pcbframe
    ∧ (firstSwitch s id).board = s.board
    ∧ (firstSwitch s id).modified = s.modified := by
  rcases hid with h | h <;> subst h <;>
    cases hc : s.mouseCaptured <;>
    simp [firstSwitch, hc, EditState.SetNoToolSelected, EditState.SetToolID, EditState.log]

/-- The update command without a source footprint: the error is shown and nothing else
happens. -/
theorem update_without_source (env : Collaborators) (t : EditState) (pcbframe : PCB_EDIT_FRAME)
    (module_in_edit : MODULE) (rest : List MODULE)
    (hOpen : t.pcbframe = some pcbframe) (hFp : t.board.m_Modules = module_in_edit :: rest)
    (hSrc : findSourceModule module_in_edit pcbframe.board = none) :
    insertOrUpdateModuleInBoard env t CmdId.ID_MODEDIT_UPDATE_MODULE_IN_BOARD
      = some (t.log (Call.DisplayError msgCannotUpdate)) := by
  simp [insertOrUpdateModuleInBoard, hOpen, hFp, hSrc]

/-- The insert command with a source footprint: the error is shown and nothing else
happens. -/
theorem insert_with_source (env : Collaborators) (t : EditState) (pcbframe : PCB_EDIT_FRAME)
    (module_in_edit source : MODULE) (rest : List MODULE)
    (hOpen : t.pcbframe = some pcbframe) (hFp : t.board.m_Modules = module_in_edit :: rest)
    (hSrc : findSourceModule module_in_edit pcbframe.board = some source) :
    insertOrUpdateModuleInBoard env t CmdId.ID_MODEDIT_INSERT_MODULE_IN_BOARD
      = some (t.log (Call.DisplayError msgCannotInsert)) := by
  simp [insertOrUpdateModuleInBoard, hOpen, hFp, hSrc]

/-- The update command with a source footprint, step by step. -/
theorem update_with_source (env : Collaborators) (t : EditState) (pcbframe : PCB_EDIT_FRAME)
    (module_in_edit source : MODULE) (rest : List MODULE)
    (hOpen : t.pcbframe = some pcbframe) (hFp : t.board.m_Modules = module_in_edit :: rest)
    (hSrc : findSourceModule module_in_edit pcbframe.board = some source) :
    insertOrUpdateModuleInBoard env t CmdId.ID_MODEDIT_UPDATE_MODULE_IN_BOARD
      = some (finishInsertOrUpdate env
          (t.logs [Call.RunAction FrameRef.footprintEditor "selectionClear",
                   Call.RunAction FrameRef.boardEditor "selectionClear",
                   Call.Exchange_Module source (newModuleFor module_in_edit),
                   Call.commitPush "Update module"])
          pcbframe (some source)
          { env.Exchange_Module source (newModuleFor module_in_edit) with
            m_TimeStamp := module_in_edit.m_Link }) := by
  simp [insertOrUpdateModuleInBoard, hOpen, hFp, hSrc, EditState.log, EditState.logs]

/-- The insert command without a source footprint, step by step. -/
theorem insert_without_source (env : Collaborators) (t : EditState) (pcbframe : PCB_EDIT_FRAME)
    (module_in_edit : MODULE) (rest : List MODULE)
    (hOpen : t.pcbframe = some pcbframe) (hFp : t.board.m_Modules = module_in_edit :: rest)
    (hSrc : findSourceModule module_in_edit pcbframe.board = none) :
    insertOrUpdateModuleInBoard env t CmdId.ID_MODEDIT_INSERT_MODULE_IN_BOARD
      = some (finishInsertOrUpdate env
          (t.logs [Call.RunAction FrameRef.footprintEditor "selectionClear",
                   Call.RunAction FrameRef.boardEditor "selectionClear",
                   Call.commitAdd (newModuleFor module_in_edit),
                   Call.PlaceModule (newModuleFor module_in_edit),
                   Call.commitPush "Insert module"])
          pcbframe none
          { env.PlaceModule ⟨0, 0⟩ (newModuleFor module_in_edit) with
            m_Pos := ⟨0, 0⟩, m_TimeStamp := env.GetNewTimeStamp }) := by
  simp [insertOrUpdateModuleInBoard, hOpen, hFp, hSrc, EditState.log, EditState.logs,
    finishInsertOrUpdate]

/-- The common end of the insert/update command leaves the trace as it is. -/
theorem finishInsertOrUpdate_trace (env : Collaborators) (u : EditState)
    (pcbframe : PCB_EDIT_FRAME) (src : Option MODULE) (nm : MODULE) :
    (finishInsertOrUpdate env u pcbframe src nm).trace = u.trace := rfl

/-- Outcome of the insert and update commands, by whether a source footprint is found:
in each case one command is rejected and the other carried out. -/
theorem insert_update_outcomes (env : Collaborators) (s : EditState)
    (pcbframe : PCB_EDIT_FRAME) (module_in_edit : MODULE) (rest : List MODULE)
    (hOpen : s.pcbframe = some pcbframe) (hFp : s.board.m_Modules = module_in_edit :: rest) :
    (findSourceModule module_in_edit pcbframe.board = none →
      Rejected s (Process_Special_Functions env s CmdId.ID_MODEDIT_UPDATE_MODULE_IN_BOARD)
      ∧ ¬ CarriedOut s (Process_Special_Functions env s CmdId.ID_MODEDIT_UPDATE_MODULE_IN_BOARD)
      ∧ ¬ Rejected s (Process_Special_Functions env s CmdId.ID_MODEDIT_INSERT_MODULE_IN_BOARD)
      ∧ CarriedOut s (Process_Special_Functions env s CmdId.ID_MODEDIT_INSERT_MODULE_IN_BOARD))
    ∧ (findSourceModule module_in_edit pcbframe.board ≠ none →
      ¬ Rejected s (Process_Special_Functions env s CmdId.ID_MODEDIT_UPDATE_MODULE_IN_BOARD)
      ∧ CarriedOut s (Process_Special_Functions env s CmdId.ID_MODEDIT_UPDATE_MODULE_IN_BOARD)
      ∧ Rejected s (Process_Special_Functions env s CmdId.ID_MODEDIT_INSERT_MODULE_IN_BOARD)
      ∧ ¬ CarriedOut s
          (Process_Special_Functions env s CmdId.ID_MODEDIT_INSERT_MODULE_IN_BOARD)) := by
  obtain ⟨hTu, hPu, hBu, hMu⟩ :=
    firstSwitch_insert_update s CmdId.ID_MODEDIT_UPDATE_MODULE_IN_BOARD (Or.inr rfl)
  obtain ⟨hTi, hPi, hBi, hMi⟩ :=
    firstSwitch_insert_update s CmdId.ID_MODEDIT_INSERT_MODULE_IN_BOARD (Or.inl rfl)
  have hU : Process_Special_Functions env s CmdId.ID_MODEDIT_UPDATE_MODULE_IN_BOARD
      = insertOrUpdateModuleInBoard env
          (firstSwitch s CmdId.ID_MODEDIT_UPDATE_MODULE_IN_BOARD)
          CmdId.ID_MODEDIT_UPDATE_MODULE_IN_BOARD := rfl
  have hI : Process_Special_Functions env s CmdId.ID_MODEDIT_INSERT_MODULE_IN_BOARD
      = insertOrUpdateModuleInBoard env
          (firstSwitch s CmdId.ID_MODEDIT_INSERT_MODULE_IN_BOARD)
          CmdId.ID_MODEDIT_INSERT_MODULE_IN_BOARD := rfl
  rw [hU, hI]
  constructor
  · intro hSrc
    rw [update_without_source env _ pcbframe module_in_edit rest (hPu.trans hOpen)
          (by rw [hBu]; exact hFp) hSrc,
        insert_without_source env _ pcbframe module_in_edit rest (hPi.trans hOpen)
          (by rw [hBi]; exact hFp) hSrc]
    refine ⟨?_, ?_, ?_, ?_⟩
    · refine ⟨_, rfl, ⟨msgCannotUpdate, ?_⟩, ?_, ?_⟩
      · cases hc : s.mouseCaptured <;>
          simp [newCalls, EditState.log, hTu, hc]
      · simp [EditState.mainBoard, EditState.log, hPu]
      · simp [EditState.log, hMu]
    · rintro ⟨s', hs', msg, hmem⟩
      cases hs'
      revert hmem
      cases hc : s.mouseCaptured <;>
        simp [newCalls, EditState.log, hTu, hc]
    · rintro ⟨s', hs', ⟨msg, hmem⟩, _⟩
      cases hs'
      revert hmem
      cases hc : s.mouseCaptured <;>
        simp [newCalls, EditState.logs, finishInsertOrUpdate_trace, hTi, hc]
    · refine ⟨_, rfl, "Insert module", ?_⟩
      cases hc : s.mouseCaptured <;>
        simp [newCalls, EditState.logs, finishInsertOrUpdate_trace, hTi, hc]
  · intro hSrc
    obtain ⟨source, hSome⟩ := Option.ne_none_iff_exists'.mp hSrc
    rw [update_with_source env _ pcbframe module_in_edit source rest (hPu.trans hOpen)
          (by rw [hBu]; exact hFp) hSome,
        insert_with_source env _ pcbframe module_in_edit source rest (hPi.trans hOpen)
          (by rw [hBi]; exact hFp) hSome]
    refine ⟨?_, ?_, ?_, ?_⟩
    · rintro ⟨s', hs', ⟨msg, hmem⟩, _⟩
      cases hs'
      revert hmem
      cases hc : s.mouseCaptured <;>
        simp [newCalls, EditState.logs, finishInsertOrUpdate_trace, hTu, hc]
    · refine ⟨_, rfl, "Update module", ?_⟩
      cases hc : s.mouseCaptured <;>
        simp [newCalls, EditState.logs, finishInsertOrUpdate_trace, hTu, hc]
    · refine ⟨_, rfl, ⟨msgCannotInsert, ?_⟩, ?_, ?_⟩
      · cases hc : s.mouseCaptured <;>
          simp [newCalls, EditState.log, hTi, hc]
      · simp [EditState.mainBoard, EditState.log, hPi]
      · simp [EditState.log, hMi]
    · rintro ⟨s', hs', msg, hmem⟩
      cases hs'
      revert hmem
      cases hc : s.mouseCaptured <;>
        simp [newCalls, EditState.log, hTi, hc]

/-- C1: in every state where a board editor is open and the footprint editor holds a
footprint, `Process_Special_Functions` rejects the update command (error shown, main
board and modified flag unchanged) exactly when no source footprint is found on the main
board, and rejects the insert command exactly when one is found; each command is carried
out exactly when it is not rejected, so exactly one of the two is carried out. -/
theorem insert_update_rejected_exactly_when (env : Collaborators) (s : EditState)
    (pcbframe : PCB_EDIT_FRAME) (module_in_edit : MODULE) (rest : List MODULE)
    (hOpen : s.pcbframe = some pcbframe) (hFp : s.board.m_Modules = module_in_edit :: rest) :
    (Rejected s (Process_Special_Functions env s CmdId.ID_MODEDIT_UPDATE_MODULE_IN_BOARD)
      ↔ findSourceModule module_in_edit pcbframe.board = none)
    ∧ (Rejected s (Process_Special_Functions env s CmdId.ID_MODEDIT_INSERT_MODULE_IN_BOARD)
      ↔ findSourceModule module_in_edit pcbframe.board ≠ none)
    ∧ (CarriedOut s (Process_Special_Functions env s CmdId.ID_MODEDIT_UPDATE_MODULE_IN_BOARD)
      ↔ ¬ Rejected s (Process_Special_Functions env s CmdId.ID_MODEDIT_UPDATE_MODULE_IN_BOARD))
    ∧ (CarriedOut s (Process_Special_Functions env s CmdId.ID_MODEDIT_INSERT_MODULE_IN_BOARD)
      ↔ ¬ Rejected s (Process_Special_Functions env s CmdId.ID_MODEDIT_INSERT_MODULE_IN_BOARD))
    ∧ ((CarriedOut s (Process_Special_Functions env s CmdId.ID_MODEDIT_UPDATE_MODULE_IN_BOARD)
        ∧ ¬ CarriedOut s
            (Process_Special_Functions env s CmdId.ID_MODEDIT_INSERT_MODULE_IN_BOARD))
      ∨ (CarriedOut s (Process_Special_Functions env s CmdId.ID_MODEDIT_INSERT_MODULE_IN_BOARD)
        ∧ ¬ CarriedOut s
            (Process_Special_Functions env s CmdId.ID_MODEDIT_UPDATE_MODULE_IN_BOARD))) := by
  obtain ⟨hNone, hSome⟩ := insert_update_outcomes env s pcbframe module_in_edit rest hOpen hFp
  by_cases h : findSourceModule module_in_edit pcbframe.board = none
  · obtain ⟨h1, h2, h3, h4⟩ := hNone h
    simp only [h, ne_eq, not_true_eq_false]
    tauto
  · obtain ⟨h1, h2, h3, h4⟩ := hSome h
    simp only [h, ne_eq, not_false_eq_true]
    tauto

/-- C1 at a sample state (main board holding the source stamped 8 of the edited
footprint): the insert command is rejected and the update command is carried out. -/
theorem insert_update_rejected_exactly_when_sample :
    Rejected (sampleState [sampleModule 8 1] (some [sampleModule 0 8]))
      (Process_Special_Functions sampleEnv (sampleState [sampleModule 8 1]
        (some [sampleModule 0 8])) CmdId.ID_MODEDIT_INSERT_MODULE_IN_BOARD)
    ∧ CarriedOut (sampleState [sampleModule 8 1] (some [sampleModule 0 8]))
      (Process_Special_Functions sampleEnv (sampleState [sampleModule 8 1]
        (some [sampleModule 0 8])) CmdId.ID_MODEDIT_UPDATE_MODULE_IN_BOARD) := by
  have h := insert_update_rejected_exactly_when sampleEnv
    (sampleState [sampleModule 8 1] (some [sampleModule 0 8]))
    { board := { m_Modules := [sampleModule 0 8], m_Status_Pcb := 1 },
      crossHair := ⟨11, 13⟩, curItem := none }
    (sampleModule 8 1) [] rfl rfl
  have hs : findSourceModule (sampleModule 8 1)
      { m_Modules := [sampleModule 0 8], m_Status_Pcb := 1 } ≠ none := by decide
  have hR := h.2.1.mpr hs
  refine ⟨hR, h.2.2.1.mpr ?_⟩
  intro hU
  exact hs (h.1.mp hU)

/-- C5: `RemoveStruct` never deletes a reference or value text. For a text of type
`TEXT_is_REFERENCE` or `TEXT_is_VALUE` it shows an error and calls no deletion routine;
for `TEXT_is_DIVERS` it deletes the text; for a pad or an edge it deletes that item; for
a null item or the footprint itself it does nothing; for any other item type it shows a
message box naming the type and calls no deletion routine. Whatever the item, a deletion
routine is only ever called on the item itself, and never on a reference or value text. -/
theorem RemoveStruct_cases (s : EditState) :
    RemoveStruct s none = s
    ∧ (∀ item : BOARD_ITEM,
        (item.m_StructType = KICAD_T.PCB_MODULE_T → RemoveStruct s (some item) = s)
        ∧ (item.m_StructType = KICAD_T.PCB_MODULE_TEXT_T →
            item.m_TextType = TEXT_TYPE.TEXT_is_REFERENCE →
            RemoveStruct s (some item) = s.log (Call.DisplayError "Cannot delete REFERENCE!"))
        ∧ (item.m_StructType = KICAD_T.PCB_MODULE_TEXT_T →
            item.m_TextType = TEXT_TYPE.TEXT_is_VALUE →
            RemoveStruct s (some item) = s.log (Call.DisplayError "Cannot delete VALUE!"))
        ∧ (item.m_StructType = KICAD_T.PCB_MODULE_TEXT_T →
            item.m_TextType = TEXT_TYPE.TEXT_is_DIVERS →
            RemoveStruct s (some item) = s.log (Call.DeleteTextModule (some item)))
        ∧ (item.m_StructType = KICAD_T.PCB_PAD_T →
            RemoveStruct s (some item) = s.log (Call.DeletePad (some item) false))
        ∧ (item.m_StructType = KICAD_T.PCB_MODULE_EDGE_T →
            RemoveStruct s (some item)
              = (s.log (Call.Delete_Edge_Module (some item))).call "Refresh")
        ∧ (∀ n, item.m_StructType = KICAD_T.other n →
            RemoveStruct s (some item) = s.log (Call.wxMessageBox
              (" RemoveStruct: item type " ++ toString n ++ " unknown.")))
        ∧ (∀ c ∈ newCalls s (RemoveStruct s (some item)),
            c.isDeletion = true → c.deleted = some item ∧ item.isReferenceOrValue = false)
        ∧ (item.isReferenceOrValue = true →
            ∃ msg, newCalls s (RemoveStruct s (some item)) = [Call.DisplayError msg])) := by
  refine ⟨rfl, ?_⟩
  intro item
  rcases item with ⟨t, k, p, f, nw, mt, mi, b⟩
  cases t <;> cases k <;>
    simp [RemoveStruct, EditState.log, EditState.call, newCalls, Call.isDeletion,
      Call.deleted, BOARD_ITEM.isReferenceOrValue]

/-- A deletion routine called by `RemoveStruct` is called on the item itself. -/
theorem RemoveStruct_deletion_target (s : EditState) (item : BOARD_ITEM) :
    ∀ c ∈ newCalls s (RemoveStruct s (some item)), c.isDeletion = true →
      c.deleted = some item := by
  rcases item with ⟨t, k, p, f, nw, mt, mi, b⟩
  cases t <;> cases k <;>
    simp [RemoveStruct, EditState.log, EditState.call, newCalls, Call.isDeletion,
      Call.deleted]

/-- C6: for each of the three delete commands `Process_Special_Functions` returns, the
first call it makes is `SaveCopyInUndoList( GetBoard()->m_Modules, UR_CHANGED )`, every
deletion routine is called after it (on the item that was current), and the current item
is null on return. -/
theorem delete_commands_save_undo_first (env : Collaborators) (s : EditState) :
    (∃ s', Process_Special_Functions env s CmdId.ID_POPUP_PCB_DELETE_PAD = some s'
      ∧ newCalls s s' = [Call.SaveCopyInUndoList s.board.m_Modules.head? UNDO_REDO_T.UR_CHANGED,
          Call.DeletePad s.curItem false, Call.collab "MoveCursorToCrossHair" none]
      ∧ s'.curItem = none)
    ∧ (∃ s', Process_Special_Functions env s CmdId.ID_POPUP_PCB_DELETE_TEXTMODULE = some s'
      ∧ newCalls s s' = [Call.SaveCopyInUndoList s.board.m_Modules.head? UNDO_REDO_T.UR_CHANGED,
          Call.DeleteTextModule s.curItem, Call.collab "MoveCursorToCrossHair" none]
      ∧ s'.curItem = none)
    ∧ (∃ s', Process_Special_Functions env s CmdId.ID_POPUP_PCB_DELETE_EDGE = some s'
      ∧ newCalls s s' = Call.SaveCopyInUndoList s.board.m_Modules.head? UNDO_REDO_T.UR_CHANGED
          :: Call.collab "MoveCursorToCrossHair" none :: newCalls s (RemoveStruct s s.curItem)
      ∧ (∀ c ∈ newCalls s (RemoveStruct s s.curItem), c.isDeletion = true →
          c.deleted = s.curItem)
      ∧ s'.curItem = none) := by
  refine ⟨⟨_, rfl, ?_, rfl⟩, ⟨_, rfl, ?_, rfl⟩, ⟨_, rfl, ?_, ?_, ?_⟩⟩
  · simp [newCalls, firstSwitch, EditState.log, EditState.call, EditState.SetCurItem]
  · simp [newCalls, firstSwitch, EditState.log, EditState.call, EditState.SetCurItem]
  · cases hc : s.curItem with
    | none =>
      simp [newCalls, firstSwitch, EditState.log, EditState.call, EditState.SetCurItem,
        RemoveStruct, hc]
    | some item =>
      rcases item with ⟨t, k, p, f, nw, mt, mi, b⟩
      cases t <;> cases k <;>
        simp [newCalls, firstSwitch, EditState.log, EditState.call, EditState.SetCurItem,
          RemoveStruct, hc]
  · cases hc : s.curItem with
    | none => simp [newCalls, RemoveStruct]
    | some item =>
      intro c hmem hdel
      exact RemoveStruct_deletion_target s item c hmem hdel
  · cases hc : s.curItem with
    | none => simp [firstSwitch, EditState.SetCurItem]
    | some item => simp [firstSwitch, EditState.SetCurItem]

/-- The first switch on an identifier outside the listed ones and other than
`ID_POPUP_CANCEL_CURRENT_COMMAND`: the move in progress is ended if the mouse is
captured, then the tool is deselected. -/
theorem firstSwitch_other (s : EditState) (id : CmdId) (hk : id ∉ keepSet)
    (hc : id ≠ CmdId.ID_POPUP_CANCEL_CURRENT_COMMAND) :
    firstSwitch s id
      = (if s.mouseCaptured then s.log Call.CallEndMouseCapture else s).SetNoToolSelected := by
  cases id <;> first
    | (exfalso; revert hk; decide)
    | (exfalso; exact hc rfl)
    | simp [firstSwitch]

/-- C8: the first switch of `Process_Special_Functions` splits the command identifiers
in three classes. For a listed identifier (`wxID_CUT` ... `ID_POPUP_DUPLICATE_BLOCK`) the
frame is left as it is: no call is made and the tool is kept. For
`ID_POPUP_CANCEL_CURRENT_COMMAND` the move in progress is ended (`CallEndMouseCapture`)
if and only if the mouse is captured, and the selected tool is kept. For every other
identifier the move in progress is ended if and only if the mouse is captured, and the
tool is reset to `ID_NO_TOOL_SELECTED`. Every identifier is in exactly one class. -/
theorem firstSwitch_partition (s : EditState) (id : CmdId) :
    (id ∈ keepSet → firstSwitch s id = s)
    ∧ (id = CmdId.ID_POPUP_CANCEL_CURRENT_COMMAND →
        firstSwitch s id = (if s.mouseCaptured then s.log Call.CallEndMouseCapture else s)
        ∧ newCalls s (firstSwitch s id)
            = (if s.mouseCaptured then [Call.CallEndMouseCapture] else [])
        ∧ (firstSwitch s id).toolId = s.toolId
        ∧ (firstSwitch s id).toolCursor = s.toolCursor
        ∧ (firstSwitch s id).toolMsg = s.toolMsg)
    ∧ (id ∉ keepSet → id ≠ CmdId.ID_POPUP_CANCEL_CURRENT_COMMAND →
        firstSwitch s id
          = (if s.mouseCaptured then s.log Call.CallEndMouseCapture
             else s).SetNoToolSelected
        ∧ newCalls s (firstSwitch s id)
            = (if s.mouseCaptured then [Call.CallEndMouseCapture] else [])
        ∧ (firstSwitch s id).toolId = CmdId.ID_NO_TOOL_SELECTED)
    ∧ CmdId.ID_POPUP_CANCEL_CURRENT_COMMAND ∉ keepSet := by
  refine ⟨?_, ?_, ?_, by decide⟩
  · intro hk
    cases id <;> first
      | rfl
      | (exfalso; revert hk; decide)
      | (exfalso; revert hk; simp [keepSet])
  · intro h
    subst h
    cases hc : s.mouseCaptured <;>
      simp [firstSwitch, hc, newCalls, EditState.log]
  · intro hk hc
    rw [firstSwitch_other s id hk hc]
    cases hm : s.mouseCaptured <;>
      simp [newCalls, EditState.log, EditState.SetNoToolSelected, EditState.SetToolID]

/-- The confirmation step: the question is asked exactly when the screen is modified and
the board is not empty, and the command goes on unless the question was asked and the
user declined. -/
theorem confirmLoseFootprint_spec (env : Collaborators) (t : EditState) :
    confirmLoseFootprint env t
      = if t.modified = true ∧ env.IsEmpty t.board = false then
          (t.log (Call.IsOK
            "Current Footprint will be lost and this operation cannot be undone. Continue ?"),
           env.IsOK)
        else (t, true) := by
  cases hm : t.modified <;> cases he : env.IsEmpty t.board <;>
    simp [confirmLoseFootprint, hm, he]

/-- Calls of the new-footprint command on a frame state: the confirmation is among them
exactly when the screen is modified and the board not empty, and a declined
confirmation leaves board and modified flag alone. -/
theorem newModuleCommand_confirmation (env : Collaborators) (t : EditState) :
    ∃ s' cs, newModuleCommand env t = some s' ∧ s'.trace = t.trace ++ cs
      ∧ ((∃ c ∈ cs, c.isConfirmation = true)
          ↔ (t.modified = true ∧ env.IsEmpty t.board = false))
      ∧ (t.modified = true → env.IsEmpty t.board = false → env.IsOK = false →
          s'.board = t.board ∧ s'.modified = t.modified) := by
  cases hm : t.modified <;> cases he : env.IsEmpty t.board <;> cases hk : env.IsOK <;>
    cases hn : env.CreateNewModule <;>
    simp [newModuleCommand, confirmLoseFootprint_spec, EditState.log, EditState.call,
      EditState.ClrModify, Call.isConfirmation, hm, he, hk, hn, List.append_assoc]

/-- Calls of the new-footprint-from-wizard command on a frame state. -/
theorem newModuleFromWizardCommand_confirmation (env : Collaborators) (t : EditState) :
    ∃ s' cs, newModuleFromWizardCommand env t = some s' ∧ s'.trace = t.trace ++ cs
      ∧ ((∃ c ∈ cs, c.isConfirmation = true)
          ↔ (t.modified = true ∧ env.IsEmpty t.board = false))
      ∧ (t.modified = true → env.IsEmpty t.board = false → env.IsOK = false →
          s'.board = t.board ∧ s'.modified = t.modified) := by
  cases hm : t.modified <;> cases he : env.IsEmpty t.board <;> cases hk : env.IsOK <;>
    cases hw : env.wizardShowModal <;> cases hn : env.GetBuiltFootprint <;>
    simp [newModuleFromWizardCommand, confirmLoseFootprint_spec, EditState.log,
      EditState.call, EditState.ClrModify, Call.isConfirmation, hm, he, hk, hw, hn,
      List.append_assoc]

/-- Calls of the load-footprint command on a frame state. -/
theorem loadModuleCommand_confirmation (env : Collaborators) (t : EditState) :
    ∃ s' cs, loadModuleCommand env t = some s' ∧ s'.trace = t.trace ++ cs
      ∧ ((∃ c ∈ cs, c.isConfirmation = true)
          ↔ (t.modified = true ∧ env.IsEmpty t.board = false))
      ∧ (t.modified = true → env.IsEmpty t.board = false → env.IsOK = false →
          s'.board = t.board ∧ s'.modified = t.modified) := by
  cases hm : t.modified <;> cases he : env.IsEmpty t.board <;> cases hk : env.IsOK <;>
    cases hn : env.LoadModuleFromLibrary t.currentLib <;>
    simp [loadModuleCommand, confirmLoseFootprint_spec, EditState.log, EditState.call,
      EditState.ClrModify, Call.isConfirmation, hm, he, hk, hn, List.append_assoc]

/-- Lifting of a statement about the commands' calls from the state after the first
switch to the state before it. -/
theorem confirmation_lift (env : Collaborators) (s : EditState)
    (cmd : Collaborators → EditState → Option EditState)
    (h : ∀ t : EditState, ∃ s' cs, cmd env t = some s' ∧ s'.trace = t.trace ++ cs
      ∧ ((∃ c ∈ cs, c.isConfirmation = true)
          ↔ (t.modified = true ∧ env.IsEmpty t.board = false))
      ∧ (t.modified = true → env.IsEmpty t.board = false → env.IsOK = false →
          s'.board = t.board ∧ s'.modified = t.modified)) :
    ∃ s', cmd env ((if s.mouseCaptured then s.log Call.CallEndMouseCapture
        else s).SetNoToolSelected) = some s'
      ∧ ((∃ c ∈ newCalls s s', c.isConfirmation = true)
          ↔ (s.modified = true ∧ env.IsEmpty s.board = false))
      ∧ (s.modified = true → env.IsEmpty s.board = false → env.IsOK = false →
          s'.board = s.board ∧ s'.modified = s.modified) := by
  obtain ⟨s', cs, h1, h2, h3, h4⟩ :=
    h ((if s.mouseCaptured then s.log Call.CallEndMouseCapture else s).SetNoToolSelected)
  refine ⟨s', h1, ?_, ?_⟩
  · rw [← (show _ ↔ (s.modified = true ∧ env.IsEmpty s.board = false) from by
      cases hc : s.mouseCaptured <;>
        simpa [hc, EditState.log, EditState.SetNoToolSelected, EditState.SetToolID] using h3)]
    cases hc : s.mouseCaptured <;>
      simp [newCalls, h2, hc, EditState.log, EditState.SetNoToolSelected,
        EditState.SetToolID, Call.isConfirmation, List.append_assoc]
  · cases hc : s.mouseCaptured <;>
      simpa [hc, EditState.log, EditState.SetNoToolSelected, EditState.SetToolID] using h4

/-- C7: for each of the new-footprint, new-footprint-from-wizard and load-footprint
commands, `Process_Special_Functions` returns, and it asks for the modal confirmation
(`IsOK`) if and only if the screen is marked modified and the board is not empty; when
the confirmation is asked and the user declines, the board and the modified flag are
what they were before the command. -/
theorem confirmation_asked_iff_modified_nonempty (env : Collaborators) (s : EditState)
    (id : CmdId)
    (hid : id = CmdId.ID_MODEDIT_NEW_MODULE ∨ id = CmdId.ID_MODEDIT_NEW_MODULE_FROM_WIZARD
      ∨ id = CmdId.ID_MODEDIT_LOAD_MODULE) :
    ∃ s', Process_Special_Functions env s id = some s'
      ∧ ((∃ c ∈ newCalls s s', c.isConfirmation = true)
          ↔ (s.modified = true ∧ env.IsEmpty s.board = false))
      ∧ (s.modified = true → env.IsEmpty s.board = false → env.IsOK = false →
          s'.board = s.board ∧ s'.modified = s.modified) := by
  rcases hid with h | h | h <;> subst h
  · have hP : Process_Special_Functions env s CmdId.ID_MODEDIT_NEW_MODULE
        = newModuleCommand env (firstSwitch s CmdId.ID_MODEDIT_NEW_MODULE) := rfl
    rw [hP, firstSwitch_other s _ (by decide) (by decide)]
    exact confirmation_lift env s newModuleCommand (newModuleCommand_confirmation env)
  · have hP : Process_Special_Functions env s CmdId.ID_MODEDIT_NEW_MODULE_FROM_WIZARD
        = newModuleFromWizardCommand env
            (firstSwitch s CmdId.ID_MODEDIT_NEW_MODULE_FROM_WIZARD) := rfl
    rw [hP, firstSwitch_other s _ (by decide) (by decide)]
    exact confirmation_lift env s newModuleFromWizardCommand
      (newModuleFromWizardCommand_confirmation env)
  · have hP : Process_Special_Functions env s CmdId.ID_MODEDIT_LOAD_MODULE
        = loadModuleCommand env (firstSwitch s CmdId.ID_MODEDIT_LOAD_MODULE) := rfl
    rw [hP, firstSwitch_other s _ (by decide) (by decide)]
    exact confirmation_lift env s loadModuleCommand (loadModuleCommand_confirmation env)

/-- C7 at a sample state (modified screen, one footprint on the board, a user who
declines): the load command asks for the confirmation and leaves board and modified
flag as they were. -/
theorem confirmation_asked_iff_modified_nonempty_sample :
    ∃ s', Process_Special_Functions (decliningEnv sampleEnv)
        (sampleState [sampleModule 8 1] none) CmdId.ID_MODEDIT_LOAD_MODULE = some s'
      ∧ (∃ c ∈ newCalls (sampleState [sampleModule 8 1] none) s', c.isConfirmation = true)
      ∧ s'.board = (sampleState [sampleModule 8 1] none).board
      ∧ s'.modified = true := by
  obtain ⟨s', h1, h2, h3⟩ := confirmation_asked_iff_modified_nonempty
    (decliningEnv sampleEnv) (sampleState [sampleModule 8 1] none)
    CmdId.ID_MODEDIT_LOAD_MODULE (Or.inr (Or.inr rfl))
  exact ⟨s', h1, h2.mpr ⟨rfl, rfl⟩, (h3 rfl rfl rfl).1, (h3 rfl rfl rfl).2⟩

/-- C9: `OnVerticalToolbar` acts from the deselected state (for every identifier but
`ID_ZOOM_SELECTION` its result is the one it gives on the frame with no tool selected,
and whenever it returns with no tool selected the cursor and message are the idle
ones), and the tool selected on return is the event identifier or no tool: the
identifier for the line, arc, circle, text, anchor, grid-origin and delete tools; for
`ID_MODEDIT_PAD_TOOL` the pad tool if the board holds a footprint and no tool otherwise;
for `ID_ZOOM_SELECTION` the zoom tool if the previous tool was not the zoom tool and no
tool otherwise; no tool for every other identifier (`ID_NO_TOOL_SELECTED`,
`ID_MODEDIT_MEASUREMENT_TOOL`, unknown ones). -/
theorem OnVerticalToolbar_selected_tool (s : EditState) (id : CmdId) :
    ((OnVerticalToolbar s id).toolId = id
      ∨ (OnVerticalToolbar s id).toolId = CmdId.ID_NO_TOOL_SELECTED)
    ∧ (id ∈ plainTools → (OnVerticalToolbar s id).toolId = id)
    ∧ (id = CmdId.ID_MODEDIT_PAD_TOOL →
        (OnVerticalToolbar s id).toolId
          = if s.board.m_Modules ≠ [] then CmdId.ID_MODEDIT_PAD_TOOL
            else CmdId.ID_NO_TOOL_SELECTED)
    ∧ (id = CmdId.ID_ZOOM_SELECTION →
        (OnVerticalToolbar s id).toolId
          = if s.toolId ≠ CmdId.ID_ZOOM_SELECTION then CmdId.ID_ZOOM_SELECTION
            else CmdId.ID_NO_TOOL_SELECTED)
    ∧ (id ∉ plainTools → id ≠ CmdId.ID_MODEDIT_PAD_TOOL → id ≠ CmdId.ID_ZOOM_SELECTION →
        (OnVerticalToolbar s id).toolId = CmdId.ID_NO_TOOL_SELECTED)
    ∧ (id ≠ CmdId.ID_ZOOM_SELECTION →
        OnVerticalToolbar s id = OnVerticalToolbar s.SetNoToolSelected id)
    ∧ ((OnVerticalToolbar s id).toolId = CmdId.ID_NO_TOOL_SELECTED →
        (OnVerticalToolbar s id).toolCursor = wxStockCursor.wxCURSOR_DEFAULT
        ∧ (OnVerticalToolbar s id).toolMsg = "") := by
  by_cases hz : s.toolId = CmdId.ID_ZOOM_SELECTION <;>
    cases hb : s.board.m_Modules <;>
    cases id <;>
    simp [OnVerticalToolbar, EditState.SetNoToolSelected, EditState.SetToolID,
      EditState.log, EditState.callOn, plainTools, hz, hb]

/-- The menu-filling loop appends, for the items at indices `ii`, ..., `ii + left - 1` of
the collection and in that order, the picker entry of each. -/
theorem addItemsLoop_eq (START : Int) (coll : List BOARD_ITEM) :
    ∀ (left ii : Nat) (itemMenu : wxMenu), ii + left ≤ coll.length →
      addItemsLoop START coll left ii itemMenu
        = some (itemMenu ++ (((coll.drop ii).take left).enumFrom ii).map (pickerEntry START)) := by
  intro left
  induction left with
  | zero => intro ii itemMenu _; simp [addItemsLoop]
  | succ left ih =>
    intro ii itemMenu h
    have hlt : ii < coll.length := by omega
    have hd : coll.drop ii = coll[ii] :: coll.drop (ii + 1) := List.drop_eq_getElem_cons hlt
    simp only [addItemsLoop, List.getElem?_eq_getElem hlt]
    rw [ih (ii + 1) _ (by omega), hd]
    simp [List.enumFrom, pickerEntry]

/-- Item entries of the picker menu of a collection: length and entry at each index. -/
theorem pickerEntries_spec (MAX : Nat) (START : Int) (coll : List BOARD_ITEM) :
    (((coll.take (min MAX coll.length)).enumFrom 0).map (pickerEntry START)).length
        = min MAX coll.length
    ∧ ∀ ii, ii < min MAX coll.length →
        ∃ item, coll[ii]? = some item
          ∧ (((coll.take (min MAX coll.length)).enumFrom 0).map (pickerEntry START))[ii]?
              = some (MenuEntry.item (MenuId.num (START + ii)) item.menuText
                  (Bitmap.image item.menuImage)) := by
  constructor
  · simp
  · intro ii hii
    have h1 : ii < coll.length := lt_of_lt_of_le hii (min_le_right _ _)
    refine ⟨coll[ii], List.getElem?_eq_getElem h1, ?_⟩
    have h2 : ii < (coll.take (min MAX coll.length)).length := by simpa using hii
    simp [List.getElem?_map, List.getElem?_enumFrom, List.getElem?_take, hii,
      List.getElem?_eq_getElem h1, pickerEntry]

/-- The "Clarify Selection" menu of a collection: title, separator, then the picker
entries of the first `min( MAX_ITEMS_IN_PICKER, GetCount() )` items. -/
theorem clarifySelectionMenu_eq (MAX : Nat) (START : Int) (coll : List BOARD_ITEM) :
    clarifySelectionMenu MAX START coll
      = some (clarifyTitle :: MenuEntry.separator ::
          ((coll.take (min MAX coll.length)).enumFrom 0).map (pickerEntry START)) := by
  unfold clarifySelectionMenu
  simp only []
  rw [addItemsLoop_eq START coll (min MAX coll.length) 0 _
    (by simp only [Nat.zero_add]; exact min_le_right _ _)]
  simp [clarifyTitle]

/-- C10: when `ModeditLocateAndDisplay` runs on a board that holds a footprint and the
filtered collection has n > 1 items, it returns, it pops up exactly one menu, and that
menu is the title entry, a separator and then exactly `min( MAX_ITEMS_IN_PICKER, n )`
item entries, the entry at index `ii` being the one of the collection's `ii`-th item
with identifier `ID_POPUP_PCB_ITEM_SELECTION_START + ii`. -/
theorem ModeditLocateAndDisplay_menu (env : Collaborators) (MAX_ITEMS_IN_PICKER : Nat)
    (ID_POPUP_PCB_ITEM_SELECTION_START : Int) (s : EditState) (aHotKeyCode : Int)
    (coll : List BOARD_ITEM)
    (hFp : s.board.m_Modules ≠ [])
    (hColl : coll = removeRedundancies (env.Collect s.board
      (if aHotKeyCode ≠ 0 then none else some ScanList.ModulesAndTheirItems)))
    (hn : 1 < coll.length) :
    ∃ r s' entries,
      ModeditLocateAndDisplay env MAX_ITEMS_IN_PICKER ID_POPUP_PCB_ITEM_SELECTION_START s
        aHotKeyCode = some (r, s')
      ∧ (newCalls s s').filterMap (fun c => match c with
            | Call.PopupMenu menu => some menu
            | _ => none)
          = [clarifyTitle :: MenuEntry.separator :: entries]
      ∧ entries.length = min MAX_ITEMS_IN_PICKER coll.length
      ∧ ∀ ii, ii < min MAX_ITEMS_IN_PICKER coll.length →
          ∃ item, coll[ii]? = some item
            ∧ entries[ii]? = some (MenuEntry.item
                (MenuId.num (ID_POPUP_PCB_ITEM_SELECTION_START + ii)) item.menuText
                (Bitmap.image item.menuImage)) := by
  obtain ⟨hlen, hent⟩ :=
    pickerEntries_spec MAX_ITEMS_IN_PICKER ID_POPUP_PCB_ITEM_SELECTION_START coll
  cases hb : s.board.m_Modules with
  | nil => exact absurd hb hFp
  | cons m rest =>
    have hnot : ¬ coll.length ≤ 1 := by omega
    have hsb : (s.call "m_Collector->Collect").board = s.board := rfl
    have key : ∃ r s',
        ModeditLocateAndDisplay env MAX_ITEMS_IN_PICKER ID_POPUP_PCB_ITEM_SELECTION_START s
          aHotKeyCode = some (r, s')
        ∧ (newCalls s s').filterMap (fun c => match c with
              | Call.PopupMenu menu => some menu
              | _ => none)
            = [clarifyTitle :: MenuEntry.separator ::
                ((coll.take (min MAX_ITEMS_IN_PICKER coll.length)).enumFrom 0).map
                  (pickerEntry ID_POPUP_PCB_ITEM_SELECTION_START)] := by
      simp only [ModeditLocateAndDisplay, hb, hsb, ← hColl, hnot, if_false,
        clarifySelectionMenu_eq]
      refine ⟨_, _, rfl, ?_⟩
      cases hp : env.PopupMenu (clarifyTitle :: MenuEntry.separator ::
          ((coll.take (min MAX_ITEMS_IN_PICKER coll.length)).enumFrom 0).map
            (pickerEntry ID_POPUP_PCB_ITEM_SELECTION_START)) s.curItem <;>
        simp [newCalls, EditState.call, EditState.callOn, EditState.log,
          EditState.SetCurItem, hp, List.filterMap]
    obtain ⟨r, s', h1, h2⟩ := key
    exact ⟨r, s', _, h1, h2, hlen, hent⟩

/-- C10 at a sample state: the collector returns a pad, the footprint and a text; the
footprint is removed, and the menu shows two item entries, with identifiers 100 and 101
for the pad and the text. -/
theorem ModeditLocateAndDisplay_menu_sample :
    ∃ r s' entries,
      ModeditLocateAndDisplay
        (collectingEnv [sampleItem KICAD_T.PCB_PAD_T TEXT_TYPE.TEXT_is_DIVERS,
          sampleItem KICAD_T.PCB_MODULE_T TEXT_TYPE.TEXT_is_DIVERS,
          sampleItem KICAD_T.PCB_MODULE_TEXT_T TEXT_TYPE.TEXT_is_VALUE])
        15 100 (sampleState [sampleModule 8 1] none) 0 = some (r, s')
      ∧ (newCalls (sampleState [sampleModule 8 1] none) s').filterMap (fun c => match c with
            | Call.PopupMenu menu => some menu
            | _ => none)
          = [clarifyTitle :: MenuEntry.separator :: entries]
      ∧ entries = [MenuEntry.item (MenuId.num 100) "item" (Bitmap.image 4),
          MenuEntry.item (MenuId.num 101) "item" (Bitmap.image 4)] := by
  obtain ⟨r, s', entries, h1, h2, h3, h4⟩ := ModeditLocateAndDisplay_menu
    (collectingEnv [sampleItem KICAD_T.PCB_PAD_T TEXT_TYPE.TEXT_is_DIVERS,
      sampleItem KICAD_T.PCB_MODULE_T TEXT_TYPE.TEXT_is_DIVERS,
      sampleItem KICAD_T.PCB_MODULE_TEXT_T TEXT_TYPE.TEXT_is_VALUE])
    15 100 (sampleState [sampleModule 8 1] none) 0
    [sampleItem KICAD_T.PCB_PAD_T TEXT_TYPE.TEXT_is_DIVERS,
      sampleItem KICAD_T.PCB_MODULE_TEXT_T TEXT_TYPE.TEXT_is_VALUE]
    (by decide) (by decide) (by decide)
  refine ⟨r, s', entries, h1, h2, ?_⟩
  have hlen : entries.length = 2 := h3
  obtain ⟨i0, hi0, he0⟩ := h4 0 (by decide)
  obtain ⟨i1, hi1, he1⟩ := h4 1 (by decide)
  match entries, hlen, he0, he1 with
  | [a, b], _, he0, he1 =>
    simp only [List.getElem?_cons_zero, List.getElem?_cons_succ, Option.some.injEq] at he0 he1 hi0 hi1
    subst hi0 hi1 he0 he1
    rfl

/-- The removal loop, started at index `k` with enough iterations left, keeps the first
`k` items and drops every footprint from the rest. -/
theorem removeModulesLoop_eq :
    ∀ (fuel k : Nat) (coll : List BOARD_ITEM), coll.length - k ≤ fuel →
      removeModulesLoop fuel (k : Int) coll
        = coll.take k ++ (coll.drop k).filter
            (fun i => decide (i.m_StructType ≠ KICAD_T.PCB_MODULE_T)) := by
  intro fuel
  induction fuel with
  | zero =>
    intro k coll h
    have hk : coll.length ≤ k := by omega
    simp [removeModulesLoop, List.take_of_length_le hk, List.drop_eq_nil_of_le hk]
  | succ fuel ih =>
    intro k coll h
    by_cases hk : k < coll.length
    · have hlt : (k : Int) < (coll.length : Int) := by exact_mod_cast hk
      have hd : coll.drop k = coll[k] :: coll.drop (k + 1) := List.drop_eq_getElem_cons hk
      simp only [removeModulesLoop, hlt, if_true, Int.toNat_ofNat,
        List.getElem?_eq_getElem hk]
      by_cases ht : coll[k].m_StructType = KICAD_T.PCB_MODULE_T
      · have e1 : ((k : Int) - 1) + 1 = (k : Int) := by omega
        simp only [ht, ne_eq, not_true_eq_false, if_false, e1]
        rw [ih k (coll.eraseIdx k) (by rw [List.length_eraseIdx]; simp only [hk, if_true]; omega)]
        have htake : (coll.eraseIdx k).take k = coll.take k := by
          rw [List.eraseIdx_eq_take_drop_succ, List.take_append_of_le_length (by
            rw [List.length_take]; omega)]
          simp
        have hdrop : (coll.eraseIdx k).drop k = coll.drop (k + 1) := by
          rw [List.eraseIdx_eq_take_drop_succ]
          have hl : (coll.take k).length = k := by rw [List.length_take]; omega
          rw [List.drop_append_eq_append_drop, hl]
          simp [List.drop_eq_nil_of_le (le_of_eq hl)]
        rw [htake, hdrop, hd, List.filter_cons]
        simp only [ht, ne_eq, not_true_eq_false, decide_False, Bool.false_eq_true, if_false]
      · have e2 : ((k : Int) + 1) = ((k + 1 : Nat) : Int) := by push_cast; rfl
        simp only [ht, ne_eq, not_false_eq_true, if_true, e2]
        rw [ih (k + 1) coll (by omega), hd, List.take_succ, List.getElem?_eq_getElem hk,
          List.filter_cons]
        simp only [ht, ne_eq, not_false_eq_true, decide_True, if_true, Option.toList,
          List.append_assoc, List.singleton_append]
    · have hge : coll.length ≤ k := by omega
      have hnlt : ¬ ((k : Int) < (coll.length : Int)) := by
        intro hc
        exact hk (by exact_mod_cast hc)
      simp [removeModulesLoop, hnlt, List.take_of_length_le hge, List.drop_eq_nil_of_le hge]

/-- Removal of redundancies is the filter that drops the footprints, applied when more
than one item was collected. -/
theorem removeRedundancies_eq (coll : List BOARD_ITEM) :
    removeRedundancies coll
      = if 1 < coll.length then
          coll.filter (fun i => decide (i.m_StructType ≠ KICAD_T.PCB_MODULE_T))
        else coll := by
  unfold removeRedundancies
  by_cases h : coll.length > 1
  · have h0 := removeModulesLoop_eq coll.length 0 coll (by omega)
    simp only [Nat.cast_zero] at h0
    simp only [h, if_true, h0]
    have : 1 < coll.length := h
    simp [this]
  · have : ¬ 1 < coll.length := h
    simp [h, this]

/-- C11: the redundancy-removal loop, run on a collection of more than one item, leaves
exactly the non-footprint items of the collection, in their original order: no item of
type `PCB_MODULE_T` is left, every other item is kept, also when footprint entries are
adjacent. A collection of at most one item is left unchanged. -/
theorem removeRedundancies_drops_footprints (coll : List BOARD_ITEM) :
    (1 < coll.length →
      removeRedundancies coll
          = coll.filter (fun i => decide (i.m_StructType ≠ KICAD_T.PCB_MODULE_T))
        ∧ (∀ x ∈ removeRedundancies coll, x.m_StructType ≠ KICAD_T.PCB_MODULE_T)
        ∧ (∀ x ∈ coll, x.m_StructType ≠ KICAD_T.PCB_MODULE_T → x ∈ removeRedundancies coll)
        ∧ List.Sublist (removeRedundancies coll) coll)
    ∧ (coll.length ≤ 1 → removeRedundancies coll = coll) := by
  have hE := removeRedundancies_eq coll
  constructor
  · intro h
    simp only [h, if_true] at hE
    rw [hE]
    refine ⟨rfl, ?_, ?_, List.filter_sublist _⟩
    · intro x hx
      simpa using (List.mem_filter.mp hx).2
    · intro x hx ht
      exact List.mem_filter.mpr ⟨hx, by simpa using ht⟩
  · intro h
    have : ¬ 1 < coll.length := by omega
    simpa only [this, if_false] using hE

/-- C11 at a sample collection with two adjacent footprint entries between a pad and a
text: both footprints are removed, the pad and the text stay in order; a lone footprint
is left alone. -/
theorem removeRedundancies_drops_footprints_sample :
    removeRedundancies
        [sampleItem KICAD_T.PCB_PAD_T TEXT_TYPE.TEXT_is_DIVERS,
          sampleItem KICAD_T.PCB_MODULE_T TEXT_TYPE.TEXT_is_DIVERS,
          sampleItem KICAD_T.PCB_MODULE_T TEXT_TYPE.TEXT_is_DIVERS,
          sampleItem KICAD_T.PCB_MODULE_TEXT_T TEXT_TYPE.TEXT_is_VALUE]
      = [sampleItem KICAD_T.PCB_PAD_T TEXT_TYPE.TEXT_is_DIVERS,
          sampleItem KICAD_T.PCB_MODULE_TEXT_T TEXT_TYPE.TEXT_is_VALUE]
    ∧ removeRedundancies [sampleItem KICAD_T.PCB_MODULE_T TEXT_TYPE.TEXT_is_DIVERS]
      = [sampleItem KICAD_T.PCB_MODULE_T TEXT_TYPE.TEXT_is_DIVERS] :=
  ⟨by
    rw [((removeRedundancies_drops_footprints _).1 (by decide)).1]
    decide,
   (removeRedundancies_drops_footprints _).2 (by decide)⟩

/-- A collected list that is a single item or holds at least one non-footprint item is
not emptied by the redundancy removal; and when at most one item is left,
`ModeditLocateAndDisplay` (on a board that holds a footprint) returns that item, makes
it current, and it is an element of the collected list. -/
theorem single_item_of_found (env : Collaborators)
    (MAX_ITEMS_IN_PICKER : Nat) (ID_POPUP_PCB_ITEM_SELECTION_START : Int) (s : EditState)
    (aHotKeyCode : Int) (collected : List BOARD_ITEM)
    (hFp : s.board.m_Modules ≠ [])
    (hColl : collected = env.Collect s.board
      (if aHotKeyCode ≠ 0 then none else some ScanList.ModulesAndTheirItems))
    (hItem : collected.length = 1
      ∨ ∃ x ∈ collected, x.m_StructType ≠ KICAD_T.PCB_MODULE_T) :
    removeRedundancies collected ≠ []
    ∧ ((removeRedundancies collected).length ≤ 1 →
        ∃ item s',
          ModeditLocateAndDisplay env MAX_ITEMS_IN_PICKER ID_POPUP_PCB_ITEM_SELECTION_START s
            aHotKeyCode = some (some item, s')
          ∧ item ∈ collected ∧ item ∈ removeRedundancies collected
          ∧ s'.curItem = some item) := by
  have hne : removeRedundancies collected ≠ [] := by
    rw [removeRedundancies_eq]
    rcases hItem with h1 | ⟨x, hx, ht⟩
    · have : ¬ 1 < collected.length := by omega
      simp only [this, if_false]
      intro h0
      rw [h0] at h1
      simp at h1
    · by_cases hl : 1 < collected.length
      · simp only [hl, if_true]
        intro h0
        have : x ∈ collected.filter
            (fun i => decide (i.m_StructType ≠ KICAD_T.PCB_MODULE_T)) :=
          List.mem_filter.mpr ⟨hx, by simpa using ht⟩
        rw [h0] at this
        simp at this
      · simp only [hl, if_false]
        intro h0
        rw [h0] at hx
        simp at hx
  refine ⟨hne, ?_⟩
  intro hle
  have hsub : ∀ y ∈ removeRedundancies collected, y ∈ collected := by
    intro y hy
    rw [removeRedundancies_eq] at hy
    by_cases hl : 1 < collected.length
    · simp only [hl, if_true] at hy
      exact (List.mem_filter.mp hy).1
    · simpa only [hl, if_false] using hy
  cases hr : removeRedundancies collected with
  | nil => exact absurd hr hne
  | cons item rest =>
    have hmem : item ∈ collected := hsub item (by rw [hr]; simp)
    cases hb : s.board.m_Modules with
    | nil => exact absurd hb hFp
    | cons m ms =>
      have hsb : (s.call "m_Collector->Collect").board = s.board := rfl
      have hle' : (item :: rest).length ≤ 1 := by rw [← hr]; exact hle
      have key : ∃ s',
          ModeditLocateAndDisplay env MAX_ITEMS_IN_PICKER ID_POPUP_PCB_ITEM_SELECTION_START s
            aHotKeyCode = some (some item, s') ∧ s'.curItem = some item := by
        simp only [ModeditLocateAndDisplay, hb, hsb, ← hColl, hr, hle', if_true,
          List.getElem?_cons_zero, Option.isSome_some]
        exact ⟨_, rfl, by simp [EditState.SetCurItem, EditState.callOn, EditState.log]⟩
      obtain ⟨s', h1, h2⟩ := key
      exact ⟨item, s', h1, hmem, List.mem_cons_self _ _, h2⟩

/-- With at most one footprint entry, a collection of more than one item holds an item
that is not a footprint. -/
theorem exists_item_of_one_footprint (collected : List BOARD_ITEM)
    (hOne : (collected.filter
      (fun x => decide (x.m_StructType = KICAD_T.PCB_MODULE_T))).length ≤ 1)
    (hl : 1 < collected.length) :
    ∃ x ∈ collected, x.m_StructType ≠ KICAD_T.PCB_MODULE_T := by
  by_contra hc
  push_neg at hc
  have hall : collected.filter
      (fun x => decide (x.m_StructType = KICAD_T.PCB_MODULE_T)) = collected :=
    List.filter_eq_self.mpr (fun a ha => by simpa using hc a ha)
  rw [hall] at hOne
  omega

/-- C20: in `ModeditLocateAndDisplay` a footprint is removed from the collected list only
when an item was found. For every non-empty collected list with at most one footprint
entry (the collector lists a footprint of the board once, and the editor's board holds
one footprint: every command that adds one clears the board first), the list left after
redundancy removal is non-empty and is part of the collected list; the removal changes
the list only if the list holds an item that is not a footprint; and when at most one
item is left, the single-item branch returns it and makes it current, an element of the
collected list. -/
theorem removal_keeps_an_item (env : Collaborators)
    (MAX_ITEMS_IN_PICKER : Nat) (ID_POPUP_PCB_ITEM_SELECTION_START : Int) (s : EditState)
    (aHotKeyCode : Int) (collected : List BOARD_ITEM)
    (hFp : s.board.m_Modules ≠ [])
    (hColl : collected = env.Collect s.board
      (if aHotKeyCode ≠ 0 then none else some ScanList.ModulesAndTheirItems))
    (hNonempty : collected ≠ [])
    (hOne : (collected.filter
      (fun x => decide (x.m_StructType = KICAD_T.PCB_MODULE_T))).length ≤ 1) :
    removeRedundancies collected ≠ []
    ∧ (removeRedundancies collected ≠ collected →
        ∃ x ∈ collected, x.m_StructType ≠ KICAD_T.PCB_MODULE_T)
    ∧ (∀ x ∈ removeRedundancies collected, x ∈ collected)
    ∧ ((removeRedundancies collected).length ≤ 1 →
        ∃ item s',
          ModeditLocateAndDisplay env MAX_ITEMS_IN_PICKER ID_POPUP_PCB_ITEM_SELECTION_START s
            aHotKeyCode = some (some item, s')
          ∧ item ∈ collected ∧ item ∈ removeRedundancies collected
          ∧ s'.curItem = some item) := by
  have hItem : collected.length = 1
      ∨ ∃ x ∈ collected, x.m_StructType ≠ KICAD_T.PCB_MODULE_T := by
    by_cases hl : 1 < collected.length
    · exact Or.inr (exists_item_of_one_footprint collected hOne hl)
    · left
      have : collected.length ≠ 0 := fun h => hNonempty (List.length_eq_zero.mp h)
      omega
  obtain ⟨hne, hsingle⟩ := single_item_of_found env MAX_ITEMS_IN_PICKER
    ID_POPUP_PCB_ITEM_SELECTION_START s aHotKeyCode collected hFp hColl hItem
  refine ⟨hne, ?_, ?_, ?_⟩
  · intro hchange
    by_cases hl : 1 < collected.length
    · exact exists_item_of_one_footprint collected hOne hl
    · exfalso
      apply hchange
      rw [removeRedundancies_eq]
      simp only [hl, if_false]
  · intro y hy
    rw [removeRedundancies_eq] at hy
    by_cases hl : 1 < collected.length
    · simp only [hl, if_true] at hy
      exact (List.mem_filter.mp hy).1
    · simpa only [hl, if_false] using hy
  · exact hsingle

/-- C20 at a sample state: the collector returns a pad and the footprint; the footprint
is removed and the pad, an element of the collected list, is made current. -/
theorem removal_keeps_an_item_sample :
    removeRedundancies [sampleItem KICAD_T.PCB_PAD_T TEXT_TYPE.TEXT_is_DIVERS,
        sampleItem KICAD_T.PCB_MODULE_T TEXT_TYPE.TEXT_is_DIVERS]
      = [sampleItem KICAD_T.PCB_PAD_T TEXT_TYPE.TEXT_is_DIVERS]
    ∧ ∃ item s',
      ModeditLocateAndDisplay
        (collectingEnv [sampleItem KICAD_T.PCB_PAD_T TEXT_TYPE.TEXT_is_DIVERS,
          sampleItem KICAD_T.PCB_MODULE_T TEXT_TYPE.TEXT_is_DIVERS])
        15 100 (sampleState [sampleModule 8 1] none) 0 = some (some item, s')
      ∧ item ∈ [sampleItem KICAD_T.PCB_PAD_T TEXT_TYPE.TEXT_is_DIVERS,
          sampleItem KICAD_T.PCB_MODULE_T TEXT_TYPE.TEXT_is_DIVERS]
      ∧ s'.curItem = some item := by
  obtain ⟨_, _, _, h⟩ := removal_keeps_an_item
    (collectingEnv [sampleItem KICAD_T.PCB_PAD_T TEXT_TYPE.TEXT_is_DIVERS,
      sampleItem KICAD_T.PCB_MODULE_T TEXT_TYPE.TEXT_is_DIVERS])
    15 100 (sampleState [sampleModule 8 1] none) 0
    [sampleItem KICAD_T.PCB_PAD_T TEXT_TYPE.TEXT_is_DIVERS,
      sampleItem KICAD_T.PCB_MODULE_T TEXT_TYPE.TEXT_is_DIVERS]
    (by decide) rfl (by decide) (by decide)
  obtain ⟨item, s', h1, h2, _, h3⟩ := h (by decide)
  exact ⟨by decide, item, s', h1, h2, h3⟩

/-- C19: starting from any tool other than `ID_ZOOM_SELECTION`, one `OnVerticalToolbar`
event with `ID_ZOOM_SELECTION` selects the zoom tool, and a second consecutive one
returns to no tool selected. -/
theorem zoom_selection_toggles (s : EditState) (h : s.toolId ≠ CmdId.ID_ZOOM_SELECTION) :
    (OnVerticalToolbar s CmdId.ID_ZOOM_SELECTION).toolId = CmdId.ID_ZOOM_SELECTION
    ∧ (OnVerticalToolbar (OnVerticalToolbar s CmdId.ID_ZOOM_SELECTION)
        CmdId.ID_ZOOM_SELECTION).toolId = CmdId.ID_NO_TOOL_SELECTED := by
  have h1 : (OnVerticalToolbar s CmdId.ID_ZOOM_SELECTION).toolId
      = CmdId.ID_ZOOM_SELECTION := by
    simp [OnVerticalToolbar, EditState.SetNoToolSelected, EditState.SetToolID, h]
  refine ⟨h1, ?_⟩
  generalize OnVerticalToolbar s CmdId.ID_ZOOM_SELECTION = t at h1
  simp [OnVerticalToolbar, EditState.SetNoToolSelected, EditState.SetToolID, h1]

/-- C19 at a sample state with the line tool selected. -/
theorem zoom_selection_toggles_sample :
    (sampleState [] none).toolId ≠ CmdId.ID_ZOOM_SELECTION
    ∧ (OnVerticalToolbar (OnVerticalToolbar (sampleState [] none) CmdId.ID_ZOOM_SELECTION)
        CmdId.ID_ZOOM_SELECTION).toolId = CmdId.ID_NO_TOOL_SELECTED :=
  ⟨by decide, (zoom_selection_toggles (sampleState [] none) (by decide)).2⟩

/-- C12: `moveExact` with the dialog accepted and a current item `item` records the undo
copy (`SaveCopyInUndoList`) first, then moves the item, so that its position is
`position + translation` when the origin is `RELATIVE_TO_CURRENT_POSITION` and is the
translation vector for every other origin (exact integer arithmetic), then rotates the
moved item by the dialog's rotation about the moved item's own position. With the
dialog not accepted no undo copy is recorded and the current item is left as it is. -/
theorem moveExact_moves_then_rotates (env : Collaborators) (s : EditState) :
    (∀ item, s.curItem = some item →
      (env.moveExactDialog { env.defaultMoveParameters with
          allowOverride := false, editingFootprint := true }).1 = true →
      ∃ s' moved,
        moveExact env s = some s'
        ∧ newCalls s s' = [Call.collab "DIALOG_MOVE_EXACT::ShowModal" none,
            Call.SaveCopyInUndoList s.board.m_Modules.head? UNDO_REDO_T.UR_CHANGED,
            Call.collab "Refresh" none, Call.collab "MoveCursorToCrossHair" none]
        ∧ moved.m_Pos
            = (if (env.moveExactDialog { env.defaultMoveParameters with
                    allowOverride := false, editingFootprint := true }).2.origin
                  = MOVE_EXACT_ORIGIN.RELATIVE_TO_CURRENT_POSITION
               then item.m_Pos.add (env.moveExactDialog { env.defaultMoveParameters with
                    allowOverride := false, editingFootprint := true }).2.translation
               else (env.moveExactDialog { env.defaultMoveParameters with
                    allowOverride := false, editingFootprint := true }).2.translation)
        ∧ (∃ v, moved = item.Move v)
        ∧ s'.curItem = some (env.Rotate moved moved.m_Pos
            (env.moveExactDialog { env.defaultMoveParameters with
              allowOverride := false, editingFootprint := true }).2.rotation))
    ∧ ((env.moveExactDialog { env.defaultMoveParameters with
          allowOverride := false, editingFootprint := true }).1 = false →
      ∃ s', moveExact env s = some s'
        ∧ newCalls s s' = [Call.collab "DIALOG_MOVE_EXACT::ShowModal" none,
            Call.collab "MoveCursorToCrossHair" none]
        ∧ s'.curItem = s.curItem
        ∧ s'.board = s.board) := by
  constructor
  · intro item hItem hOk
    have key : ∃ s', moveExact env s = some s'
        ∧ newCalls s s' = [Call.collab "DIALOG_MOVE_EXACT::ShowModal" none,
            Call.SaveCopyInUndoList s.board.m_Modules.head? UNDO_REDO_T.UR_CHANGED,
            Call.collab "Refresh" none, Call.collab "MoveCursorToCrossHair" none]
        ∧ s'.curItem = some (env.Rotate
            (item.Move ((env.moveExactDialog { env.defaultMoveParameters with
                allowOverride := false, editingFootprint := true }).2.translation.sub
              (if (env.moveExactDialog { env.defaultMoveParameters with
                    allowOverride := false, editingFootprint := true }).2.origin
                  = MOVE_EXACT_ORIGIN.RELATIVE_TO_CURRENT_POSITION
               then (⟨0, 0⟩ : wxPoint) else item.m_Pos)))
            (item.Move ((env.moveExactDialog { env.defaultMoveParameters with
                allowOverride := false, editingFootprint := true }).2.translation.sub
              (if (env.moveExactDialog { env.defaultMoveParameters with
                    allowOverride := false, editingFootprint := true }).2.origin
                  = MOVE_EXACT_ORIGIN.RELATIVE_TO_CURRENT_POSITION
               then (⟨0, 0⟩ : wxPoint) else item.m_Pos))).m_Pos
            (env.moveExactDialog { env.defaultMoveParameters with
              allowOverride := false, editingFootprint := true }).2.rotation) := by
      simp only [moveExact, hOk, if_true, EditState.call, EditState.log, hItem]
      refine ⟨_, rfl, ?_, rfl⟩
      simp [newCalls]
    obtain ⟨s', h1, h2, h3⟩ := key
    refine ⟨s', _, h1, h2, ?_, ⟨_, rfl⟩, h3⟩
    by_cases ho : (env.moveExactDialog { env.defaultMoveParameters with
        allowOverride := false, editingFootprint := true }).2.origin
          = MOVE_EXACT_ORIGIN.RELATIVE_TO_CURRENT_POSITION
    · simp only [ho, if_true, BOARD_ITEM.Move, wxPoint.add, wxPoint.sub]
      simp
    · simp only [ho, if_false, BOARD_ITEM.Move, wxPoint.add, wxPoint.sub]
      simp
  · intro hNo
    simp only [moveExact, hNo, EditState.call, EditState.log]
    refine ⟨_, rfl, ?_, rfl, rfl⟩
    simp [newCalls]

/-- C12 at a sample state: a pad at (1, 2), moved with the translation (3, 4) relative
to another origin than its position, ends at (3, 4). -/
theorem moveExact_moves_then_rotates_sample :
    ∃ s' moved,
      moveExact movingEnv { sampleState [sampleModule 8 1] none with
          curItem := some (sampleItem KICAD_T.PCB_PAD_T TEXT_TYPE.TEXT_is_DIVERS) }
        = some s'
      ∧ moved.m_Pos = ⟨3, 4⟩ ∧ s'.curItem = some moved := by
  obtain ⟨s', moved, h1, _, h3, _, h5⟩ :=
    (moveExact_moves_then_rotates movingEnv
      { sampleState [sampleModule 8 1] none with
        curItem := some (sampleItem KICAD_T.PCB_PAD_T TEXT_TYPE.TEXT_is_DIVERS) }).1
      (sampleItem KICAD_T.PCB_PAD_T TEXT_TYPE.TEXT_is_DIVERS) rfl rfl
  exact ⟨s', moved, h1, h3, h5⟩

/-- Appending a list of labels, one after the other, adds them at the end in order. -/
theorem foldl_Append (names : List String) :
    ∀ lb : wxListBox, names.foldl wxListBox.Append lb
      = { lb with items := lb.items ++ names } := by
  induction names with
  | nil => intro lb; simp
  | cons n rest ih =>
    intro lb
    simp only [List.foldl_cons, ih, wxListBox.Append]
    simp

/-- `sameNoCase` holds between a string and itself. -/
theorem sameNoCase_refl (lower : Char → Char) (a : String) : sameNoCase lower a a = true := by
  simp [sameNoCase]

/-- The search finds nothing exactly when no label is the string up to letter case. -/
theorem findStringFrom_eq_notFound (lower : Char → Char) (s : String) :
    ∀ (l : List String) (i : Nat),
      findStringFrom lower s l i = wxNOT_FOUND ↔ ∀ x ∈ l, sameNoCase lower x s = false := by
  intro l
  induction l with
  | nil => intro i; simp [findStringFrom]
  | cons x rest ih =>
    intro i
    by_cases hx : sameNoCase lower x s = true
    · simp only [findStringFrom, hx, if_true, List.mem_cons, forall_eq_or_imp]
      constructor
      · intro h
        simp only [wxNOT_FOUND] at h
        omega
      · intro h
        simp at h
    · simp only [findStringFrom, hx, Bool.false_eq_true, if_false, List.mem_cons,
        forall_eq_or_imp, ih]
      simp [hx]

/-- What the search finds is the first label, from the start index on, that is the
string up to letter case. -/
theorem findStringFrom_found (lower : Char → Char) (s : String) :
    ∀ (l : List String) (i : Nat), findStringFrom lower s l i ≠ wxNOT_FOUND →
      ∃ j label, findStringFrom lower s l i = ((i + j : Nat) : Int) ∧ l[j]? = some label
        ∧ sameNoCase lower label s = true
        ∧ ∀ j' x, j' < j → l[j']? = some x → sameNoCase lower x s = false := by
  intro l
  induction l with
  | nil => intro i h; simp [findStringFrom] at h
  | cons x rest ih =>
    intro i h
    by_cases hx : sameNoCase lower x s = true
    · refine ⟨0, x, ?_, List.getElem?_cons_zero, hx, ?_⟩
      · simp [findStringFrom, hx]
      · intro j' y hj'
        omega
    · simp only [findStringFrom, hx, Bool.false_eq_true, if_false] at h ⊢
      obtain ⟨j, label, h1, h2, h3, h4⟩ := ih (i + 1) h
      refine ⟨j + 1, label, ?_, by simpa using h2, h3, ?_⟩
      · rw [h1]
        congr 1
        omega
      · intro j' y hj' hy
        cases j' with
        | zero =>
          simp only [List.getElem?_cons_zero, Option.some.injEq] at hy
          subst hy
          simpa using hx
        | succ j'' =>
          exact h4 j'' y (by omega) (by simpa using hy)

/-- `ReCreateFootprintList` leaves the library list box and the current nickname alone. -/
theorem ReCreateFootprintList_frame (env : ViewerCollaborators) (v : ViewerState) :
    (ReCreateFootprintList env v).libList = v.libList
    ∧ (ReCreateFootprintList env v).curNickname = v.curNickname := by
  unfold ReCreateFootprintList
  simp only []
  split_ifs <;> simp [ViewerState.setCurFootprintName, ViewerState.call, ViewerState.log]

/-- With an empty current nickname `ReCreateFootprintList` empties the footprint name. -/
theorem ReCreateFootprintList_no_nickname (env : ViewerCollaborators) (v : ViewerState)
    (h : v.curNickname = "") : (ReCreateFootprintList env v).curFootprintName = "" := by
  simp [ReCreateFootprintList, h, ViewerState.setCurFootprintName]

/-- The library list box, current nickname and footprint name after
`ReCreateLibraryList`, by what `FindString` returns on the rebuilt list. -/
theorem ReCreateLibraryList_eq (env : ViewerCollaborators) (v : ViewerState) :
    (ReCreateLibraryList env v).libList.items = env.GetLogicalLibs
    ∧ (findStringFrom env.wxTolower v.curNickname env.GetLogicalLibs 0 ≠ wxNOT_FOUND →
        (ReCreateLibraryList env v).curNickname = v.curNickname
        ∧ (ReCreateLibraryList env v).libList.selection
            = findStringFrom env.wxTolower v.curNickname env.GetLogicalLibs 0)
    ∧ (findStringFrom env.wxTolower v.curNickname env.GetLogicalLibs 0 = wxNOT_FOUND →
        (ReCreateLibraryList env v).curNickname = ""
        ∧ (ReCreateLibraryList env v).curFootprintName = ""
        ∧ (ReCreateLibraryList env v).libList.selection = wxNOT_FOUND) := by
  have hitems : (List.foldl wxListBox.Append v.libList.Clear env.GetLogicalLibs)
      = { items := env.GetLogicalLibs, selection := wxNOT_FOUND } := by
    rw [foldl_Append]
    simp [wxListBox.Clear]
  refine ⟨?_, ?_, ?_⟩
  · unfold ReCreateLibraryList
    simp only [ViewerState.call, ViewerState.log, hitems]
    rw [(ReCreateFootprintList_frame env _).1]
    split_ifs <;> simp [wxListBox.SetSelection, ViewerState.setCurNickname,
      ViewerState.setCurFootprintName]
  · intro hf
    unfold ReCreateLibraryList
    simp only [ViewerState.call, ViewerState.log, hitems, wxListBox.FindString]
    rw [(ReCreateFootprintList_frame env _).1, (ReCreateFootprintList_frame env _).2]
    simp [hf, wxListBox.SetSelection]
  · intro hf
    unfold ReCreateLibraryList
    simp only [ViewerState.call, ViewerState.log, hitems, wxListBox.FindString]
    rw [(ReCreateFootprintList_frame env _).1, (ReCreateFootprintList_frame env _).2]
    simp only [hf, ne_eq, not_true_eq_false, if_false]
    refine ⟨by simp [ViewerState.setCurNickname, ViewerState.setCurFootprintName], ?_,
      by simp [ViewerState.setCurNickname, ViewerState.setCurFootprintName]⟩
    exact ReCreateFootprintList_no_nickname env _
      (by simp [ViewerState.setCurNickname, ViewerState.setCurFootprintName])

/-- C13, at the failing input: the library table returns the single nickname "Lib" and the
current nickname is "lib" (the library "lib" is gone after a configuration change).
`ReCreateLibraryList` shows the list "Lib", `FindString`, which compares without regard
to letter case, finds entry 0, and the nickname "lib" is kept: on return it is neither
empty nor an entry of the library list. -/
theorem ReCreateLibraryList_nickname_not_an_entry :
    (ReCreateLibraryList (sampleViewerEnv ["Lib"] [])
        (sampleViewer "lib" "" [] [] wxNOT_FOUND false)).libList.items = ["Lib"]
    ∧ (ReCreateLibraryList (sampleViewerEnv ["Lib"] [])
        (sampleViewer "lib" "" [] [] wxNOT_FOUND false)).libList.selection = 0
    ∧ (ReCreateLibraryList (sampleViewerEnv ["Lib"] [])
        (sampleViewer "lib" "" [] [] wxNOT_FOUND false)).curNickname = "lib"
    ∧ ¬ ((ReCreateLibraryList (sampleViewerEnv ["Lib"] [])
          (sampleViewer "lib" "" [] [] wxNOT_FOUND false)).curNickname = ""
        ∨ (ReCreateLibraryList (sampleViewerEnv ["Lib"] [])
          (sampleViewer "lib" "" [] [] wxNOT_FOUND false)).curNickname
            ∈ (ReCreateLibraryList (sampleViewerEnv ["Lib"] [])
              (sampleViewer "lib" "" [] [] wxNOT_FOUND false)).libList.items) := by
  decide

/-- What `ReCreateLibraryList` does on every input. The library list box holds exactly the
project's logical library nicknames, in the order the library table returns them. If
`FindString` finds the current nickname in that list (the first entry that agrees with it
once every character is folded by `wxTolower`), the nickname is kept and that entry is
selected; if it does not, the current nickname and the current footprint name are both
empty and nothing is selected. On return the current nickname is empty or agrees with an
entry of the list once folded; it is an entry of the list whenever it was one of the
nicknames the table returns. -/
theorem ReCreateLibraryList_spec (env : ViewerCollaborators) (v : ViewerState) :
    (ReCreateLibraryList env v).libList.items = env.GetLogicalLibs
    ∧ ((∃ e ∈ env.GetLogicalLibs, sameNoCase env.wxTolower e v.curNickname = true) →
        (ReCreateLibraryList env v).curNickname = v.curNickname
        ∧ ∃ (j : Nat) (label : String), (ReCreateLibraryList env v).libList.selection = (j : Int)
            ∧ env.GetLogicalLibs[j]? = some label
              ∧ sameNoCase env.wxTolower label v.curNickname = true
            ∧ ∀ j' x, j' < j → env.GetLogicalLibs[j']? = some x →
                sameNoCase env.wxTolower x v.curNickname = false)
    ∧ ((∀ e ∈ env.GetLogicalLibs, sameNoCase env.wxTolower e v.curNickname = false) →
        (ReCreateLibraryList env v).curNickname = ""
        ∧ (ReCreateLibraryList env v).curFootprintName = ""
        ∧ (ReCreateLibraryList env v).libList.selection = wxNOT_FOUND)
    ∧ ((ReCreateLibraryList env v).curNickname = ""
        ∨ ∃ e ∈ (ReCreateLibraryList env v).libList.items,
            sameNoCase env.wxTolower e (ReCreateLibraryList env v).curNickname = true)
    ∧ (v.curNickname ∈ env.GetLogicalLibs →
        (ReCreateLibraryList env v).curNickname
          ∈ (ReCreateLibraryList env v).libList.items) := by
  obtain ⟨hItems, hFound, hNot⟩ := ReCreateLibraryList_eq env v
  have hiff := findStringFrom_eq_notFound env.wxTolower v.curNickname env.GetLogicalLibs 0
  have hFoundCase : (∃ e ∈ env.GetLogicalLibs, sameNoCase env.wxTolower e v.curNickname = true) →
      findStringFrom env.wxTolower v.curNickname env.GetLogicalLibs 0 ≠ wxNOT_FOUND := by
    rintro ⟨e, he, hs⟩ h
    have := hiff.mp h e he
    rw [hs] at this
    exact Bool.noConfusion this
  refine ⟨hItems, ?_, ?_, ?_, ?_⟩
  · intro hex
    have hne := hFoundCase hex
    obtain ⟨j, label, h1, h2, h3, h4⟩ :=
      findStringFrom_found env.wxTolower v.curNickname env.GetLogicalLibs 0 hne
    refine ⟨(hFound hne).1, j, label, ?_, h2, h3, h4⟩
    rw [(hFound hne).2, h1]
    simp
  · intro hall
    exact hNot (hiff.mpr hall)
  · by_cases hne : findStringFrom env.wxTolower v.curNickname env.GetLogicalLibs 0 = wxNOT_FOUND
    · exact Or.inl (hNot hne).1
    · right
      obtain ⟨j, label, _, h2, h3, _⟩ :=
        findStringFrom_found env.wxTolower v.curNickname env.GetLogicalLibs 0 hne
      refine ⟨label, ?_, ?_⟩
      · rw [hItems]
        exact List.getElem?_mem h2
      · rw [(hFound hne).1]
        exact h3
  · intro hmem
    have hne := hFoundCase ⟨v.curNickname, hmem, sameNoCase_refl _ _⟩
    rw [(hFound hne).1, hItems]
    exact hmem

/-- `updateView` only adds calls to the trace: the list boxes, the current names and the
board are those before. -/
theorem updateView_fields (env : ViewerCollaborators) (v : ViewerState) :
    (updateView env v).footprintList = v.footprintList
    ∧ (updateView env v).libList = v.libList
    ∧ (updateView env v).curFootprintName = v.curFootprintName
    ∧ (updateView env v).curNickname = v.curNickname
    ∧ (updateView env v).board = v.board := by
  by_cases hg : env.IsGalCanvasActive = true <;>
    simp [updateView, UpdateMsgPanel, hg, ViewerState.call, ViewerState.log]

/-- The selected entry, the current names and the board after the block that views the
entry at index `selection`. -/
theorem viewSelected_fields (env : ViewerCollaborators) (v : ViewerState) (selection : Int) :
    (viewSelected env v selection).footprintList = v.footprintList.SetSelection selection
    ∧ (viewSelected env v selection).curFootprintName = v.footprintList.GetString selection
    ∧ (viewSelected env v selection).curNickname = v.curNickname
    ∧ (viewSelected env v selection).libList = v.libList
    ∧ (viewSelected env v selection).board
        = (match env.FootprintLoad v.curNickname (v.footprintList.GetString selection) with
           | some footprint =>
             env.Add { v.board with m_Modules := [] } (some footprint)
           | none => { v.board with m_Modules := [] }) := by
  obtain ⟨u1, u2, u3, u4, u5⟩ : (∀ w, (updateView env w).footprintList = w.footprintList)
      ∧ (∀ w, (updateView env w).libList = w.libList)
      ∧ (∀ w, (updateView env w).curFootprintName = w.curFootprintName)
      ∧ (∀ w, (updateView env w).curNickname = w.curNickname)
      ∧ (∀ w, (updateView env w).board = w.board) :=
    ⟨fun w => (updateView_fields env w).1, fun w => (updateView_fields env w).2.1,
     fun w => (updateView_fields env w).2.2.1, fun w => (updateView_fields env w).2.2.2.1,
     fun w => (updateView_fields env w).2.2.2.2⟩
  unfold viewSelected
  by_cases hg : env.IsGalCanvasActive = true
  · simp only [hg, if_true, u1, u2, u3, u4, u5]
    refine ⟨?_, ?_, ?_, ?_, ?_⟩ <;>
      simp only [Update3D_Frame, ViewerState.call, ViewerState.log,
        ViewerState.setCurFootprintName, wxListBox.SetSelection, wxListBox.GetString] <;>
      split <;> simp_all [wxListBox.SetSelection, wxListBox.GetString]
  · simp only [hg, Bool.false_eq_true, if_false]
    refine ⟨?_, ?_, ?_, ?_, ?_⟩ <;>
      simp only [Update3D_Frame, ViewerState.call, ViewerState.log,
        ViewerState.setCurFootprintName, wxListBox.SetSelection, wxListBox.GetString] <;>
      split <;> simp_all [wxListBox.SetSelection, wxListBox.GetString]

/-- `FindString` returns the index of an entry that is the string up to letter case when
no earlier entry is. -/
theorem FindString_eq_index (lower : Char → Char) (lb : wxListBox) (s : String) (i : Nat)
    (label : String)
    (hi : lb.items[i]? = some label) (hs : sameNoCase lower label s = true)
    (hfirst : ∀ j x, j < i → lb.items[j]? = some x → sameNoCase lower x s = false) :
    lb.FindString lower s = (i : Int) := by
  unfold wxListBox.FindString
  have hne : findStringFrom lower s lb.items 0 ≠ wxNOT_FOUND := by
    intro h
    have := (findStringFrom_eq_notFound lower s lb.items 0).mp h label (List.getElem?_mem hi)
    rw [hs] at this
    exact Bool.noConfusion this
  obtain ⟨j, lj, h1, h2, h3, h4⟩ := findStringFrom_found lower s lb.items 0 hne
  rw [h1]
  have hji : j = i := by
    rcases Nat.lt_trichotomy j i with hlt | heq | hgt
    · have := hfirst j lj hlt h2
      rw [h3] at this
      exact Bool.noConfusion this
    · exact heq
    · have := h4 i label hgt hi
      rw [hs] at this
      exact Bool.noConfusion this
  subst hji
  simp

/-- In a list of labels pairwise distinct up to letter case, no entry before index `i`
is the entry at `i` up to letter case. -/
theorem no_earlier_match (lower : Char → Char) (l : List String) (i : Nat) (label : String)
    (hi : l[i]? = some label) (hd : l.Pairwise (fun a b => sameNoCase lower a b = false)) :
    ∀ j x, j < i → l[j]? = some x → sameNoCase lower x label = false := by
  intro j x hj hx
  have hil : i < l.length := (List.getElem?_eq_some_iff.mp hi).1
  have hjl : j < l.length := by omega
  have := (List.pairwise_iff_getElem.mp hd) j i hjl hil hj
  have e1 : l[j] = x := by
    have := List.getElem?_eq_getElem hjl
    rw [hx] at this
    exact (Option.some.inj this).symm
  have e2 : l[i] = label := by
    have := List.getElem?_eq_getElem hil
    rw [hi] at this
    exact (Option.some.inj this).symm
  rw [e1, e2] at this
  exact this

/-- The list box, the current footprint name and the nickname after
`SelectAndViewFootprint` with a non-empty nickname, from the index it steps to. -/
theorem SelectAndViewFootprint_fields (env : ViewerCollaborators) (v : ViewerState)
    (aMode : Int) (hNick : v.curNickname ≠ "") :
    (steppedSelection aMode (v.footprintList.FindString env.wxTolower v.curFootprintName)
        v.footprintList.GetCount ≠ wxNOT_FOUND →
      (SelectAndViewFootprint env v aMode).footprintList
          = v.footprintList.SetSelection (steppedSelection aMode
              (v.footprintList.FindString env.wxTolower v.curFootprintName)
                v.footprintList.GetCount)
      ∧ (SelectAndViewFootprint env v aMode).curFootprintName
          = v.footprintList.GetString (steppedSelection aMode
              (v.footprintList.FindString env.wxTolower v.curFootprintName)
                v.footprintList.GetCount))
    ∧ (steppedSelection aMode (v.footprintList.FindString env.wxTolower v.curFootprintName)
        v.footprintList.GetCount = wxNOT_FOUND →
      (SelectAndViewFootprint env v aMode).footprintList = v.footprintList
      ∧ (SelectAndViewFootprint env v aMode).curFootprintName = v.curFootprintName
      ∧ (SelectAndViewFootprint env v aMode).board = v.board) := by
  obtain ⟨h1, h2, _, _, _⟩ := viewSelected_fields env v (steppedSelection aMode
    (v.footprintList.FindString env.wxTolower v.curFootprintName) v.footprintList.GetCount)
  constructor
  · intro hs
    simp only [SelectAndViewFootprint, hNick, if_false, hs, ne_eq, not_false_eq_true,
      if_true, UpdateTitle, ViewerState.call, ViewerState.log]
    exact ⟨h1, h2⟩
  · intro hs
    simp [SelectAndViewFootprint, hNick, hs, UpdateTitle, ViewerState.call,
      ViewerState.log]

/-- The arithmetic of the step: from a found index `i` in a list of `n` entries. -/
theorem steppedSelection_found (i n : Nat) (h : i < n) :
    steppedSelection NEXT_PART (i : Int) n = min ((i : Int) + 1) ((n : Int) - 1)
    ∧ steppedSelection PREVIOUS_PART (i : Int) n = max ((i : Int) - 1) 0
    ∧ steppedSelection NEW_PART (i : Int) n = (i : Int) := by
  have hne : ¬ ((i : Int) = -1) := by omega
  refine ⟨?_, ?_, ?_⟩
  · by_cases hlt : (i : Int) < (n : Int) - 1
    · rw [min_eq_left (by omega)]
      simp [steppedSelection, NEXT_PART, PREVIOUS_PART, wxNOT_FOUND, hne, hlt]
    · rw [min_eq_right (by omega)]
      simp only [steppedSelection, NEXT_PART, PREVIOUS_PART, wxNOT_FOUND, hne, hlt]
      norm_num
      omega
  · by_cases hgt : (i : Int) > 0
    · rw [max_eq_left (by omega)]
      simp [steppedSelection, NEXT_PART, PREVIOUS_PART, wxNOT_FOUND, hne, hgt]
    · rw [max_eq_right (by omega)]
      simp only [steppedSelection, NEXT_PART, PREVIOUS_PART, wxNOT_FOUND, hne, hgt]
      norm_num
      omega
  · simp [steppedSelection, NEXT_PART, PREVIOUS_PART, NEW_PART]

/-- The step leaves "not found" alone. -/
theorem steppedSelection_notFound (aMode : Int) (n : Nat) :
    steppedSelection aMode wxNOT_FOUND n = wxNOT_FOUND := by
  simp only [steppedSelection, wxNOT_FOUND]
  split_ifs <;> first | rfl | omega

/-- `GetString` at a valid index is the entry at that index. -/
theorem GetString_of_lt (lb : wxListBox) (sel : Int) (h0 : 0 ≤ sel)
    (h1 : sel < (lb.items.length : Int)) :
    lb.items[sel.toNat]? = some (lb.GetString sel) := by
  have hk : sel.toNat < lb.items.length := by omega
  simp [wxListBox.GetString, h0, List.getElem?_eq_getElem hk]

/-- C14, as stated, fails: with the footprint list "r1", "R1", "c1" (pairwise distinct
names) and the current footprint name "R1" at index 1, `NEXT_PART` selects index 1 and
not min(1+1, 3-1) = 2, since `FindString`, which compares without regard to letter case,
finds "r1" at index 0; and with the current name "r1", which is not in the list "R1",
"c1", `NEW_PART` changes the current name. -/
theorem SelectAndViewFootprint_case_variants :
    (sampleViewer "lib" "R1" [] ["r1", "R1", "c1"] 1 false).curNickname ≠ ""
    ∧ (sampleViewer "lib" "R1" [] ["r1", "R1", "c1"] 1 false).footprintList.items.Nodup
    ∧ (sampleViewer "lib" "R1" [] ["r1", "R1", "c1"] 1 false).footprintList.items[1]?
        = some (sampleViewer "lib" "R1" [] ["r1", "R1", "c1"] 1 false).curFootprintName
    ∧ (SelectAndViewFootprint (sampleViewerEnv [] [])
        (sampleViewer "lib" "R1" [] ["r1", "R1", "c1"] 1 false)
        NEXT_PART).footprintList.selection = 1
    ∧ (SelectAndViewFootprint (sampleViewerEnv [] [])
        (sampleViewer "lib" "R1" [] ["r1", "R1", "c1"] 1 false)
        NEXT_PART).footprintList.selection ≠ min (1 + 1) (3 - 1)
    ∧ "r1" ∉ (sampleViewer "lib" "r1" [] ["R1", "c1"] wxNOT_FOUND false).footprintList.items
    ∧ (SelectAndViewFootprint (sampleViewerEnv [] [])
        (sampleViewer "lib" "r1" [] ["R1", "c1"] wxNOT_FOUND false)
        NEW_PART).curFootprintName = "R1" := by
  decide

/-- C14, amended: `SelectAndViewFootprint` steps through the footprint list without
wrapping. With a non-empty current nickname, a footprint list of n names that are
pairwise distinct under the toolkit's case-insensitive comparison (no two agree once
every character is folded by `wxTolower`, whatever `wxTolower` folds) and the current
footprint name at index i, `NEXT_PART` selects index min(i+1, n-1), `PREVIOUS_PART` index
max(i-1, 0) and `NEW_PART` index i, and the current footprint name becomes the list entry
at the selected index. When `FindString` does not find the current name (no entry agrees
with it under that comparison) the list box, the current name and the board are
unchanged. When the current nickname is empty nothing is changed at all.
`OnIterateFootprintList` maps `ID_MODVIEW_NEXT` to `NEXT_PART` and `ID_MODVIEW_PREVIOUS`
to `PREVIOUS_PART`. -/
theorem SelectAndViewFootprint_steps (env : ViewerCollaborators) (v : ViewerState) :
    (v.curNickname ≠ "" →
      ∀ i : Nat, v.footprintList.items[i]? = some v.curFootprintName →
        v.footprintList.items.Pairwise (fun a b => sameNoCase env.wxTolower a b = false) →
        ∀ (aMode sel : Int),
          (aMode = NEXT_PART ∧
              sel = min ((i : Int) + 1) ((v.footprintList.items.length : Int) - 1)
            ∨ aMode = PREVIOUS_PART ∧ sel = max ((i : Int) - 1) 0
            ∨ aMode = NEW_PART ∧ sel = (i : Int)) →
          (SelectAndViewFootprint env v aMode).footprintList.selection = sel
          ∧ (SelectAndViewFootprint env v aMode).footprintList.items
              = v.footprintList.items
          ∧ v.footprintList.items[sel.toNat]?
              = some (SelectAndViewFootprint env v aMode).curFootprintName)
    ∧ (v.curNickname ≠ "" →
        (∀ e ∈ v.footprintList.items, sameNoCase env.wxTolower e v.curFootprintName = false) →
        ∀ aMode : Int,
          (SelectAndViewFootprint env v aMode).footprintList = v.footprintList
          ∧ (SelectAndViewFootprint env v aMode).curFootprintName = v.curFootprintName
          ∧ (SelectAndViewFootprint env v aMode).board = v.board)
    ∧ (v.curNickname = "" → ∀ aMode : Int, SelectAndViewFootprint env v aMode = v)
    ∧ OnIterateFootprintList env v ViewerCmdId.ID_MODVIEW_NEXT
        = SelectAndViewFootprint env v NEXT_PART
    ∧ OnIterateFootprintList env v ViewerCmdId.ID_MODVIEW_PREVIOUS
        = SelectAndViewFootprint env v PREVIOUS_PART := by
  refine ⟨?_, ?_, ?_, rfl, rfl⟩
  · intro hNick i hAt hDist aMode sel hMode
    have hil : i < v.footprintList.items.length := (List.getElem?_eq_some_iff.mp hAt).1
    have hFind : v.footprintList.FindString env.wxTolower v.curFootprintName = (i : Int) :=
      FindString_eq_index env.wxTolower v.footprintList v.curFootprintName i
        v.curFootprintName hAt
        (sameNoCase_refl _ _) (no_earlier_match _ _ i _ hAt hDist)
    obtain ⟨hN, hP, hW⟩ := steppedSelection_found i v.footprintList.items.length hil
    have hStep : steppedSelection aMode
      (v.footprintList.FindString env.wxTolower v.curFootprintName)
        v.footprintList.GetCount = sel := by
      rw [hFind]
      unfold wxListBox.GetCount
      rcases hMode with ⟨hm, hs⟩ | ⟨hm, hs⟩ | ⟨hm, hs⟩ <;> subst hm <;> rw [hs]
      · exact hN
      · exact hP
      · exact hW
    have hRange : 0 ≤ sel ∧ sel < (v.footprintList.items.length : Int) := by
      rcases hMode with ⟨_, hs⟩ | ⟨_, hs⟩ | ⟨_, hs⟩ <;> rw [hs]
      · constructor
        · exact le_min (by omega) (by omega)
        · exact lt_of_le_of_lt (min_le_right _ _) (by omega)
      · constructor
        · exact le_max_right _ _
        · exact max_lt (by omega) (by omega)
      · constructor <;> omega
    have hNe : sel ≠ wxNOT_FOUND := by
      simp only [wxNOT_FOUND]
      omega
    obtain ⟨h1, h2⟩ := (SelectAndViewFootprint_fields env v aMode hNick).1
      (by rw [hStep]; exact hNe)
    rw [hStep] at h1 h2
    refine ⟨?_, ?_, ?_⟩
    · rw [h1]; rfl
    · rw [h1]; rfl
    · rw [h2]
      exact GetString_of_lt v.footprintList sel hRange.1 hRange.2
  · intro hNick hNone aMode
    have hFind : v.footprintList.FindString env.wxTolower v.curFootprintName = wxNOT_FOUND :=
      (findStringFrom_eq_notFound _ _ _ 0).mpr hNone
    exact (SelectAndViewFootprint_fields env v aMode hNick).2
      (by rw [hFind]; exact steppedSelection_notFound aMode _)
  · intro hEmpty aMode
    simp [SelectAndViewFootprint, hEmpty]

/-- The comparison is that of the collaborator's `wxTolower`, not of a fixed alphabet:
where `wxTolower` folds "É" to "é", the names "é1", "É1", "c1" are not pairwise distinct
under it, `FindString` finds the current name "É1" at index 0 and `NEXT_PART` selects
index 1. -/
theorem SelectAndViewFootprint_accented_names :
    ¬ (["é1", "É1", "c1"].Pairwise
        (fun a b => sameNoCase accentEnv.wxTolower a b = false))
    ∧ (sampleViewer "lib" "É1" [] ["é1", "É1", "c1"] 1 false).footprintList.FindString
        accentEnv.wxTolower "É1" = 0
    ∧ (SelectAndViewFootprint accentEnv
        (sampleViewer "lib" "É1" [] ["é1", "É1", "c1"] 1 false)
        NEXT_PART).footprintList.selection = 1 := by
  decide

/-- The board after `ClickOnFootprintList`: unchanged, or emptied and then holding what
`Add` makes of the pointer `loadFootprint` returned; emptied only, when `loadFootprint`
threw. -/
theorem ClickOnFootprintList_board (env : ViewerCollaborators) (v : ViewerState) :
    (ClickOnFootprintList env v).board = v.board
    ∨ (∃ what, env.loadFootprint v.curNickname
          (v.footprintList.GetString v.footprintList.GetSelection) = Except.error what
        ∧ (ClickOnFootprintList env v).board = { v.board with m_Modules := [] })
    ∨ (∃ footprint, env.loadFootprint v.curNickname
          (v.footprintList.GetString v.footprintList.GetSelection) = Except.ok footprint
        ∧ (ClickOnFootprintList env v).board
            = env.Add { v.board with m_Modules := [] } footprint) := by
  have u5 : ∀ w, (updateView env w).board = w.board :=
    fun w => (updateView_fields env w).2.2.2.2
  unfold ClickOnFootprintList
  by_cases h0 : v.footprintList.GetCount = 0
  · left; simp [h0]
  · by_cases h1 : v.footprintList.GetSelection < 0
    · left; simp [h0, h1]
    · by_cases h2 : sameNoCase env.wxTolower v.curFootprintName
          (v.footprintList.GetString v.footprintList.GetSelection) = true
      · left; simp [h0, h1, h2]
      · right
        cases hL : env.loadFootprint v.curNickname
            (v.footprintList.GetString v.footprintList.GetSelection) with
        | error what =>
          left
          refine ⟨what, rfl, ?_⟩
          by_cases hg : env.IsGalCanvasActive = true <;>
            simp [h0, h1, h2, hL, hg, u5, Update3D_Frame, UpdateTitle, ViewerState.call,
              ViewerState.log, ViewerState.setCurFootprintName]
        | ok footprint =>
          right
          refine ⟨footprint, rfl, ?_⟩
          by_cases hg : env.IsGalCanvasActive = true <;>
            simp [h0, h1, h2, hL, hg, u5, Update3D_Frame, UpdateTitle, ViewerState.call,
              ViewerState.log, ViewerState.setCurFootprintName]

/-- The board after `SelectCurrentFootprint`: unchanged when nothing was loaded;
otherwise the previous first footprint is removed (if there is one) and the loaded
footprint added. -/
theorem SelectCurrentFootprint_board (env : ViewerCollaborators) (v : ViewerState) :
    (env.LoadModuleFromLibrary v.curNickname = none →
      (SelectCurrentFootprint env v).board = v.board)
    ∧ (∀ module, env.LoadModuleFromLibrary v.curNickname = some module →
        (SelectCurrentFootprint env v).board
          = env.AddModuleToBoard
              (match v.board.m_Modules.head? with
               | some old => env.Remove v.board old
               | none => v.board)
              module.ClearFlags) := by
  constructor
  · intro h
    simp [SelectCurrentFootprint, h, ViewerState.call, ViewerState.log]
  · intro module h
    unfold SelectCurrentFootprint
    simp only [h, ViewerState.call, ViewerState.log, Update3D_Frame,
      ViewerState.setCurFootprintName, ViewerState.setCurNickname]
    cases ho : v.board.m_Modules.head? <;> (split_ifs <;> rfl)

/-- The board after `SelectAndViewFootprint`: unchanged, or emptied and then holding the
footprint `FootprintLoad` returned, when it returned one. -/
theorem SelectAndViewFootprint_board (env : ViewerCollaborators) (v : ViewerState)
    (aMode : Int) :
    (SelectAndViewFootprint env v aMode).board = v.board
    ∨ (SelectAndViewFootprint env v aMode).board = { v.board with m_Modules := [] }
    ∨ ∃ footprint, (SelectAndViewFootprint env v aMode).board
        = env.Add { v.board with m_Modules := [] } (some footprint) := by
  by_cases hNick : v.curNickname = ""
  · left; simp [SelectAndViewFootprint, hNick]
  · by_cases hs : steppedSelection aMode
        (v.footprintList.FindString env.wxTolower v.curFootprintName)
        v.footprintList.GetCount = wxNOT_FOUND
    · left
      exact ((SelectAndViewFootprint_fields env v aMode hNick).2 hs).2.2
    · have hb : (SelectAndViewFootprint env v aMode).board
          = (viewSelected env v (steppedSelection aMode
              (v.footprintList.FindString env.wxTolower v.curFootprintName)
                v.footprintList.GetCount)).board := by
        simp [SelectAndViewFootprint, hNick, hs, UpdateTitle, ViewerState.call,
          ViewerState.log]
      rw [hb, (viewSelected_fields env v _).2.2.2.2]
      cases env.FootprintLoad v.curNickname (v.footprintList.GetString (steppedSelection aMode
          (v.footprintList.FindString env.wxTolower v.curFootprintName)
            v.footprintList.GetCount)) with
      | none => right; left; rfl
      | some footprint => right; right; exact ⟨footprint, rfl⟩

/-- `ClickOnFootprintList`, case by case: nothing happens unless an entry is selected
whose label differs from the current footprint name (compared without regard to letter
case); otherwise the board is emptied and receives what `Add` makes of the footprint
`loadFootprint` returns, or stays empty when `loadFootprint` throws. -/
theorem ClickOnFootprintList_cases (env : ViewerCollaborators) (v : ViewerState) :
    ((v.footprintList.GetCount = 0 ∨ v.footprintList.GetSelection < 0
        ∨ sameNoCase env.wxTolower v.curFootprintName
            (v.footprintList.GetString v.footprintList.GetSelection) = true) →
      ClickOnFootprintList env v = v)
    ∧ (v.footprintList.GetCount ≠ 0 → 0 ≤ v.footprintList.GetSelection →
        sameNoCase env.wxTolower v.curFootprintName
            (v.footprintList.GetString v.footprintList.GetSelection) = false →
        (∀ footprint, env.loadFootprint v.curNickname
              (v.footprintList.GetString v.footprintList.GetSelection) = Except.ok footprint →
            (ClickOnFootprintList env v).board
              = env.Add { v.board with m_Modules := [] } footprint)
        ∧ (∀ what, env.loadFootprint v.curNickname
              (v.footprintList.GetString v.footprintList.GetSelection) = Except.error what →
            (ClickOnFootprintList env v).board = { v.board with m_Modules := [] })) := by
  have u5 : ∀ w, (updateView env w).board = w.board :=
    fun w => (updateView_fields env w).2.2.2.2
  constructor
  · intro h
    unfold ClickOnFootprintList
    by_cases h0 : v.footprintList.GetCount = 0
    · simp [h0]
    · by_cases h1 : v.footprintList.GetSelection < 0
      · simp [h0, h1]
      · rcases h with h | h | h
        · exact absurd h h0
        · exact absurd h h1
        · simp [h0, h1, h]
  · intro h0 h1 h2
    have h1' : ¬ v.footprintList.GetSelection < 0 := by omega
    constructor
    · intro footprint hL
      unfold ClickOnFootprintList
      by_cases hg : env.IsGalCanvasActive = true <;>
        simp [h0, h1', h2, hL, hg, u5, Update3D_Frame, UpdateTitle, ViewerState.call,
          ViewerState.log, ViewerState.setCurFootprintName]
    · intro what hL
      unfold ClickOnFootprintList
      by_cases hg : env.IsGalCanvasActive = true <;>
        simp [h0, h1', h2, hL, hg, u5, Update3D_Frame, UpdateTitle, ViewerState.call,
          ViewerState.log, ViewerState.setCurFootprintName]

/-- The board after `SelectAndViewFootprint`, case by case: nothing happens with an empty
nickname; the board is untouched when the step ends at `wxNOT_FOUND`; otherwise the
board is emptied and receives the footprint `FootprintLoad` returns for the entry the
step ends at, or stays empty when `FootprintLoad` returns null. -/
theorem SelectAndViewFootprint_cases (env : ViewerCollaborators) (v : ViewerState)
    (aMode : Int) :
    (v.curNickname = "" → SelectAndViewFootprint env v aMode = v)
    ∧ (v.curNickname ≠ "" →
        steppedSelection aMode (v.footprintList.FindString env.wxTolower v.curFootprintName)
          v.footprintList.GetCount = wxNOT_FOUND →
        (SelectAndViewFootprint env v aMode).board = v.board)
    ∧ (v.curNickname ≠ "" →
        steppedSelection aMode (v.footprintList.FindString env.wxTolower v.curFootprintName)
          v.footprintList.GetCount ≠ wxNOT_FOUND →
        (SelectAndViewFootprint env v aMode).board
          = (match env.FootprintLoad v.curNickname
                (v.footprintList.GetString (steppedSelection aMode
                  (v.footprintList.FindString env.wxTolower v.curFootprintName)
                  v.footprintList.GetCount)) with
             | some footprint => env.Add { v.board with m_Modules := [] } (some footprint)
             | none => { v.board with m_Modules := [] })) := by
  refine ⟨?_, ?_, ?_⟩
  · intro hNick
    simp [SelectAndViewFootprint, hNick]
  · intro hNick hs
    exact ((SelectAndViewFootprint_fields env v aMode hNick).2 hs).2.2
  · intro hNick hs
    have hb : (SelectAndViewFootprint env v aMode).board
        = (viewSelected env v (steppedSelection aMode
            (v.footprintList.FindString env.wxTolower v.curFootprintName)
            v.footprintList.GetCount)).board := by
      simp [SelectAndViewFootprint, hNick, hs, UpdateTitle, ViewerState.call,
        ViewerState.log]
    rw [hb, (viewSelected_fields env v _).2.2.2.2]

/-- C15: only one footprint is allowed on the viewer's board. When `Add` and
`AddModuleToBoard` put at most one footprint more on a board and `Remove` takes the
first footprint off it, a viewer board that holds at most one footprint before
`ClickOnFootprintList`, `SelectCurrentFootprint` or `SelectAndViewFootprint` holds at
most one after it. Each operation removes the previous footprint before it adds the
newly loaded one, and adds nothing when loading fails:

* `ClickOnFootprintList`, on a selected entry whose label is another name than the
  current one, leaves the board that `Add` makes of the emptied board and the footprint
  `loadFootprint` returned, and the emptied board when `loadFootprint` throws; on any
  other click nothing changes;
* `SelectCurrentFootprint` leaves the board that `AddModuleToBoard` makes of the board
  without its previous first footprint (`Remove`) and the loaded footprint, and the
  board as it was when nothing is loaded;
* `SelectAndViewFootprint`, when it steps to an entry, leaves the board that `Add` makes
  of the emptied board and the footprint `FootprintLoad` returned for that entry, and
  the emptied board when `FootprintLoad` returns null; when it steps to no entry the
  board is as it was, and with an empty nickname nothing changes. -/
theorem viewer_board_at_most_one (env : ViewerCollaborators) (v : ViewerState)
    (hAdd : ∀ b m, (env.Add b m).m_Modules.length ≤ b.m_Modules.length + 1)
    (hRemove : ∀ b old rest, b.m_Modules = old :: rest →
      (env.Remove b old).m_Modules.length ≤ rest.length)
    (hAddModule : ∀ b m,
      (env.AddModuleToBoard b m).m_Modules.length ≤ b.m_Modules.length + 1)
    (hOne : v.board.m_Modules.length ≤ 1) :
    ((ClickOnFootprintList env v).board.m_Modules.length ≤ 1
      ∧ (SelectCurrentFootprint env v).board.m_Modules.length ≤ 1
      ∧ (∀ aMode, (SelectAndViewFootprint env v aMode).board.m_Modules.length ≤ 1)
      ∧ (env.LoadModuleFromLibrary v.curNickname = none →
          (SelectCurrentFootprint env v).board = v.board)
      ∧ ((∃ what, env.loadFootprint v.curNickname
            (v.footprintList.GetString v.footprintList.GetSelection) = Except.error what) →
          (ClickOnFootprintList env v).board = v.board
          ∨ (ClickOnFootprintList env v).board.m_Modules = [])
      ∧ (∀ sel, env.FootprintLoad v.curNickname (v.footprintList.GetString sel) = none →
          (viewSelected env v sel).board.m_Modules = []))
    ∧ ((v.footprintList.GetCount = 0 ∨ v.footprintList.GetSelection < 0
          ∨ sameNoCase env.wxTolower v.curFootprintName
              (v.footprintList.GetString v.footprintList.GetSelection) = true) →
        ClickOnFootprintList env v = v)
    ∧ (v.footprintList.GetCount ≠ 0 → 0 ≤ v.footprintList.GetSelection →
        sameNoCase env.wxTolower v.curFootprintName
            (v.footprintList.GetString v.footprintList.GetSelection) = false →
        (∀ footprint, env.loadFootprint v.curNickname
              (v.footprintList.GetString v.footprintList.GetSelection) = Except.ok footprint →
            (ClickOnFootprintList env v).board
              = env.Add { v.board with m_Modules := [] } footprint)
        ∧ (∀ what, env.loadFootprint v.curNickname
              (v.footprintList.GetString v.footprintList.GetSelection) = Except.error what →
            (ClickOnFootprintList env v).board = { v.board with m_Modules := [] }))
    ∧ (∀ module, env.LoadModuleFromLibrary v.curNickname = some module →
        (SelectCurrentFootprint env v).board
          = env.AddModuleToBoard
              (match v.board.m_Modules.head? with
               | some old => env.Remove v.board old
               | none => v.board)
              module.ClearFlags)
    ∧ (∀ aMode : Int,
        (v.curNickname = "" → SelectAndViewFootprint env v aMode = v)
        ∧ (v.curNickname ≠ "" →
            steppedSelection aMode
              (v.footprintList.FindString env.wxTolower v.curFootprintName)
              v.footprintList.GetCount = wxNOT_FOUND →
            (SelectAndViewFootprint env v aMode).board = v.board)
        ∧ (v.curNickname ≠ "" →
            steppedSelection aMode
              (v.footprintList.FindString env.wxTolower v.curFootprintName)
              v.footprintList.GetCount ≠ wxNOT_FOUND →
            (SelectAndViewFootprint env v aMode).board
              = (match env.FootprintLoad v.curNickname
                    (v.footprintList.GetString (steppedSelection aMode
                      (v.footprintList.FindString env.wxTolower v.curFootprintName)
                      v.footprintList.GetCount)) with
                 | some footprint =>
                   env.Add { v.board with m_Modules := [] } (some footprint)
                 | none => { v.board with m_Modules := [] }))) := by
  refine ⟨?_, (ClickOnFootprintList_cases env v).1, (ClickOnFootprintList_cases env v).2,
    (SelectCurrentFootprint_board env v).2, fun aMode => SelectAndViewFootprint_cases env v aMode⟩
  have hEmpty : ∀ m, (env.Add { v.board with m_Modules := [] } m).m_Modules.length ≤ 1 := by
    intro m
    have := hAdd { v.board with m_Modules := [] } m
    simpa using this
  refine ⟨?_, ?_, ?_, (SelectCurrentFootprint_board env v).1, ?_, ?_⟩
  · rcases ClickOnFootprintList_board env v with h | ⟨_, _, h⟩ | ⟨m, _, h⟩
    · rw [h]; exact hOne
    · rw [h]; simp
    · rw [h]; exact hEmpty m
  · cases hL : env.LoadModuleFromLibrary v.curNickname with
    | none => rw [(SelectCurrentFootprint_board env v).1 hL]; exact hOne
    | some module =>
      rw [(SelectCurrentFootprint_board env v).2 module hL]
      refine le_trans (hAddModule _ _) ?_
      cases hm : v.board.m_Modules with
      | nil => simp [hm]
      | cons old rest =>
        have hr := hRemove v.board old rest hm
        have hrest : rest.length = 0 := by
          rw [hm] at hOne
          simp at hOne
          simp [hOne]
        simp only [hm, List.head?_cons]
        omega
  · intro aMode
    rcases SelectAndViewFootprint_board env v aMode with h | h | ⟨m, h⟩
    · rw [h]; exact hOne
    · rw [h]; simp
    · rw [h]; exact hEmpty (some m)
  · rintro ⟨what, hw⟩
    rcases ClickOnFootprintList_board env v with h | ⟨_, _, h⟩ | ⟨m, hm, _⟩
    · exact Or.inl h
    · right; rw [h]
    · rw [hw] at hm
      exact Except.noConfusion hm
  · intro sel hL
    rw [(viewSelected_fields env v sel).2.2.2.2, hL]

/-- C15 at a sample viewer (the footprint stamped 7 on the board, entry "b" selected
while the current footprint is "a"; every load returns the footprint stamped 1 or 2):
after `ClickOnFootprintList`, `SelectCurrentFootprint` and `SelectAndViewFootprint` the
board holds one footprint, the loaded one, and the previous footprint is gone. -/
theorem viewer_board_at_most_one_sample :
    (sampleViewer "lib" "a" ["lib"] ["a", "b"] 1 false).board.m_Modules = [sampleModule 0 7]
    ∧ (ClickOnFootprintList (sampleViewerEnv ["lib"] ["a", "b"])
        (sampleViewer "lib" "a" ["lib"] ["a", "b"] 1 false)).board.m_Modules.length ≤ 1
    ∧ (SelectCurrentFootprint (sampleViewerEnv ["lib"] ["a", "b"])
        (sampleViewer "lib" "a" ["lib"] ["a", "b"] 1 false)).board.m_Modules.length ≤ 1
    ∧ (SelectAndViewFootprint (sampleViewerEnv ["lib"] ["a", "b"])
        (sampleViewer "lib" "a" ["lib"] ["a", "b"] 1 false)
        NEXT_PART).board.m_Modules.length ≤ 1
    ∧ (ClickOnFootprintList (sampleViewerEnv ["lib"] ["a", "b"])
        (sampleViewer "lib" "a" ["lib"] ["a", "b"] 1 false)).board.m_Modules
          = [sampleModule 0 1]
    ∧ (SelectCurrentFootprint (sampleViewerEnv ["lib"] ["a", "b"])
        (sampleViewer "lib" "a" ["lib"] ["a", "b"] 1 false)).board.m_Modules
          = [(sampleModule 0 2).ClearFlags]
    ∧ (SelectAndViewFootprint (sampleViewerEnv ["lib"] ["a", "b"])
        (sampleViewer "lib" "a" ["lib"] ["a", "b"] 1 false)
        NEXT_PART).board.m_Modules = [sampleModule 0 1] := by
  have h := viewer_board_at_most_one (sampleViewerEnv ["lib"] ["a", "b"])
    (sampleViewer "lib" "a" ["lib"] ["a", "b"] 1 false)
    (by intro b m; cases m <;> simp [sampleViewerEnv])
    (by intro b old rest hb; simp [sampleViewerEnv, hb])
    (by intro b m; simp [sampleViewerEnv])
    (by decide)
  refine ⟨rfl, h.1.1, h.1.2.1, h.1.2.2.1 NEXT_PART, ?_, ?_, ?_⟩
  · rw [(h.2.2.1 (by decide) (by decide) (by decide)).1 (some (sampleModule 0 1)) rfl]
    rfl
  · rw [h.2.2.2.1 (sampleModule 0 2) rfl]
    rfl
  · rw [((h.2.2.2.2 NEXT_PART).2.2 (by decide) (by decide))]
    rfl

/-- The trace after `OnCloseWindow`, by the frame's modal and dismissed flags. -/
theorem OnCloseWindow_calls (env : ViewerCollaborators) (v : ViewerState) :
    ∃ pre : List ViewerCall,
      (∀ r s, ViewerCall.DismissModal r s ∉ pre) ∧ ViewerCall.Destroy ∉ pre
      ∧ newViewerCalls v (OnCloseWindow env v)
          = pre ++ (if v.modal = true then
                      (if v.dismissed = true then [] else [ViewerCall.DismissModal false ""])
                    else [ViewerCall.Destroy]) := by
  by_cases hg : env.IsGalCanvasActive = true
  · refine ⟨[ViewerCall.collab "m_mainToolBar->SetFocus", ViewerCall.collab "StopDrawing"],
      by simp, by simp, ?_⟩
    cases hm : v.modal <;> cases hd : v.dismissed <;>
      simp [newViewerCalls, OnCloseWindow, hg, hm, hd, ViewerState.call, ViewerState.log,
        ViewerState.DismissModal]
  · refine ⟨[ViewerCall.collab "m_mainToolBar->SetFocus"], by simp, by simp, ?_⟩
    cases hm : v.modal <;> cases hd : v.dismissed <;>
      simp [newViewerCalls, OnCloseWindow, hg, hm, hd, ViewerState.call, ViewerState.log,
        ViewerState.DismissModal]

/-- The values `ShowModal` returns are those of the state `OnCloseWindow` started from
unless it dismisses the frame itself. -/
theorem OnCloseWindow_values (env : ViewerCollaborators) (v : ViewerState)
    (h : v.modal = false ∨ v.dismissed = true) :
    (OnCloseWindow env v).modalRetVal = v.modalRetVal
    ∧ (OnCloseWindow env v).modalString = v.modalString := by
  by_cases hg : env.IsGalCanvasActive = true <;> rcases h with h | h <;>
    cases hm : v.modal <;>
    simp_all [OnCloseWindow, ViewerState.call, ViewerState.log, ViewerState.DismissModal]

/-- What `ExportSelectedFootprint` leaves: one `DismissModal` call followed by the request
to close, the frame dismissed, and the values of that call set. -/
theorem ExportSelectedFootprint_eq (env : ViewerCollaborators) (v : ViewerState) :
    (ExportSelectedFootprint env v).dismissed = true
    ∧ (ExportSelectedFootprint env v).modal = v.modal
    ∧ (0 ≤ v.footprintList.GetSelection →
        newViewerCalls v (ExportSelectedFootprint env v)
          = [ViewerCall.DismissModal true (env.Format v.curNickname
              (v.footprintList.GetString v.footprintList.GetSelection)), ViewerCall.Close true]
        ∧ (ExportSelectedFootprint env v).modalRetVal = true
        ∧ (ExportSelectedFootprint env v).modalString = env.Format v.curNickname
              (v.footprintList.GetString v.footprintList.GetSelection))
    ∧ (v.footprintList.GetSelection < 0 →
        newViewerCalls v (ExportSelectedFootprint env v)
          = [ViewerCall.DismissModal false "", ViewerCall.Close true]
        ∧ (ExportSelectedFootprint env v).modalRetVal = false
        ∧ (ExportSelectedFootprint env v).modalString = "") := by
  by_cases h : 0 ≤ v.footprintList.GetSelection
  · have h' : ¬ v.footprintList.GetSelection < 0 := by omega
    simp [ExportSelectedFootprint, h, h', newViewerCalls, ViewerState.DismissModal,
      ViewerState.log]
  · have h' : v.footprintList.GetSelection < 0 := by omega
    simp [ExportSelectedFootprint, h, h', newViewerCalls, ViewerState.DismissModal,
      ViewerState.log]

/-- C16: a modal footprint viewer is dismissed only once. `OnCloseWindow` calls
`DismissModal` exactly when the frame is modal and has not been dismissed, always as
`DismissModal( false )`, and destroys the frame exactly when it is not modal. When
`ExportSelectedFootprint` ran on a modal frame, it dismissed the frame once and requested
the close; the `OnCloseWindow` that close runs calls neither `DismissModal` nor `Destroy`,
and the return value and string `ShowModal` sees stay those `ExportSelectedFootprint`
set: true with the formatted identifier when an entry was selected, false otherwise. -/
theorem modal_viewer_dismissed_once (env : ViewerCollaborators) (v : ViewerState) :
    ((∃ r s, ViewerCall.DismissModal r s ∈ newViewerCalls v (OnCloseWindow env v))
        ↔ v.modal = true ∧ v.dismissed = false)
    ∧ (∀ r s, ViewerCall.DismissModal r s ∈ newViewerCalls v (OnCloseWindow env v) →
        r = false ∧ s = "")
    ∧ (ViewerCall.Destroy ∈ newViewerCalls v (OnCloseWindow env v) ↔ v.modal = false)
    ∧ (v.modal = true →
        (newViewerCalls v (ExportSelectedFootprint env v)).getLast?
            = some (ViewerCall.Close true)
        ∧ ((newViewerCalls v (ExportSelectedFootprint env v)).filter
              (fun c => match c with
                | ViewerCall.DismissModal _ _ => true
                | _ => false)).length = 1
        ∧ (∀ r s, ViewerCall.DismissModal r s ∉
            newViewerCalls (ExportSelectedFootprint env v)
              (OnCloseWindow env (ExportSelectedFootprint env v)))
        ∧ ViewerCall.Destroy ∉
            newViewerCalls (ExportSelectedFootprint env v)
              (OnCloseWindow env (ExportSelectedFootprint env v))
        ∧ (OnCloseWindow env (ExportSelectedFootprint env v)).modalRetVal
            = (ExportSelectedFootprint env v).modalRetVal
        ∧ (OnCloseWindow env (ExportSelectedFootprint env v)).modalString
            = (ExportSelectedFootprint env v).modalString
        ∧ (OnCloseWindow env (ExportSelectedFootprint env v)).modalRetVal
            = decide (0 ≤ v.footprintList.GetSelection)
        ∧ (0 ≤ v.footprintList.GetSelection →
            (OnCloseWindow env (ExportSelectedFootprint env v)).modalString
              = env.Format v.curNickname
                  (v.footprintList.GetString v.footprintList.GetSelection))) := by
  obtain ⟨pre, hpre1, hpre2, hcalls⟩ := OnCloseWindow_calls env v
  refine ⟨?_, ?_, ?_, ?_⟩
  · rw [hcalls]
    cases hm : v.modal <;> cases hd : v.dismissed <;> simp [hpre1]
  · intro r s
    rw [hcalls]
    cases hm : v.modal <;> cases hd : v.dismissed <;> simp [hpre1]
  · rw [hcalls]
    cases hm : v.modal <;> cases hd : v.dismissed <;> simp [hpre2]
  · intro hmodal
    obtain ⟨hdis, hmod, hsel, hnosel⟩ := ExportSelectedFootprint_eq env v
    obtain ⟨pre', hpre1', hpre2', hcalls'⟩ :=
      OnCloseWindow_calls env (ExportSelectedFootprint env v)
    have hvals := OnCloseWindow_values env (ExportSelectedFootprint env v) (Or.inr hdis)
    rw [hmod, hmodal, hdis] at hcalls'
    simp only [if_true, List.append_nil] at hcalls'
    refine ⟨?_, ?_, ?_, ?_, hvals.1, hvals.2, ?_, ?_⟩
    · by_cases h : 0 ≤ v.footprintList.GetSelection
      · rw [(hsel h).1]; rfl
      · rw [(hnosel (by omega)).1]; rfl
    · by_cases h : 0 ≤ v.footprintList.GetSelection
      · rw [(hsel h).1]; rfl
      · rw [(hnosel (by omega)).1]; rfl
    · intro r s; rw [hcalls']; exact hpre1' r s
    · rw [hcalls']; exact hpre2'
    · rw [hvals.1]
      by_cases h : 0 ≤ v.footprintList.GetSelection
      · rw [(hsel h).2.1]; simp [h]
      · rw [(hnosel (by omega)).2.1]; simp [h]
    · intro h
      rw [hvals.2, (hsel h).2.2]

/-- The comparison loop reaches the end of the nickname list exactly when every entry
from its start index on is the list box's label at that index. -/
theorem compareLoop_spec (libNicknames : List String) (libList : wxListBox) :
    ∀ (fuel ii : Nat), ii ≤ libNicknames.length → libNicknames.length - ii ≤ fuel →
      (compareLoop libNicknames libList fuel ii = libNicknames.length
        ↔ ∀ i : Nat, ii ≤ i → i < libNicknames.length →
            libNicknames[i]? = some (libList.GetString (i : Int))) := by
  intro fuel
  induction fuel with
  | zero =>
    intro ii h1 h2
    have : ii = libNicknames.length := by omega
    simp only [compareLoop, this, true_iff]
    intro i hi hlt
    omega
  | succ fuel ih =>
    intro ii h1 h2
    by_cases hlt : ii < libNicknames.length
    · by_cases hne : libNicknames[ii]? = some (libList.GetString (ii : Int))
      · have hstep : compareLoop libNicknames libList (fuel + 1) ii
            = compareLoop libNicknames libList fuel (ii + 1) := by
          rw [compareLoop, if_pos hlt, if_neg (not_not.mpr hne)]
        rw [hstep, ih (ii + 1) (by omega) (by omega)]
        constructor
        · intro h i hi hl
          by_cases he : i = ii
          · rw [he]; exact hne
          · exact h i (by omega) hl
        · intro h i hi hl
          exact h i (by omega) hl
      · have hstep : compareLoop libNicknames libList (fuel + 1) ii = ii := by
          rw [compareLoop, if_pos hlt, if_pos hne]
        rw [hstep]
        constructor
        · intro h; omega
        · intro h; exact absurd (h ii (le_refl _) hlt) hne
    · have hii : ii = libNicknames.length := by omega
      have hstep : compareLoop libNicknames libList (fuel + 1) ii = ii := by
        simp [compareLoop, hlt]
      rw [hstep]
      constructor
      · intro _ i hi hl; omega
      · intro _; exact hii

/-- The guard of `OnActivate` holds exactly when the two lists have the same entries. -/
theorem OnActivate_guard (libNicknames : List String) (libList : wxListBox) :
    (libNicknames.length = libList.GetCount
      ∧ compareLoop libNicknames libList libNicknames.length 0 = libNicknames.length)
    ↔ sameEntries libNicknames libList := by
  unfold sameEntries
  rw [compareLoop_spec libNicknames libList libNicknames.length 0 (by omega) (by omega)]
  constructor
  · rintro ⟨h1, h2⟩
    exact ⟨h1, fun i hi => h2 i (by omega) hi⟩
  · rintro ⟨h1, h2⟩
    exact ⟨h1, fun i _ hi => h2 i hi⟩

/-- Two lists with the same entries are the same list. -/
theorem sameEntries_iff (libNicknames : List String) (libList : wxListBox) :
    sameEntries libNicknames libList ↔ libList.items = libNicknames := by
  unfold sameEntries wxListBox.GetCount
  constructor
  · rintro ⟨hlen, h⟩
    apply List.ext_getElem?
    intro i
    by_cases hi : i < libNicknames.length
    · rw [h i hi]
      exact GetString_of_lt libList (i : Int) (by omega) (by omega)
    · rw [List.getElem?_eq_none (by omega), List.getElem?_eq_none (by omega)]
  · intro h
    refine ⟨by rw [h], ?_⟩
    intro i hi
    rw [← h]
    exact GetString_of_lt libList (i : Int) (by omega) (by rw [h]; omega)

/-- `ReCreateFootprintList` only appends to the trace. -/
theorem ReCreateFootprintList_trace (env : ViewerCollaborators) (v : ViewerState) :
    ∃ l, (ReCreateFootprintList env v).trace = v.trace ++ l := by
  unfold ReCreateFootprintList
  simp only []
  split_ifs <;>
    simp [ViewerState.setCurFootprintName, ViewerState.call, ViewerState.log]

/-- `ReCreateLibraryList` appends calls that end with the toolbar rebuild and the canvas
refresh. -/
theorem ReCreateLibraryList_trace (env : ViewerCollaborators) (v : ViewerState) :
    ∃ l, (ReCreateLibraryList env v).trace
      = v.trace ++ l ++ [ViewerCall.collab "ReCreateHToolbar",
          ViewerCall.collab "m_canvas->Refresh"] := by
  have key : ∀ w : ViewerState, w.trace = v.trace →
      ∃ l, (((ReCreateFootprintList env w).call "ReCreateHToolbar").call
          "m_canvas->Refresh").trace
        = v.trace ++ l ++ [ViewerCall.collab "ReCreateHToolbar",
            ViewerCall.collab "m_canvas->Refresh"] := by
    intro w hw
    obtain ⟨l, hl⟩ := ReCreateFootprintList_trace env w
    exact ⟨l, by simp [ViewerState.call, ViewerState.log, hl, hw]⟩
  unfold ReCreateLibraryList
  simp only []
  split_ifs
  · exact key _ rfl
  · exact key _ rfl

/-- C17: `OnActivate` rebuilds the library list (the calls of `ReCreateLibraryList`, which
end with the toolbar rebuild, followed by `UpdateTitle`) if and only if the frame is being
activated and the displayed library list differs from the project's logical library
list, where the two are equal exactly when they have the same length and the same entry
at every index; the rebuilt list box then shows the logical libraries. On deactivation,
or when the lists are equal, the library list, the current nickname and the current
footprint name are unchanged. -/
theorem OnActivate_rebuilds_iff (env : ViewerCollaborators) (v : ViewerState)
    (active : Bool) :
    (sameEntries env.GetLogicalLibs v.libList ↔ v.libList.items = env.GetLogicalLibs)
    ∧ (ViewerCall.collab "ReCreateHToolbar" ∈ newViewerCalls v (OnActivate env v active)
        ↔ active = true ∧ ¬ sameEntries env.GetLogicalLibs v.libList)
    ∧ (active = true ∧ ¬ sameEntries env.GetLogicalLibs v.libList →
        OnActivate env v active
          = UpdateTitle env (ReCreateLibraryList env (v.call "EDA_DRAW_FRAME::OnActivate"))
        ∧ (OnActivate env v active).libList.items = env.GetLogicalLibs)
    ∧ (¬ (active = true ∧ ¬ sameEntries env.GetLogicalLibs v.libList) →
        (OnActivate env v active).libList = v.libList
        ∧ (OnActivate env v active).curNickname = v.curNickname
        ∧ (OnActivate env v active).curFootprintName = v.curFootprintName) := by
  have hguard := OnActivate_guard env.GetLogicalLibs v.libList
  have hrebuild : active = true ∧ ¬ sameEntries env.GetLogicalLibs v.libList →
      OnActivate env v active
        = UpdateTitle env (ReCreateLibraryList env (v.call "EDA_DRAW_FRAME::OnActivate")) := by
    rintro ⟨ha, hs⟩
    rw [← hguard] at hs
    unfold OnActivate
    simp only [ha, ViewerState.call, ViewerState.log]
    rw [if_neg (by simp), if_neg hs]
  have hkeep : ¬ (active = true ∧ ¬ sameEntries env.GetLogicalLibs v.libList) →
      OnActivate env v active = v.call "EDA_DRAW_FRAME::OnActivate" := by
    intro h
    unfold OnActivate
    by_cases ha : active = true
    · have hs : sameEntries env.GetLogicalLibs v.libList := by
        by_contra hc; exact h ⟨ha, hc⟩
      rw [← hguard] at hs
      simp only [ha, ViewerState.call, ViewerState.log]
      rw [if_neg (by simp), if_pos hs]
    · simp [ha]
  refine ⟨sameEntries_iff _ _, ?_, ?_, ?_⟩
  · constructor
    · intro hmem
      by_contra hc
      rw [hkeep hc] at hmem
      simp [newViewerCalls, ViewerState.call, ViewerState.log] at hmem
    · intro h
      rw [hrebuild h]
      obtain ⟨l, hl⟩ := ReCreateLibraryList_trace env (v.call "EDA_DRAW_FRAME::OnActivate")
      have ht : (UpdateTitle env
          (ReCreateLibraryList env (v.call "EDA_DRAW_FRAME::OnActivate"))).trace
          = v.trace ++ ([ViewerCall.collab "EDA_DRAW_FRAME::OnActivate"] ++ l
              ++ [ViewerCall.collab "ReCreateHToolbar",
                ViewerCall.collab "m_canvas->Refresh"]) := by
        have hu : (UpdateTitle env
            (ReCreateLibraryList env (v.call "EDA_DRAW_FRAME::OnActivate"))).trace
            = (ReCreateLibraryList env (v.call "EDA_DRAW_FRAME::OnActivate")).trace := rfl
        rw [hu, hl]
        simp [ViewerState.call, ViewerState.log]
      unfold newViewerCalls
      rw [ht, List.drop_left]
      simp
  · intro h
    refine ⟨hrebuild h, ?_⟩
    rw [hrebuild h]
    exact (ReCreateLibraryList_eq env _).1
  · intro h
    rw [hkeep h]
    simp [ViewerState.call, ViewerState.log]

/-- The load command on a frame state where the confirmation passes and the library
returns a footprint: the board is cleared, the footprint added, and the first footprint
of the board gets its flags cleared and its texts reinstalled. -/
theorem loadModuleCommand_loaded (env : Collaborators) (t : EditState) (module : MODULE)
    (hGo : t.modified = true → env.IsEmpty t.board = false → env.IsOK = true)
    (hLoad : env.LoadModuleFromLibrary t.currentLib = some module) :
    ∃ s', loadModuleCommand env t = some s'
      ∧ s'.board
          = (env.AddModuleToBoard (env.Clear_Pcb false t.board).2 module).fixLoadedFootprint
      ∧ s'.modified = false := by
  cases hm : t.modified <;> cases he : env.IsEmpty t.board <;> cases hk : env.IsOK <;>
    first
    | (exfalso; have := hGo hm he; rw [hk] at this; exact Bool.noConfusion this)
    | simp [loadModuleCommand, confirmLoseFootprint, EditState.log, EditState.call,
        EditState.callOn, EditState.ClrModify, hm, he, hk, hLoad]

/-- A string has length 0 exactly when it is the empty string. -/
theorem String_length_eq_zero (t : String) : t.length = 0 ↔ t = "" := by
  cases t with
  | mk data =>
    cases data with
    | nil => exact ⟨fun _ => rfl, fun _ => rfl⟩
    | cons c cs =>
      constructor
      · intro h; exact absurd h (Nat.succ_ne_zero _)
      · intro h; exact absurd (congrArg String.data h) (List.cons_ne_nil _ _)

/-- Texts of a footprint after `reinstallRefAndValue`. -/
theorem reinstallRefAndValue_spec (m : MODULE) :
    (reinstallRefAndValue m).m_Reference.m_Type = TEXT_TYPE.TEXT_is_REFERENCE
    ∧ (reinstallRefAndValue m).m_Value.m_Type = TEXT_TYPE.TEXT_is_VALUE
    ∧ (reinstallRefAndValue m).m_Reference.m_Text
        = (if m.m_Reference.m_Text.length = 0 then "Ref**" else m.m_Reference.m_Text)
    ∧ (reinstallRefAndValue m).m_Value.m_Text
        = (if m.m_Value.m_Text.length = 0 then "Val**" else m.m_Value.m_Text)
    ∧ { reinstallRefAndValue m with m_Reference := m.m_Reference, m_Value := m.m_Value } = m := by
  unfold reinstallRefAndValue
  refine ⟨?_, ?_, ?_, ?_, rfl⟩
  · simp only []; split_ifs <;> rfl
  · simp only []; split_ifs <;> rfl
  · simp only []; split_ifs <;> rfl
  · simp only []; split_ifs <;> rfl

/-- C21: when `ID_MODEDIT_LOAD_MODULE` has loaded a footprint (the confirmation, if asked,
is accepted, `LoadModuleFromLibrary` returns a footprint and the board holds a footprint
after `AddModuleToBoard`), the footprint on the board has a non-empty reference text and
a non-empty value text: an empty reference has become "Ref**" and an empty value
"Val**", a non-empty reference or value text is as it was, the two texts are typed
`TEXT_is_REFERENCE` and `TEXT_is_VALUE`, and nothing else of the footprint has changed
but its flags, which are cleared. -/
theorem load_module_reinstalls_texts (env : Collaborators) (s : EditState)
    (module m : MODULE) (rest : List MODULE)
    (hGo : s.modified = true → env.IsEmpty s.board = false → env.IsOK = true)
    (hLoad : env.LoadModuleFromLibrary s.currentLib = some module)
    (hAdd : (env.AddModuleToBoard (env.Clear_Pcb false s.board).2 module).m_Modules
      = m :: rest) :
    ∃ s' m', Process_Special_Functions env s CmdId.ID_MODEDIT_LOAD_MODULE = some s'
      ∧ s'.board.m_Modules = m' :: rest
      ∧ m'.m_Reference.m_Text ≠ "" ∧ m'.m_Value.m_Text ≠ ""
      ∧ (m.m_Reference.m_Text = "" → m'.m_Reference.m_Text = "Ref**")
      ∧ (m.m_Value.m_Text = "" → m'.m_Value.m_Text = "Val**")
      ∧ (m.m_Reference.m_Text ≠ "" → m'.m_Reference.m_Text = m.m_Reference.m_Text)
      ∧ (m.m_Value.m_Text ≠ "" → m'.m_Value.m_Text = m.m_Value.m_Text)
      ∧ m'.m_Reference.m_Type = TEXT_TYPE.TEXT_is_REFERENCE
      ∧ m'.m_Value.m_Type = TEXT_TYPE.TEXT_is_VALUE
      ∧ { m' with m_Reference := m.m_Reference, m_Value := m.m_Value } = m.ClearFlags := by
  have hfirst := firstSwitch_other s CmdId.ID_MODEDIT_LOAD_MODULE (by decide) (by decide)
  have hP : Process_Special_Functions env s CmdId.ID_MODEDIT_LOAD_MODULE
      = loadModuleCommand env (firstSwitch s CmdId.ID_MODEDIT_LOAD_MODULE) := rfl
  have hb : (firstSwitch s CmdId.ID_MODEDIT_LOAD_MODULE).board = s.board := by
    rw [hfirst]; cases s.mouseCaptured <;> rfl
  have hmod : (firstSwitch s CmdId.ID_MODEDIT_LOAD_MODULE).modified = s.modified := by
    rw [hfirst]; cases s.mouseCaptured <;> rfl
  have hlib : (firstSwitch s CmdId.ID_MODEDIT_LOAD_MODULE).currentLib = s.currentLib := by
    rw [hfirst]; cases s.mouseCaptured <;> rfl
  obtain ⟨s', hs', hboard, _⟩ := loadModuleCommand_loaded env
    (firstSwitch s CmdId.ID_MODEDIT_LOAD_MODULE) module
    (by rw [hb, hmod]; exact hGo) (by rw [hlib]; exact hLoad)
  rw [hb] at hboard
  obtain ⟨hrt, hvt, hr, hv, hrest⟩ := reinstallRefAndValue_spec m.ClearFlags
  have hr : (reinstallRefAndValue m.ClearFlags).m_Reference.m_Text
      = (if m.m_Reference.m_Text.length = 0 then "Ref**" else m.m_Reference.m_Text) := hr
  have hv : (reinstallRefAndValue m.ClearFlags).m_Value.m_Text
      = (if m.m_Value.m_Text.length = 0 then "Val**" else m.m_Value.m_Text) := hv
  have hlen : ∀ t : String, t.length = 0 ↔ t = "" := String_length_eq_zero
  refine ⟨s', reinstallRefAndValue m.ClearFlags, by rw [hP]; exact hs', ?_, ?_, ?_, ?_, ?_,
    ?_, ?_, hrt, hvt, hrest⟩
  · rw [hboard]; simp [BOARD.fixLoadedFootprint, hAdd]
  · rw [hr]; split_ifs with h
    · decide
    · exact fun h' => h ((hlen _).2 h')
  · rw [hv]; split_ifs with h
    · decide
    · exact fun h' => h ((hlen _).2 h')
  · intro h; rw [hr, if_pos ((hlen _).2 h)]
  · intro h; rw [hv, if_pos ((hlen _).2 h)]
  · intro h; rw [hr, if_neg (fun h' => h ((hlen _).1 h'))]
  · intro h; rw [hv, if_neg (fun h' => h ((hlen _).1 h'))]

/-- C21 at a sample: the library returns a footprint whose reference and value texts are
empty and of another kind; after the load command the board holds that footprint with
the texts "Ref**" and "Val**". -/
theorem load_module_reinstalls_texts_sample :
    ∃ s' m', Process_Special_Functions (loadingEnv blankModule)
        (sampleState [sampleModule 3 1] none) CmdId.ID_MODEDIT_LOAD_MODULE = some s'
      ∧ s'.board.m_Modules = [m']
      ∧ m'.m_Reference = sampleText TEXT_TYPE.TEXT_is_REFERENCE "Ref**"
      ∧ m'.m_Value = sampleText TEXT_TYPE.TEXT_is_VALUE "Val**" := by
  obtain ⟨s', m', h1, h2, _, _, h5, h6, _, _, h9, h10, _⟩ :=
    load_module_reinstalls_texts (loadingEnv blankModule)
      (sampleState [sampleModule 3 1] none) blankModule blankModule []
      (by intro _ _; rfl) rfl rfl
  refine ⟨s', m', h1, h2, ?_, ?_⟩
  · have := h5 rfl
    cases hr : m'.m_Reference with
    | mk ty tx => rw [hr] at this h9; simp only at this h9; rw [this, h9]; rfl
  · have := h6 rfl
    cases hv : m'.m_Value with
    | mk ty tx => rw [hv] at this h10; simp only at this h10; rw [this, h10]; rfl

/-- C22: when no board editor frame exists, `ID_MODEDIT_INSERT_MODULE_IN_BOARD` and
`ID_MODEDIT_UPDATE_MODULE_IN_BOARD` both show the error "No board currently open." and
return. After the first switch (which ends a move in progress when the mouse is
captured) the error message is the only call made: no footprint copy is handed to a
commit, to `Exchange_Module` or to `PlaceModule`, the editor's board is untouched, there
is still no board editor, and the editor's modified flag is as it was. This holds
whatever the editor's board holds, also when it holds no footprint. -/
theorem no_board_open_error (env : Collaborators) (s : EditState) (id : CmdId)
    (hid : id = CmdId.ID_MODEDIT_INSERT_MODULE_IN_BOARD ∨
      id = CmdId.ID_MODEDIT_UPDATE_MODULE_IN_BOARD)
    (hNone : s.pcbframe = none) :
    ∃ s', Process_Special_Functions env s id = some s'
      ∧ newCalls s s'
          = (if s.mouseCaptured then [Call.CallEndMouseCapture] else [])
              ++ [Call.DisplayErrorMessage "No board currently open."]
      ∧ (∀ c ∈ newCalls s s', (∀ m, c ≠ Call.commitAdd m) ∧ (∀ msg, c ≠ Call.commitPush msg)
          ∧ (∀ a b, c ≠ Call.Exchange_Module a b) ∧ (∀ m, c ≠ Call.PlaceModule m))
      ∧ s'.board = s.board
      ∧ s'.pcbframe = none
      ∧ s'.mainBoard = none
      ∧ s'.modified = s.modified := by
  obtain ⟨htrace, hframe, hboard, hmod⟩ := firstSwitch_insert_update s id hid
  have hP : Process_Special_Functions env s id
      = insertOrUpdateModuleInBoard env (firstSwitch s id) id := by
    rcases hid with h | h <;> subst h <;> rfl
  have hbody : insertOrUpdateModuleInBoard env (firstSwitch s id) id
      = some ((firstSwitch s id).log (Call.DisplayErrorMessage "No board currently open.")) := by
    simp [insertOrUpdateModuleInBoard, hframe, hNone]
  have hcalls : newCalls s
      ((firstSwitch s id).log (Call.DisplayErrorMessage "No board currently open."))
      = (if s.mouseCaptured then [Call.CallEndMouseCapture] else [])
          ++ [Call.DisplayErrorMessage "No board currently open."] := by
    simp [newCalls, EditState.log, htrace]
  refine ⟨_, by rw [hP, hbody], hcalls, ?_, ?_, ?_, ?_, ?_⟩
  · intro c hc
    rw [hcalls] at hc
    cases hcap : s.mouseCaptured <;> simp [hcap] at hc
    · subst hc
      exact ⟨fun _ h => Call.noConfusion h, fun _ h => Call.noConfusion h,
        fun _ _ h => Call.noConfusion h, fun _ h => Call.noConfusion h⟩
    · rcases hc with hc | hc <;> subst hc <;>
        exact ⟨fun _ h => Call.noConfusion h, fun _ h => Call.noConfusion h,
          fun _ _ h => Call.noConfusion h, fun _ h => Call.noConfusion h⟩
  · simpa [EditState.log] using hboard
  · simpa [EditState.log, hNone] using hframe
  · simp only [EditState.mainBoard, EditState.log, hframe, hNone, Option.map_none']
  · simpa [EditState.log] using hmod

/-- C22 at a sample: with no board editor open, a modified editor board that holds a
footprint and the mouse captured, the insert command ends the move and shows the error;
board and modified flag are as before. -/
theorem no_board_open_error_sample :
    (sampleState [sampleModule 3 1] none).pcbframe = none
    ∧ ∃ s', Process_Special_Functions sampleEnv (sampleState [sampleModule 3 1] none)
          CmdId.ID_MODEDIT_INSERT_MODULE_IN_BOARD = some s'
      ∧ newCalls (sampleState [sampleModule 3 1] none) s'
          = [Call.CallEndMouseCapture, Call.DisplayErrorMessage "No board currently open."]
      ∧ s'.board = (sampleState [sampleModule 3 1] none).board
      ∧ s'.modified = true := by
  obtain ⟨s', h1, h2, _, h4, _, _, h7⟩ :=
    no_board_open_error sampleEnv (sampleState [sampleModule 3 1] none)
      CmdId.ID_MODEDIT_INSERT_MODULE_IN_BOARD (Or.inl rfl) rfl
  exact ⟨rfl, s', h1, h2, h4, h7⟩

/-- C23: in `DIALOG_EXCHANGE_FOOTPRINTS_BASE` the event wiring is symmetric. The sequence
of bindings (widget, event type, handler with its cast, event sink) the constructor
connects is equal, entry for entry, to the sequence the destructor disconnects: both
have 14 entries and the same binding at every index. So every binding connected at
construction is disconnected at destruction, and nothing is disconnected that was not
connected. -/
theorem exchange_dialog_wiring_symmetric :
    constructorConnects = destructorDisconnects
    ∧ constructorConnects.length = 14 ∧ destructorDisconnects.length = 14
    ∧ (∀ i : Nat, constructorConnects[i]? = destructorDisconnects[i]?)
    ∧ (∀ b : Binding, b ∈ constructorConnects → b ∈ destructorDisconnects)
    ∧ (∀ b : Binding, b ∈ destructorDisconnects → b ∈ constructorConnects) := by
  have h : constructorConnects = destructorDisconnects := by decide
  refine ⟨h, by decide, by decide, ?_, ?_, ?_⟩
  · intro i; rw [h]
  · intro b hb; rw [← h]; exact hb
  · intro b hb; rw [h]; exact hb

end Pcbnew
